import Mathlib

/-!
# libdshowcapture: closest-capability selection (`source/dshow-enum.cpp`)

A shallow embedding of the capability enumeration and of the video and audio
"closest media type" selectors, followed by the properties proved about them.

Conventions of the embedding.

* Signed C integers (`int`, `LONG`, `long long`) are mathematical integers `Int`.
  Signed overflow is undefined behaviour in C and is not modelled: the theorems
  speak about executions in which no signed operation overflows.  The one exception
  is the product `wBitsPerSample * nChannels` of `ClosestAudioMTCallback`: its two
  `WORD` operands are promoted to `int`, and the product is taken in 32-bit two's
  complement (`toLONG`), which is what the compiled code computes; the division by
  `8` truncates towards zero (`Int.tdiv`) and the store into the `WORD` field
  reduces modulo `2^16` (`toWORD`).
* Unsigned fields (`WORD`, `DWORD`, `ULONG`) are `Nat`; every store into one of
  them reduces modulo `2^16` or `2^32` explicitly.
* The C operator `%` truncates towards zero, which is `Int.tmod`.  A zero divisor
  is undefined behaviour (an integer division fault); functions that may reach
  one return `Option`, with `none` standing for the fault.
* `pbFormat` of a media type is a typed format block (`VIDEOINFOHEADER` for the
  video pin, `WAVEFORMATEX` for the audio pin) instead of a byte pointer.
-/

namespace DShow

/-! ## Data model -/

/-- Modelled from the spec: the declaration of `VideoFormat` is in a header that is not among the
sources.  Pixel formats: the enumerators that the sources name, with the wildcard `Any`, and
`other` for the remaining enumerators. -/
inductive VideoFormat where
  | Any
  | Unknown
  | ARGB
  | XRGB
  | YVYU
  | YUY2
  | UYVY
  | other (tag : Nat)
deriving DecidableEq

/-- Modelled from the spec: the declaration of `AudioFormat` is in a header that is not among the
sources.  Sample formats: 16-bit integer, 32-bit float, the wildcard `Any`, and `Unknown`. -/
inductive AudioFormat where
  | Any
  | Unknown
  | Wave16bit
  | WaveFloat
deriving DecidableEq

/-- Modelled from the spec: the declaration of `AudioMode` is in a header that is not among the
sources.  Audio modes: `Capture` and the further declared modes. -/
inductive AudioMode where
  | Capture
  | other (tag : Nat)
deriving DecidableEq

/-- Format-type GUIDs of `AM_MEDIA_TYPE::formattype`. -/
inductive FormatGuid where
  | FORMAT_VideoInfo
  | FORMAT_WaveFormatEx
  | other (tag : Nat)
deriving DecidableEq

/-- Windows `BITMAPINFOHEADER`, the fields the selector touches. -/
structure BITMAPINFOHEADER where
  biWidth : Int
  biHeight : Int
deriving DecidableEq

/-- Windows `VIDEOINFOHEADER`, the fields the selector touches. -/
structure VIDEOINFOHEADER where
  AvgTimePerFrame : Int
  bmiHeader : BITMAPINFOHEADER
deriving DecidableEq

/-- Windows `WAVEFORMATEX`: `WORD` and `DWORD` fields, kept as naturals. -/
structure WAVEFORMATEX where
  nChannels : Nat
  nSamplesPerSec : Nat
  nAvgBytesPerSec : Nat
  nBlockAlign : Nat
  wBitsPerSample : Nat
deriving DecidableEq

/-- Windows `AM_MEDIA_TYPE` with a typed format block. -/
structure AM_MEDIA_TYPE (φ : Type) where
  subtype : Nat
  formattype : FormatGuid
  pbFormat : φ
deriving DecidableEq

/-- Windows `SIZE`. -/
structure SIZE where
  cx : Int
  cy : Int
deriving DecidableEq

/-- Windows `VIDEO_STREAM_CONFIG_CAPS`, the fields read by the extraction. -/
structure VIDEO_STREAM_CONFIG_CAPS where
  MinOutputSize : SIZE
  MaxOutputSize : SIZE
  OutputGranularityX : Int
  OutputGranularityY : Int
  MinFrameInterval : Int
  MaxFrameInterval : Int
deriving DecidableEq

/-- Windows `AUDIO_STREAM_CONFIG_CAPS`, the fields read by the extraction (all `ULONG`). -/
structure AUDIO_STREAM_CONFIG_CAPS where
  MinimumChannels : Nat
  MaximumChannels : Nat
  ChannelsGranularity : Nat
  MinimumSampleFrequency : Nat
  MaximumSampleFrequency : Nat
  SampleFrequencyGranularity : Nat
deriving DecidableEq

/-- Modelled from the spec: the declaration of `VideoInfo` is in a header that is not among the
sources.  Video capability descriptor: format tag, width, height and frame-interval bounds,
width and height granularity, under the field names `dshow-enum.cpp` uses. -/
structure VideoInfo where
  minCX : Int
  minCY : Int
  maxCX : Int
  maxCY : Int
  granularityCX : Int
  granularityCY : Int
  minInterval : Int
  maxInterval : Int
  format : VideoFormat
deriving DecidableEq

/-- Modelled from the spec: the declaration of `AudioInfo` is in a header that is not among the
sources.  Audio capability descriptor: format tag, channel bounds and granularity, sample-rate
bounds and granularity, under the field names `dshow-enum.cpp` uses. -/
structure AudioInfo where
  minChannels : Int
  maxChannels : Int
  channelsGranularity : Int
  minSampleRate : Int
  maxSampleRate : Int
  sampleRateGranularity : Int
  format : AudioFormat
deriving DecidableEq

/-- Modelled from the spec: the declaration of `VideoConfig` is in a header that is not among
the sources.  Requested video configuration with the device identity and default-format flag
of its base `Config`, under the field names the sources use.  The callback is kept as the
identifier of the registered procedure, `none` when empty. -/
structure VideoConfig where
  name : String
  path : String
  useDefaultConfig : Bool
  callback : Option Nat
  cx : Int
  cy : Int
  frameInterval : Int
  format : VideoFormat
  internalFormat : VideoFormat
deriving DecidableEq

/-- Modelled from the spec: the declaration of `AudioConfig` is in a header that is not among
the sources.  Requested audio configuration with the device identity and default-format flag
of its base `Config`, under the field names the sources use. -/
structure AudioConfig where
  name : String
  path : String
  useDefaultConfig : Bool
  callback : Option Nat
  useVideoDevice : Bool
  sampleRate : Int
  channels : Int
  format : AudioFormat
  mode : AudioMode
deriving DecidableEq

/-- One successful `GetStreamCaps(i, &mt, caps.data())`: the media type and the capability
block handed to the callback. -/
structure StreamCaps (φ γ : Type) where
  mt : AM_MEDIA_TYPE φ
  data : γ
deriving DecidableEq

/-- The `IAMStreamConfig` of a pin as `EnumPinCaps` reads it: `none` when
`GetNumberOfCapabilities` fails, otherwise the results of `GetStreamCaps(i)` for
`i = 0 .. count-1`, each `none` when that call fails. -/
structure IAMStreamConfig (φ γ : Type) where
  streamCaps : Option (List (Option (StreamCaps φ γ)))

/-- A pin: the `IAMStreamConfig` it answers to a query for that interface, `none` for `NULL`. -/
structure IPin (φ γ : Type) where
  streamConfig : Option (IAMStreamConfig φ γ)

/-- Video capability entry of a pin: the caps pointer may be null. -/
abbrev VideoCaps := StreamCaps VIDEOINFOHEADER (Option VIDEO_STREAM_CONFIG_CAPS)

/-- Audio capability entry of a pin. -/
abbrev AudioCaps := StreamCaps WAVEFORMATEX AUDIO_STREAM_CONFIG_CAPS

/-! ## Integer conversions -/

/-- Store into a `WORD`. -/
def toWORD (x : Int) : Nat := (x % 65536).toNat

/-- Store into a `DWORD`. -/
def toDWORD (x : Int) : Nat := (x % 4294967296).toNat

/-- Read the 32 bits of a `DWORD`/`ULONG` as a `LONG`/`int`. -/
def toLONG (n : Nat) : Int :=
  if n % 4294967296 < 2147483648 then ((n % 4294967296 : Nat) : Int)
  else ((n % 4294967296 : Nat) : Int) - 4294967296

/-! ## Capability enumeration (`EnumPinCaps`) -/

/-- The `for` loop of `EnumPinCaps`: entries whose `GetStreamCaps` failed are skipped, the
callback is run on the others, and a callback answer `false` breaks out of the loop. -/
def EnumPinCaps.loop {φ γ σ : Type} (callback : σ → AM_MEDIA_TYPE φ → γ → Option (σ × Bool)) :
    List (Option (StreamCaps φ γ)) → σ → Option σ
  | [], param => some param
  | none :: rest, param => EnumPinCaps.loop callback rest param
  | some caps :: rest, param =>
    match callback param caps.mt caps.data with
    | none => none
    | some (param', continueEnum) =>
      if continueEnum then EnumPinCaps.loop callback rest param' else some param'

/-- `EnumPinCaps(pin, callback, param)`: the boolean result and the final content of `param`. -/
def EnumPinCaps {φ γ σ : Type} (pin : IPin φ γ)
    (callback : σ → AM_MEDIA_TYPE φ → γ → Option (σ × Bool)) (param : σ) : Option (Bool × σ) :=
  match pin.streamConfig with
  | none => some (false, param)
  | some config =>
    match config.streamCaps with
    | some caps => (EnumPinCaps.loop callback caps param).map (fun p => (true, p))
    | none => some (false, param)

/-! ## Descriptor extraction -/

/-- `Get_FORMAT_VideoInfo_Data(info, mt, data)`: `none` for the result `false`, otherwise the
descriptor written to `info`.  `GetMediaTypeVFormat` belongs to `dshow-formats` and is a
parameter: it yields the pixel format of a media type, or `none` when it returns `false`. -/
def Get_FORMAT_VideoInfo_Data (GetMediaTypeVFormat : AM_MEDIA_TYPE VIDEOINFOHEADER → Option VideoFormat)
    (mt : AM_MEDIA_TYPE VIDEOINFOHEADER) (data : Option VIDEO_STREAM_CONFIG_CAPS) : Option VideoInfo :=
  let viHeader := mt.pbFormat
  let bmiHeader := viHeader.bmiHeader
  match GetMediaTypeVFormat mt with
  | none => none
  | some format =>
    match data with
    | some vscc =>
      let minCX := vscc.MinOutputSize.cx
      let minCY := vscc.MinOutputSize.cy
      let maxCX := vscc.MaxOutputSize.cx
      let maxCY := vscc.MaxOutputSize.cy
      let unconstrained := minCX = 0 ∨ minCY = 0 ∨ maxCX = 0 ∨ maxCY = 0
      some {
        format := format
        minInterval := vscc.MinFrameInterval
        maxInterval := vscc.MaxFrameInterval
        minCX := if unconstrained then bmiHeader.biWidth else minCX
        maxCX := if unconstrained then bmiHeader.biWidth else maxCX
        minCY := if unconstrained then bmiHeader.biHeight else minCY
        maxCY := if unconstrained then bmiHeader.biHeight else maxCY
        granularityCX := max vscc.OutputGranularityX 1
        granularityCY := max vscc.OutputGranularityY 1 }
    | none => none

/-- `Get_FORMAT_WaveFormatEx_Data(info, mt, data)`: the content of `info` afterwards.  The
argument `info` is the content before the call; `format` keeps it when the sample width is
neither 16 nor 32. -/
def Get_FORMAT_WaveFormatEx_Data (info : AudioInfo) (mt : AM_MEDIA_TYPE WAVEFORMATEX)
    (data : AUDIO_STREAM_CONFIG_CAPS) : AudioInfo :=
  let ascc := data
  let wfex := mt.pbFormat
  { format :=
      if wfex.wBitsPerSample = 16 then AudioFormat.Wave16bit
      else if wfex.wBitsPerSample = 32 then AudioFormat.WaveFloat
      else info.format
    minChannels := toLONG ascc.MinimumChannels
    maxChannels := toLONG ascc.MaximumChannels
    channelsGranularity := toLONG ascc.ChannelsGranularity
    minSampleRate := toLONG ascc.MinimumSampleFrequency
    maxSampleRate := toLONG ascc.MaximumSampleFrequency
    sampleRateGranularity := toLONG ascc.SampleFrequencyGranularity }

/-- `ClampToGranularity(val, minVal, granularity)`: the new content of `val`, `none` when the
divisor of `%` is zero. -/
def ClampToGranularity (val minVal granularity : Int) : Option Int :=
  if granularity = 0 then none
  else some (val - Int.tmod (val - minVal) granularity)

/-! ## Video selector -/

/-- `struct ClosestVideoData`; `mt` is the caller's `MediaType`, `none` while it is null. -/
structure ClosestVideoData where
  config : VideoConfig
  mt : Option (AM_MEDIA_TYPE VIDEOINFOHEADER)
  bestVal : Int
  found : Bool
deriving DecidableEq

/-- Constructor of `ClosestVideoData`. -/
def ClosestVideoData.new (config : VideoConfig) (mt : Option (AM_MEDIA_TYPE VIDEOINFOHEADER)) :
    ClosestVideoData :=
  { config := config, mt := mt, bestVal := 0, found := false }

/-- Local `xVal` of `ClosestVideoMTCallback`. -/
def xVal (config : VideoConfig) (info : VideoInfo) : Int :=
  if config.cx < info.minCX then info.minCX - config.cx
  else if config.cx > info.maxCX then config.cx - info.maxCX
  else 0

/-- Local `yVal` of `ClosestVideoMTCallback`. -/
def yVal (config : VideoConfig) (info : VideoInfo) : Int :=
  if config.cy < info.minCY then info.minCY - config.cy
  else if config.cy > info.maxCY then config.cy - info.maxCY
  else 0

/-- Local `frameVal` of `ClosestVideoMTCallback`. -/
def frameVal (config : VideoConfig) (info : VideoInfo) : Int :=
  if config.frameInterval < info.minInterval then info.minInterval - config.frameInterval
  else if config.frameInterval > info.maxInterval then config.frameInterval - info.maxInterval
  else 0

/-- `ClosestVideoMTCallback(data, mt, capData)`: the new content of `data` and the boolean
result (`true` to go on enumerating).  `GetBitmapInfoHeader(copiedMT)` is the `bmiHeader` of the
format block, the header `Get_FORMAT_VideoInfo_Data` reads for this format type. -/
def ClosestVideoMTCallback (GetMediaTypeVFormat : AM_MEDIA_TYPE VIDEOINFOHEADER → Option VideoFormat)
    (data : ClosestVideoData) (mt : AM_MEDIA_TYPE VIDEOINFOHEADER)
    (capData : Option VIDEO_STREAM_CONFIG_CAPS) : Option (ClosestVideoData × Bool) :=
  if mt.formattype ≠ FormatGuid.FORMAT_VideoInfo then some (data, true)
  else
    match Get_FORMAT_VideoInfo_Data GetMediaTypeVFormat mt capData with
    | none => some (data, true)
    | some info =>
      if data.config.internalFormat ≠ VideoFormat.Any ∧ data.config.internalFormat ≠ info.format then
        some (data, true)
      else
        let totalVal := frameVal data.config info + yVal data.config info + xVal data.config info
        if data.found = false ∨ data.bestVal > totalVal then do
          let biWidth ←
            if xVal data.config info = 0 then
              ClampToGranularity data.config.cx info.minCX info.granularityCX
            else pure mt.pbFormat.bmiHeader.biWidth
          let biHeight ←
            if yVal data.config info = 0 then
              ClampToGranularity data.config.cy info.minCY info.granularityCY
            else pure mt.pbFormat.bmiHeader.biHeight
          let AvgTimePerFrame :=
            if frameVal data.config info = 0 then data.config.frameInterval
            else mt.pbFormat.AvgTimePerFrame
          let copiedMT : AM_MEDIA_TYPE VIDEOINFOHEADER :=
            { mt with pbFormat :=
                { AvgTimePerFrame := AvgTimePerFrame
                  bmiHeader := { biWidth := biWidth, biHeight := biHeight } } }
          pure ({ data with found := true, bestVal := totalVal, mt := some copiedMT },
            decide (totalVal ≠ 0))
        else some (data, true)

/-- A capture filter as the selectors see it: the outcome of `GetFilterPin` (from `dshow-base`)
for its capture output pin of the given media kind, `none` when the call fails or the pin is
`NULL`. -/
structure IBaseFilter where
  videoPin : Option (IPin VIDEOINFOHEADER (Option VIDEO_STREAM_CONFIG_CAPS))
  audioPin : Option (IPin WAVEFORMATEX AUDIO_STREAM_CONFIG_CAPS)

/-- `GetClosestVideoMediaType(filter, config, mt)`: the boolean result and the content of the
caller's `mt` afterwards. -/
def GetClosestVideoMediaType (GetMediaTypeVFormat : AM_MEDIA_TYPE VIDEOINFOHEADER → Option VideoFormat)
    (filter : IBaseFilter) (config : VideoConfig) (mt : Option (AM_MEDIA_TYPE VIDEOINFOHEADER)) :
    Option (Bool × Option (AM_MEDIA_TYPE VIDEOINFOHEADER)) :=
  let data := ClosestVideoData.new config mt
  match filter.videoPin with
  | none => some (false, mt)
  | some pin =>
    match EnumPinCaps pin (ClosestVideoMTCallback GetMediaTypeVFormat) data with
    | none => none
    | some (success, data) =>
      if !success then some (false, data.mt)
      else some (data.found, data.mt)

/-! ## Audio selector -/

/-- `struct ClosestAudioData`; `mt` is the caller's `MediaType`, `none` while it is null. -/
structure ClosestAudioData where
  config : AudioConfig
  mt : Option (AM_MEDIA_TYPE WAVEFORMATEX)
  bestVal : Int
  found : Bool
deriving DecidableEq

/-- Constructor of `ClosestAudioData`. -/
def ClosestAudioData.new (config : AudioConfig) (mt : Option (AM_MEDIA_TYPE WAVEFORMATEX)) :
    ClosestAudioData :=
  { config := config, mt := mt, bestVal := 0, found := false }

/-- Local `sampleRateVal` of `ClosestAudioMTCallback`. -/
def sampleRateVal (config : AudioConfig) (info : AudioInfo) : Int :=
  if config.sampleRate < info.minSampleRate then info.minSampleRate - config.sampleRate
  else if config.sampleRate > info.maxSampleRate then config.sampleRate - info.maxSampleRate
  else 0

/-- Local `channelsVal` of `ClosestAudioMTCallback`; the second test reads
`info.maxChannels > data.config.channels`, as in the source. -/
def channelsVal (config : AudioConfig) (info : AudioInfo) : Int :=
  if config.channels < info.minChannels then info.minChannels - config.channels
  else if info.maxChannels > config.channels then config.channels - info.maxChannels
  else 0

/-- `ClosestAudioMTCallback(data, mt, capData)`: the new content of `data` and the boolean
result.  The first argument is the content of the local `AudioInfo info` before it is filled,
which the source leaves uninitialised. -/
def ClosestAudioMTCallback (uninit : AudioInfo) (data : ClosestAudioData)
    (mt : AM_MEDIA_TYPE WAVEFORMATEX) (capData : AUDIO_STREAM_CONFIG_CAPS) :
    Option (ClosestAudioData × Bool) :=
  if mt.formattype ≠ FormatGuid.FORMAT_WaveFormatEx then some (data, true)
  else
    let info := Get_FORMAT_WaveFormatEx_Data uninit mt capData
    let wfex := mt.pbFormat
    if data.config.format ≠ AudioFormat.Any ∧ data.config.format ≠ info.format then
      some (data, true)
    else
      let totalVal := sampleRateVal data.config info + channelsVal data.config info
      if data.found = false ∨ data.bestVal > totalVal then do
        let wfex ←
          if channelsVal data.config info = 0 then do
            let channels ←
              ClampToGranularity data.config.channels info.minChannels info.channelsGranularity
            let wfex := { wfex with nChannels := toWORD channels }
            pure { wfex with nBlockAlign := toWORD (Int.tdiv (toLONG (wfex.wBitsPerSample * wfex.nChannels)) 8) }
          else pure wfex
        let wfex ←
          if sampleRateVal data.config info = 0 then do
            let wfex := { wfex with nSamplesPerSec := toDWORD data.config.sampleRate }
            let val ←
              ClampToGranularity (toLONG wfex.nSamplesPerSec) info.minSampleRate
                info.sampleRateGranularity
            pure { wfex with nSamplesPerSec := toDWORD val }
          else pure wfex
        let wfex :=
          { wfex with nAvgBytesPerSec := (wfex.nSamplesPerSec * wfex.nBlockAlign) % 4294967296 }
        let copiedMT : AM_MEDIA_TYPE WAVEFORMATEX := { mt with pbFormat := wfex }
        pure ({ data with mt := some copiedMT, found := true, bestVal := totalVal },
          decide (totalVal ≠ 0))
      else some (data, true)

/-- `GetClosestAudioMediaType(filter, config, mt)`: the boolean result and the content of the
caller's `mt` afterwards. -/
def GetClosestAudioMediaType (uninit : AudioInfo) (filter : IBaseFilter) (config : AudioConfig)
    (mt : Option (AM_MEDIA_TYPE WAVEFORMATEX)) :
    Option (Bool × Option (AM_MEDIA_TYPE WAVEFORMATEX)) :=
  let data := ClosestAudioData.new config mt
  match filter.audioPin with
  | none => some (false, mt)
  | some pin =>
    match EnumPinCaps pin (ClosestAudioMTCallback uninit) data with
    | none => none
    | some (success, data) =>
      if !success then some (false, data.mt)
      else some (data.found, data.mt)

/-- `EnumVideoCap(caps, mt, data)`: the vector afterwards (the result is always `true`). -/
def EnumVideoCap (GetMediaTypeVFormat : AM_MEDIA_TYPE VIDEOINFOHEADER → Option VideoFormat)
    (caps : List VideoInfo) (mt : AM_MEDIA_TYPE VIDEOINFOHEADER)
    (data : Option VIDEO_STREAM_CONFIG_CAPS) : Option (List VideoInfo × Bool) :=
  if mt.formattype = FormatGuid.FORMAT_VideoInfo then
    match Get_FORMAT_VideoInfo_Data GetMediaTypeVFormat mt data with
    | some info => some (caps ++ [info], true)
    | none => some (caps, true)
  else some (caps, true)

/-- `EnumAudioCap(caps, mt, data)`: the vector afterwards (the result is always `true`). -/
def EnumAudioCap (uninit : AudioInfo) (caps : List AudioInfo) (mt : AM_MEDIA_TYPE WAVEFORMATEX)
    (data : AUDIO_STREAM_CONFIG_CAPS) : Option (List AudioInfo × Bool) :=
  if mt.formattype = FormatGuid.FORMAT_WaveFormatEx then
    some (caps ++ [Get_FORMAT_WaveFormatEx_Data uninit mt data], true)
  else some (caps, true)

/-! ## Capture session (`source/device.cpp`)

The session operations are state-passing functions.  The answers of everything outside the
session during one operation (device enumerator, device pins, graph engine, and the helper
functions of the repository that are not among the sources) are collected in `Env`; every
operation returns, next to its result and the new session state, the list of calls it made
to the graph engine (the graph, the capture graph builder, the media control and the two
`CoCreateInstance` calls), in order. -/

/-- Windows `HRESULT`, a signed 32-bit value. -/
abbrev HRESULT := Int

/-- Windows macro `FAILED(hr)`. -/
def FAILED (hr : HRESULT) : Bool := decide (hr < 0)

/-- The constant `(HRESULT)0x8007001F` tested by `Start`. -/
def HRESULT_DEVICE_IN_USE : HRESULT := toLONG 0x8007001F

/-- Modelled from the spec: the declaration of `Result` is in a header that is not among the
sources.  Outcome of `Start`: success, device in use, or error. -/
inductive Result where
  | Success
  | InUse
  | Error
deriving DecidableEq

/-- The media kind argument `MEDIATYPE_Video` / `MEDIATYPE_Audio`, also used to name the
stream a sink adapter or a sample callback belongs to. -/
inductive MediaKind where
  | Video
  | Audio
deriving DecidableEq

/-- Sub-type GUIDs a sink adapter can expect: the five constants `SetupVideoCapture` names and
the sub-type of a media type. -/
inductive MediaSubtype where
  | MEDIASUBTYPE_RGB32
  | MEDIASUBTYPE_ARGB32
  | MEDIASUBTYPE_YVYU
  | MEDIASUBTYPE_YUY2
  | MEDIASUBTYPE_UYVY
  | ofMediaType (subtype : Nat)
deriving DecidableEq

/-- Modelled from the spec: the declaration of `PinCaptureInfo` is in a header that is not
among the sources.  What a sink adapter is created with: the stream whose session callback
its closure forwards samples to, and the expected sub-type.  The expected major type is left
out, the media type model having no major type. -/
structure PinCaptureInfo where
  callback : MediaKind
  expectedSubType : MediaSubtype
deriving DecidableEq

/-- Modelled from the spec: the declaration of `CaptureFilter` is in a header that is not among
the sources.  The capture sink adapter, as created by `new CaptureFilter(info)`. -/
structure CaptureFilter where
  info : PinCaptureInfo
deriving DecidableEq

/-- A filter handed to `AddFilter` / `RemoveFilter`: a device source filter or a sink adapter. -/
inductive GraphFilter where
  | source (filter : IBaseFilter)
  | capture (filter : CaptureFilter)

/-- Calls to the graph engine. -/
inductive EngineCall where
  | CreateFilterGraph
  | CreateCaptureGraphBuilder2
  | QueryMediaControl
  | SetFiltergraph
  | AddFilter (filter : GraphFilter)
  | RemoveFilter (filter : Option GraphFilter)
  | RenderStream (type : MediaKind)
  | FindPin (type : MediaKind)
  | Connect (type : MediaKind)
  | EnumFilters
  | Run
  | Stop

/-- Answers of the outside world during one session operation. -/
structure Env where
  /-- `GetMediaTypeVFormat` (not among the sources): the pixel format, `none` for `false`. -/
  GetMediaTypeVFormat : AM_MEDIA_TYPE VIDEOINFOHEADER → Option VideoFormat
  /-- Content of the out parameter of `GetMediaTypeVFormat` after it returned `false`, given the
  content before. -/
  vformatAfterFailure : AM_MEDIA_TYPE VIDEOINFOHEADER → VideoFormat → VideoFormat
  /-- Whether `GetBitmapInfoHeader` (not among the sources) returns a header rather than `NULL`;
  the header is then `pbFormat.bmiHeader`. -/
  hasBitmapInfoHeader : AM_MEDIA_TYPE VIDEOINFOHEADER → Bool
  /-- Content of the uninitialised local `AudioInfo` of the audio selector. -/
  uninit : AudioInfo
  /-- `GetDeviceFilter` (not among the sources) for a device category, name and path: `none`
  for `false`, otherwise the filter written to the out parameter, `none` for `NULL`. -/
  GetDeviceFilter : MediaKind → String → String → Option (Option IBaseFilter)
  /-- `IAMStreamConfig::GetFormat` on the video capture pin: `none` for a failure. -/
  videoGetFormat : IBaseFilter → Option (AM_MEDIA_TYPE VIDEOINFOHEADER)
  /-- `IAMStreamConfig::SetFormat` on the video capture pin. -/
  videoSetFormat : IBaseFilter → Option (AM_MEDIA_TYPE VIDEOINFOHEADER) → HRESULT
  /-- `IAMStreamConfig::GetFormat` on the audio capture pin: `none` for a failure. -/
  audioGetFormat : IBaseFilter → Option (AM_MEDIA_TYPE WAVEFORMATEX)
  /-- `IAMStreamConfig::SetFormat` on the audio capture pin. -/
  audioSetFormat : IBaseFilter → Option (AM_MEDIA_TYPE WAVEFORMATEX) → HRESULT
  /-- `CoCreateInstance(CLSID_FilterGraph, ...)`. -/
  createFilterGraph : HRESULT
  /-- `CoCreateInstance(CLSID_CaptureGraphBuilder2, ...)`. -/
  createCaptureGraphBuilder2 : HRESULT
  /-- `graph->QueryInterface(IID_IMediaControl, ...)`. -/
  queryMediaControl : HRESULT
  /-- `builder->SetFiltergraph(graph)`. -/
  setFiltergraph : HRESULT
  /-- `builder->RenderStream(category, type, filter, NULL, capture)`. -/
  renderStream : MediaKind → HRESULT
  /-- `builder->FindPin(filter, PINDIR_OUTPUT, category, type, FALSE, 0, &filterPin)`. -/
  findPin : MediaKind → HRESULT
  /-- `graph->Connect(filterPin, capturePin)`. -/
  connect : MediaKind → HRESULT
  /-- `control->Run()`. -/
  run : HRESULT

/-- Modelled from the spec: the declaration of `HDevice` is in a header that is not among the
sources.  Session state: the members `device.cpp` uses; an interface pointer without content
of interest (`graph`, `builder`, `control`) is kept as "is not `NULL`". -/
structure HDevice where
  graph : Bool
  builder : Bool
  control : Bool
  videoFilter : Option IBaseFilter
  audioFilter : Option IBaseFilter
  videoCapture : Option CaptureFilter
  audioCapture : Option CaptureFilter
  videoMediaType : Option (AM_MEDIA_TYPE VIDEOINFOHEADER)
  audioMediaType : Option (AM_MEDIA_TYPE WAVEFORMATEX)
  videoConfig : VideoConfig
  audioConfig : AudioConfig
  initialized : Bool
  active : Bool

/-- Result, new session state and engine calls of an operation. -/
structure Ret (ρ : Type) where
  result : ρ
  device : HDevice
  calls : List EngineCall

/-- Result, new session state, content of the caller's configuration object afterwards (`none`
for a null pointer) and engine calls of a configuration operation. -/
structure ConfigRet (κ : Type) where
  result : Bool
  device : HDevice
  config : Option κ
  calls : List EngineCall

/-- Constructor `HDevice::HDevice()`; the two arguments are the default-constructed
configurations. -/
def HDevice.new (videoConfig : VideoConfig) (audioConfig : AudioConfig) : HDevice :=
  { graph := false, builder := false, control := false,
    videoFilter := none, audioFilter := none, videoCapture := none, audioCapture := none,
    videoMediaType := none, audioMediaType := none,
    videoConfig := videoConfig, audioConfig := audioConfig,
    initialized := false, active := false }

/-- `HDevice::EnsureInitialized`. -/
def HDevice.EnsureInitialized (d : HDevice) : Bool :=
  if !d.initialized then false else true

/-- `HDevice::EnsureActive`. -/
def HDevice.EnsureActive (d : HDevice) : Bool :=
  if !d.active then false else true

/-- `HDevice::EnsureInactive`. -/
def HDevice.EnsureInactive (d : HDevice) : Bool :=
  if d.active then false else true

/-- A media sample as the sample callbacks read it: `GetActualDataLength()` (stored in an
`int`), the result and pointer of `GetPointer`, the result and times of `GetTime`. -/
structure IMediaSample where
  actualDataLength : Int
  getPointer : HRESULT
  ptr : Nat
  getTime : HRESULT
  startTime : Int
  stopTime : Int
deriving DecidableEq

/-- One invocation of a registered frame callback: the stream whose configuration holds the
callback, the registered procedure, and the four arguments. -/
structure CallbackInvocation where
  stream : MediaKind
  proc : Nat
  ptr : Nat
  size : Int
  startTime : Int
  stopTime : Int
deriving DecidableEq

/-- `HDevice::AudioCallback(sample)`: the callback invocations it makes; `none` is a null
sample pointer. -/
def HDevice.AudioCallback (d : HDevice) (sample : Option IMediaSample) : List CallbackInvocation :=
  match sample, d.audioConfig.callback with
  | none, _ => []
  | some _, none => []
  | some sample, some callback =>
    let size := sample.actualDataLength
    if size = 0 then []
    else if FAILED sample.getPointer then []
    else if FAILED sample.getTime then []
    else [{ stream := MediaKind.Audio, proc := callback, ptr := sample.ptr, size := size,
            startTime := sample.startTime, stopTime := sample.stopTime }]

/-- `HDevice::VideoCallback(sample)`: the callback invocations it makes; `none` is a null
sample pointer. -/
def HDevice.VideoCallback (d : HDevice) (sample : Option IMediaSample) : List CallbackInvocation :=
  match sample, d.videoConfig.callback with
  | none, _ => []
  | some _, none => []
  | some sample, some callback =>
    let size := sample.actualDataLength
    if size = 0 then []
    else if FAILED sample.getPointer then []
    else if FAILED sample.getTime then []
    else [{ stream := MediaKind.Video, proc := callback, ptr := sample.ptr, size := size,
            startTime := sample.startTime, stopTime := sample.stopTime }]

/-- `HDevice::ConvertVideoSettings()`: the session afterwards; `none` when `videoMediaType` is
null (a null dereference). -/
def HDevice.ConvertVideoSettings (env : Env) (d : HDevice) : Option HDevice :=
  match d.videoMediaType with
  | none => none
  | some mt =>
    let vih := mt.pbFormat
    if env.hasBitmapInfoHeader mt then
      let bmih := vih.bmiHeader
      let videoConfig : VideoConfig :=
        { d.videoConfig with cx := bmih.biWidth, cy := bmih.biHeight,
                             frameInterval := vih.AvgTimePerFrame }
      let same : Bool := decide (videoConfig.internalFormat = videoConfig.format)
      let videoConfig : VideoConfig :=
        { videoConfig with internalFormat :=
            match env.GetMediaTypeVFormat mt with
            | some format => format
            | none => env.vformatAfterFailure mt videoConfig.internalFormat }
      let videoConfig : VideoConfig :=
        if same then { videoConfig with format := videoConfig.internalFormat } else videoConfig
      some { d with videoConfig := videoConfig }
    else some d

/-- `HDevice::ConvertAudioSettings()`: the session afterwards; `none` when `audioMediaType` is
null (a null dereference). -/
def HDevice.ConvertAudioSettings (d : HDevice) : Option HDevice :=
  match d.audioMediaType with
  | none => none
  | some mt =>
    let wfex := mt.pbFormat
    some { d with audioConfig :=
      { d.audioConfig with
        sampleRate := toLONG wfex.nSamplesPerSec
        channels := (wfex.nChannels : Int)
        format :=
          if wfex.wBitsPerSample = 16 then AudioFormat.Wave16bit
          else if wfex.wBitsPerSample = 32 then AudioFormat.WaveFloat
          else AudioFormat.Unknown } }

/-- The statements of `HDevice::SetupVideoCapture` after the media type has been chosen, from
`ConvertVideoSettings()` to `return true`; `none` for a fault. -/
def HDevice.SetupVideoCapture.attach (env : Env) (d : HDevice) (filter : IBaseFilter) :
    Option (Ret Bool) :=
  match HDevice.ConvertVideoSettings env d with
  | none => none
  | some d =>
    let info : PinCaptureInfo :=
      { callback := MediaKind.Video
        expectedSubType :=
          if d.videoConfig.format = VideoFormat.XRGB then MediaSubtype.MEDIASUBTYPE_RGB32
          else if d.videoConfig.format = VideoFormat.ARGB then MediaSubtype.MEDIASUBTYPE_ARGB32
          else if d.videoConfig.format = VideoFormat.YVYU then MediaSubtype.MEDIASUBTYPE_YVYU
          else if d.videoConfig.format = VideoFormat.YUY2 then MediaSubtype.MEDIASUBTYPE_YUY2
          else if d.videoConfig.format = VideoFormat.UYVY then MediaSubtype.MEDIASUBTYPE_UYVY
          else
            match d.videoMediaType with
            | some mt => MediaSubtype.ofMediaType mt.subtype
            | none => MediaSubtype.ofMediaType 0 }
    let videoCapture : CaptureFilter := { info := info }
    some { result := true
           device := { d with videoCapture := some videoCapture, videoFilter := some filter }
           calls := [EngineCall.AddFilter (GraphFilter.capture videoCapture),
                     EngineCall.AddFilter (GraphFilter.source filter)] }

/-- `HDevice::SetupVideoCapture(filter, config)`, called with `config` bound to the member
`videoConfig`; `none` for a fault. -/
def HDevice.SetupVideoCapture (env : Env) (d : HDevice) (filter : IBaseFilter) :
    Option (Ret Bool) :=
  match filter.videoPin with
  | none => some { result := false, device := d, calls := [] }
  | some pin =>
    match pin.streamConfig with
    | none => some { result := false, device := d, calls := [] }
    | some _ =>
      if d.videoConfig.useDefaultConfig then
        match env.videoGetFormat filter with
        | none => some { result := false, device := d, calls := [] }
        | some defaultMT =>
          HDevice.SetupVideoCapture.attach env { d with videoMediaType := some defaultMT } filter
      else
        match GetClosestVideoMediaType env.GetMediaTypeVFormat filter d.videoConfig
            d.videoMediaType with
        | none => none
        | some (found, mt) =>
          let d := { d with videoMediaType := mt }
          if !found then some { result := false, device := d, calls := [] }
          else if FAILED (env.videoSetFormat filter d.videoMediaType) then
            some { result := false, device := d, calls := [] }
          else HDevice.SetupVideoCapture.attach env d filter

/-- `HDevice::SetVideoConfig(config)`; `none` for a fault. -/
def HDevice.SetVideoConfig (env : Env) (d : HDevice) (config : Option VideoConfig) :
    Option (ConfigRet VideoConfig) :=
  if !d.EnsureInitialized || !d.EnsureInactive then
    some { result := false, device := d, config := config, calls := [] }
  else
    let teardown : List EngineCall :=
      [EngineCall.RemoveFilter (d.videoFilter.map GraphFilter.source),
       EngineCall.RemoveFilter (d.videoCapture.map GraphFilter.capture)]
    let d := { d with videoMediaType := none, videoFilter := none, videoCapture := none }
    match config with
    | none => some { result := true, device := d, config := none, calls := teardown }
    | some c =>
      if c.name = "" ∧ c.path = "" then
        some { result := false, device := d, config := some c, calls := teardown }
      else
        match env.GetDeviceFilter MediaKind.Video c.name c.path with
        | none => some { result := false, device := d, config := some c, calls := teardown }
        | some none => some { result := false, device := d, config := some c, calls := teardown }
        | some (some filter) =>
          let d := { d with videoConfig := c }
          match HDevice.SetupVideoCapture env d filter with
          | none => none
          | some r =>
            if !r.result then
              some { result := false, device := r.device, config := some c,
                     calls := teardown ++ r.calls }
            else
              some { result := true, device := r.device, config := some r.device.videoConfig,
                     calls := teardown ++ r.calls }

/-- The statements of `HDevice::SetupAudioCapture` after the media type has been chosen, from
`SetFormat` to `return true`; `none` for a fault. -/
def HDevice.SetupAudioCapture.attach (env : Env) (d : HDevice) (filter : IBaseFilter) :
    Option (Ret Bool) :=
  if FAILED (env.audioSetFormat filter d.audioMediaType) then
    some { result := false, device := d, calls := [] }
  else
    match HDevice.ConvertAudioSettings d with
    | none => none
    | some d =>
      let info : PinCaptureInfo :=
        { callback := MediaKind.Audio
          expectedSubType :=
            match d.audioMediaType with
            | some mt => MediaSubtype.ofMediaType mt.subtype
            | none => MediaSubtype.ofMediaType 0 }
      let audioCapture : CaptureFilter := { info := info }
      some { result := true
             device := { d with audioCapture := some audioCapture, audioFilter := some filter }
             calls := [EngineCall.AddFilter (GraphFilter.capture audioCapture),
                       EngineCall.AddFilter (GraphFilter.source filter)] }

/-- `HDevice::SetupAudioCapture(filter, config)`, called with `config` bound to the member
`audioConfig`; `none` for a fault. -/
def HDevice.SetupAudioCapture (env : Env) (d : HDevice) (filter : IBaseFilter) :
    Option (Ret Bool) :=
  match filter.audioPin with
  | none => some { result := false, device := d, calls := [] }
  | some pin =>
    match pin.streamConfig with
    | none => some { result := false, device := d, calls := [] }
    | some _ =>
      if d.audioConfig.useDefaultConfig then
        match env.audioGetFormat filter with
        | none => some { result := false, device := d, calls := [] }
        | some defaultMT =>
          HDevice.SetupAudioCapture.attach env { d with audioMediaType := some defaultMT } filter
      else
        match GetClosestAudioMediaType env.uninit filter d.audioConfig d.audioMediaType with
        | none => none
        | some (found, mt) =>
          let d := { d with audioMediaType := mt }
          if !found then some { result := false, device := d, calls := [] }
          else HDevice.SetupAudioCapture.attach env d filter

/-- `HDevice::SetAudioConfig(config)`; `none` for a fault. -/
def HDevice.SetAudioConfig (env : Env) (d : HDevice) (config : Option AudioConfig) :
    Option (ConfigRet AudioConfig) :=
  if !d.EnsureInitialized || !d.EnsureInactive then
    some { result := false, device := d, config := config, calls := [] }
  else
    let teardown : List EngineCall :=
      (if !d.audioConfig.useVideoDevice then
        [EngineCall.RemoveFilter (d.audioFilter.map GraphFilter.source)]
       else []) ++
      [EngineCall.RemoveFilter (d.audioCapture.map GraphFilter.capture)]
    let d := { d with audioFilter := none, audioCapture := none, audioMediaType := none }
    match config with
    | none => some { result := true, device := d, config := none, calls := teardown }
    | some c =>
      if !c.useVideoDevice ∧ c.name = "" ∧ c.path = "" then
        some { result := false, device := d, config := some c, calls := teardown }
      else
        let found : Option (Option IBaseFilter) :=
          if c.useVideoDevice then
            match d.videoFilter with
            | none => none
            | some videoFilter => some (some videoFilter)
          else env.GetDeviceFilter MediaKind.Audio c.name c.path
        match found with
        | none => some { result := false, device := d, config := some c, calls := teardown }
        | some none => some { result := false, device := d, config := some c, calls := teardown }
        | some (some filter) =>
          let d := { d with audioConfig := c }
          if c.mode = AudioMode.Capture then
            match HDevice.SetupAudioCapture env d filter with
            | none => none
            | some r =>
              if !r.result then
                some { result := false, device := r.device, config := some c,
                       calls := teardown ++ r.calls }
              else
                some { result := true, device := r.device, config := some r.device.audioConfig,
                       calls := teardown ++ r.calls }
          else some { result := false, device := d, config := some c, calls := teardown }

/-- `HDevice::CreateGraph()`.  A creation or query that fails leaves its interface pointer
`NULL`. -/
def HDevice.CreateGraph (env : Env) (d : HDevice) : Ret Bool :=
  if d.initialized then { result := false, device := d, calls := [] }
  else
    let d := { d with graph := !FAILED env.createFilterGraph }
    if FAILED env.createFilterGraph then
      { result := false, device := d, calls := [EngineCall.CreateFilterGraph] }
    else
      let d := { d with builder := !FAILED env.createCaptureGraphBuilder2 }
      if FAILED env.createCaptureGraphBuilder2 then
        { result := false, device := d,
          calls := [EngineCall.CreateFilterGraph, EngineCall.CreateCaptureGraphBuilder2] }
      else
        let d := { d with control := !FAILED env.queryMediaControl }
        if FAILED env.queryMediaControl then
          { result := false, device := d,
            calls := [EngineCall.CreateFilterGraph, EngineCall.CreateCaptureGraphBuilder2,
                      EngineCall.QueryMediaControl] }
        else if FAILED env.setFiltergraph then
          { result := false, device := d,
            calls := [EngineCall.CreateFilterGraph, EngineCall.CreateCaptureGraphBuilder2,
                      EngineCall.QueryMediaControl, EngineCall.SetFiltergraph] }
        else
          { result := true, device := { d with initialized := true },
            calls := [EngineCall.CreateFilterGraph, EngineCall.CreateCaptureGraphBuilder2,
                      EngineCall.QueryMediaControl, EngineCall.SetFiltergraph] }

/-- `HDevice::ConnectPins(category, type, filter, capture)`: the result and the engine calls
(the session state is not written). -/
def HDevice.ConnectPins (env : Env) (d : HDevice) (type : MediaKind) : Bool × List EngineCall :=
  if !d.EnsureInitialized || !d.EnsureInactive then (false, [])
  else if FAILED (env.findPin type) then (false, [EngineCall.FindPin type])
  else if FAILED (env.connect type) then
    (false, [EngineCall.FindPin type, EngineCall.Connect type])
  else (true, [EngineCall.FindPin type, EngineCall.Connect type])

/-- `HDevice::RenderFilters(category, type, filter, capture)`: the result and the engine calls
(the session state is not written). -/
def HDevice.RenderFilters (env : Env) (d : HDevice) (type : MediaKind) : Bool × List EngineCall :=
  if !d.EnsureInitialized || !d.EnsureInactive then (false, [])
  else if FAILED (env.renderStream type) then (false, [EngineCall.RenderStream type])
  else (true, [EngineCall.RenderStream type])

/-- `HDevice::LogFilters()`: the engine call that starts the diagnostic listing. -/
def HDevice.LogFilters (_d : HDevice) : List EngineCall :=
  [EngineCall.EnumFilters]

/-- `HDevice::ConnectFilters()`. -/
def HDevice.ConnectFilters (env : Env) (d : HDevice) : Ret Bool :=
  if !d.EnsureInitialized || !d.EnsureInactive then { result := false, device := d, calls := [] }
  else
    let video : Bool × List EngineCall :=
      if d.videoCapture.isSome then
        let rendered := d.RenderFilters env MediaKind.Video
        if !rendered.1 then
          let connected := d.ConnectPins env MediaKind.Video
          (connected.1, rendered.2 ++ connected.2)
        else rendered
      else (true, [])
    let audio : Bool × List EngineCall :=
      if d.audioCapture.isSome && video.1 then
        let rendered := d.RenderFilters env MediaKind.Audio
        if !rendered.1 then
          let connected := d.ConnectPins env MediaKind.Audio
          (connected.1, rendered.2 ++ connected.2)
        else rendered
      else (video.1, [])
    let success := audio.1
    { result := success, device := d,
      calls := video.2 ++ audio.2 ++ (if success then d.LogFilters else []) }

/-- `HDevice::Start()`. -/
def HDevice.Start (env : Env) (d : HDevice) : Ret Result :=
  if !d.EnsureInitialized || !d.EnsureInactive then
    { result := Result.Error, device := d, calls := [] }
  else
    let hr := env.run
    if FAILED hr then
      if hr = HRESULT_DEVICE_IN_USE then
        { result := Result.InUse, device := d, calls := [EngineCall.Run] }
      else { result := Result.Error, device := d, calls := [EngineCall.Run] }
    else { result := Result.Success, device := { d with active := true }, calls := [EngineCall.Run] }

/-- `HDevice::Stop()`: the session afterwards and the engine calls. -/
def HDevice.Stop (d : HDevice) : HDevice × List EngineCall :=
  if d.active then ({ d with active := false }, [EngineCall.Stop])
  else (d, [])

/-- One call of a public session operation, with its argument. -/
inductive Operation where
  | CreateGraph
  | SetVideoConfig (config : Option VideoConfig)
  | SetAudioConfig (config : Option AudioConfig)
  | ConnectFilters
  | Start
  | Stop

/-- The session state after one operation in a given outside world; `none` for a fault. -/
def HDevice.step (env : Env) (d : HDevice) : Operation → Option HDevice
  | Operation.CreateGraph => some (d.CreateGraph env).device
  | Operation.SetVideoConfig config => (d.SetVideoConfig env config).map (fun r => r.device)
  | Operation.SetAudioConfig config => (d.SetAudioConfig env config).map (fun r => r.device)
  | Operation.ConnectFilters => some (d.ConnectFilters env).device
  | Operation.Start => some (d.Start env).device
  | Operation.Stop => some d.Stop.1

/-- The session state after a sequence of operations, each with the outside world it runs
in; `none` when one of them faults. -/
def HDevice.run (d : HDevice) : List (Env × Operation) → Option HDevice
  | [] => some d
  | (env, op) :: rest =>
    match d.step env op with
    | none => none
    | some d' => HDevice.run d' rest

/-! ## Derived notions used in the statements -/

/-- The descriptor with which `ClosestVideoMTCallback` reaches its distance computation for a
capability entry: the entry has format type `FORMAT_VideoInfo`, the extraction succeeds and the
format test passes.  `none` when the callback skips the entry. -/
def videoDescriptor (GetMediaTypeVFormat : AM_MEDIA_TYPE VIDEOINFOHEADER → Option VideoFormat)
    (config : VideoConfig) (c : VideoCaps) : Option VideoInfo :=
  if c.mt.formattype = FormatGuid.FORMAT_VideoInfo then
    match Get_FORMAT_VideoInfo_Data GetMediaTypeVFormat c.mt c.data with
    | some info =>
      if config.internalFormat = VideoFormat.Any ∨ config.internalFormat = info.format then some info
      else none
    | none => none
  else none

/-- The media type `ClosestVideoMTCallback` stores for an accepted entry (granularity nonzero). -/
def videoOutput (config : VideoConfig) (info : VideoInfo) (mt : AM_MEDIA_TYPE VIDEOINFOHEADER) :
    AM_MEDIA_TYPE VIDEOINFOHEADER :=
  { mt with pbFormat :=
      { AvgTimePerFrame :=
          if frameVal config info = 0 then config.frameInterval else mt.pbFormat.AvgTimePerFrame
        bmiHeader :=
          { biWidth :=
              if xVal config info = 0 then
                config.cx - Int.tmod (config.cx - info.minCX) info.granularityCX
              else mt.pbFormat.bmiHeader.biWidth
            biHeight :=
              if yVal config info = 0 then
                config.cy - Int.tmod (config.cy - info.minCY) info.granularityCY
              else mt.pbFormat.bmiHeader.biHeight } } }

/-- Local `totalVal` of `ClosestVideoMTCallback`. -/
def videoTotal (config : VideoConfig) (info : VideoInfo) : Int :=
  frameVal config info + yVal config info + xVal config info

/-- The content of `data` after `ClosestVideoMTCallback` has taken a descriptor as the best. -/
def videoTaken (data : ClosestVideoData) (info : VideoInfo) (c : VideoCaps) : ClosestVideoData :=
  { data with
    found := true
    bestVal := videoTotal data.config info
    mt := some (videoOutput data.config info c.mt) }

/-- The request lies within all three ranges of a video descriptor. -/
def VideoContains (config : VideoConfig) (info : VideoInfo) : Prop :=
  (info.minCX ≤ config.cx ∧ config.cx ≤ info.maxCX) ∧
  (info.minCY ≤ config.cy ∧ config.cy ≤ info.maxCY) ∧
  (info.minInterval ≤ config.frameInterval ∧ config.frameInterval ≤ info.maxInterval)

instance (config : VideoConfig) (info : VideoInfo) : Decidable (VideoContains config info) := by
  unfold VideoContains; infer_instance

/-- The descriptor with which `ClosestAudioMTCallback` reaches its distance computation for a
capability entry: the entry has format type `FORMAT_WaveFormatEx` and the format test passes.
`none` when the callback skips the entry. -/
def audioDescriptor (uninit : AudioInfo) (config : AudioConfig) (c : AudioCaps) : Option AudioInfo :=
  if c.mt.formattype = FormatGuid.FORMAT_WaveFormatEx then
    if config.format = AudioFormat.Any ∨
        config.format = (Get_FORMAT_WaveFormatEx_Data uninit c.mt c.data).format then
      some (Get_FORMAT_WaveFormatEx_Data uninit c.mt c.data)
    else none
  else none

/-- Local `totalVal` of `ClosestAudioMTCallback`. -/
def audioTotal (config : AudioConfig) (info : AudioInfo) : Int :=
  sampleRateVal config info + channelsVal config info

/-- The media type `ClosestAudioMTCallback` stores for an accepted entry: the statements between
`if (!data.found || ...)` and `data.mt = copiedMT`; `none` when a clamp divides by zero. -/
def audioOutput (config : AudioConfig) (info : AudioInfo) (mt : AM_MEDIA_TYPE WAVEFORMATEX) :
    Option (AM_MEDIA_TYPE WAVEFORMATEX) := do
  let wfex := mt.pbFormat
  let wfex ←
    if channelsVal config info = 0 then do
      let channels ← ClampToGranularity config.channels info.minChannels info.channelsGranularity
      let wfex := { wfex with nChannels := toWORD channels }
      pure { wfex with nBlockAlign := toWORD (Int.tdiv (toLONG (wfex.wBitsPerSample * wfex.nChannels)) 8) }
    else pure wfex
  let wfex ←
    if sampleRateVal config info = 0 then do
      let wfex := { wfex with nSamplesPerSec := toDWORD config.sampleRate }
      let val ←
        ClampToGranularity (toLONG wfex.nSamplesPerSec) info.minSampleRate info.sampleRateGranularity
      pure { wfex with nSamplesPerSec := toDWORD val }
    else pure wfex
  let wfex :=
    { wfex with nAvgBytesPerSec := (wfex.nSamplesPerSec * wfex.nBlockAlign) % 4294967296 }
  pure { mt with pbFormat := wfex }

/-- The content of `data` after `ClosestAudioMTCallback` has taken a descriptor as the best. -/
def audioTaken (data : ClosestAudioData) (info : AudioInfo) (out : AM_MEDIA_TYPE WAVEFORMATEX) :
    ClosestAudioData :=
  { data with mt := some out, found := true, bestVal := audioTotal data.config info }

/-- A stream gets connected by one of the two strategies of `ConnectFilters`: `RenderStream`
succeeds, or it fails and the exact-pin connection (`FindPin`, then `Connect`) succeeds. -/
def connectedBy (env : Env) (type : MediaKind) : Bool :=
  !FAILED (env.renderStream type) || (!FAILED (env.findPin type) && !FAILED (env.connect type))

/-- The engine calls of one connection attempt for a stream: `RenderStream` first, and only
after its failure `FindPin`, followed by `Connect` when the pin was found. -/
def connectionCalls (env : Env) (type : MediaKind) : List EngineCall :=
  if !FAILED (env.renderStream type) then [EngineCall.RenderStream type]
  else if FAILED (env.findPin type) then [EngineCall.RenderStream type, EngineCall.FindPin type]
  else [EngineCall.RenderStream type, EngineCall.FindPin type, EngineCall.Connect type]

/-- The three members of each stream's attachment (source filter, sink adapter, media type) are
all present or all absent. -/
def HDevice.AllOrNone (d : HDevice) : Prop :=
  ((d.videoFilter.isSome = true ∧ d.videoCapture.isSome = true ∧
      d.videoMediaType.isSome = true) ∨
    (d.videoFilter = none ∧ d.videoCapture = none ∧ d.videoMediaType = none)) ∧
  ((d.audioFilter.isSome = true ∧ d.audioCapture.isSome = true ∧
      d.audioMediaType.isSome = true) ∨
    (d.audioFilter = none ∧ d.audioCapture = none ∧ d.audioMediaType = none))

/-- For each stream, the source filter and the sink adapter are both present or both absent,
and a media type is stored whenever they are present. -/
def HDevice.AttachmentConsistent (d : HDevice) : Prop :=
  (d.videoFilter.isSome = d.videoCapture.isSome ∧
    (d.videoFilter.isSome = true → d.videoMediaType.isSome = true)) ∧
  (d.audioFilter.isSome = d.audioCapture.isSome ∧
    (d.audioFilter.isSome = true → d.audioMediaType.isSome = true))

/-- A pin whose capability enumeration succeeds with the given `GetStreamCaps` results. -/
def pinOfCaps {φ γ : Type} (caps : List (Option (StreamCaps φ γ))) : IPin φ γ :=
  { streamConfig := some { streamCaps := some caps } }

/-- The per-dimension deficit in the words of the specification,
`max(0, min - req, req - max)`.  This definition follows the specification; the code computes
`xVal`, `yVal` and `frameVal` with an `if` / `else if` chain. -/
def deficit (req lo hi : Int) : Int := max 0 (max (lo - req) (req - hi))

/-- `xDeficit = max(0, minCX - reqCX, reqCX - maxCX)` of the specification. -/
def xDeficit (config : VideoConfig) (info : VideoInfo) : Int :=
  deficit config.cx info.minCX info.maxCX

/-- `yDeficit = max(0, minCY - reqCY, reqCY - maxCY)` of the specification. -/
def yDeficit (config : VideoConfig) (info : VideoInfo) : Int :=
  deficit config.cy info.minCY info.maxCY

/-- `frameDeficit = max(0, minInterval - reqInterval, reqInterval - maxInterval)` of the
specification. -/
def frameDeficit (config : VideoConfig) (info : VideoInfo) : Int :=
  deficit config.frameInterval info.minInterval info.maxInterval

/-- Total distance of the specification: `xDeficit + yDeficit + frameDeficit`. -/
def totalDistance (config : VideoConfig) (info : VideoInfo) : Int :=
  xDeficit config info + yDeficit config info + frameDeficit config info

/-- The entry on which the audio enumeration of `caps` ends: `c`, standing between `pre` and
`post`, is accepted with descriptor `info`; every accepted entry before it has a strictly
larger total; every accepted entry before it whose total is 0 comes after an accepted entry of
total at most 0 (so it was not an improvement and did not end the enumeration); and either the
total of `c` is 0, which ends the enumeration, or no accepted entry after it has a smaller
total. -/
def AudioSelected (uninit : AudioInfo) (config : AudioConfig) (caps pre : List (Option AudioCaps))
    (c : AudioCaps) (post : List (Option AudioCaps)) (info : AudioInfo) : Prop :=
  caps = pre ++ some c :: post ∧
  audioDescriptor uninit config c = some info ∧
  (∀ c' info', some c' ∈ pre → audioDescriptor uninit config c' = some info' →
    audioTotal config info < audioTotal config info') ∧
  (∀ p e q infoE, pre = p ++ some e :: q → audioDescriptor uninit config e = some infoE →
    audioTotal config infoE = 0 →
    ∃ e' infoE', some e' ∈ p ∧ audioDescriptor uninit config e' = some infoE' ∧
      audioTotal config infoE' ≤ 0) ∧
  (audioTotal config info = 0 ∨
    ∀ c' info', some c' ∈ post → audioDescriptor uninit config c' = some info' →
      audioTotal config info ≤ audioTotal config info')

/-! ## Concrete inputs -/

/-- A pixel-format reader that reports `XRGB` for every media type. -/
def exampleVFormat : AM_MEDIA_TYPE VIDEOINFOHEADER → Option VideoFormat :=
  fun _ => some VideoFormat.XRGB

/-- Request 1920x1080 at 30 frames per second (interval 333333). -/
def exampleVideoConfig : VideoConfig :=
  { name := "camera", path := "", useDefaultConfig := false, callback := none,
    cx := 1920, cy := 1080, frameInterval := 333333,
    format := VideoFormat.XRGB, internalFormat := VideoFormat.XRGB }

/-- Entry 640-1920 x 480-1080, 15-60 frames per second, granularity 8x8; the media type itself
declares 640x480 at 60 frames per second. -/
def exampleVideoCaps : VideoCaps :=
  { mt := { subtype := 0, formattype := FormatGuid.FORMAT_VideoInfo,
            pbFormat := { AvgTimePerFrame := 166666,
                          bmiHeader := { biWidth := 640, biHeight := 480 } } },
    data := some { MinOutputSize := { cx := 640, cy := 480 },
                   MaxOutputSize := { cx := 1920, cy := 1080 },
                   OutputGranularityX := 8, OutputGranularityY := 8,
                   MinFrameInterval := 166666, MaxFrameInterval := 666666 } }

/-- The descriptor extracted from `exampleVideoCaps`. -/
def exampleVideoInfo : VideoInfo :=
  { minCX := 640, minCY := 480, maxCX := 1920, maxCY := 1080, granularityCX := 8,
    granularityCY := 8, minInterval := 166666, maxInterval := 666666, format := VideoFormat.XRGB }

/-- Entry fixed at 1280x720, 15-60 frames per second. -/
def exampleVideoCapsSmall : VideoCaps :=
  { mt := { subtype := 0, formattype := FormatGuid.FORMAT_VideoInfo,
            pbFormat := { AvgTimePerFrame := 333333,
                          bmiHeader := { biWidth := 1280, biHeight := 720 } } },
    data := some { MinOutputSize := { cx := 1280, cy := 720 },
                   MaxOutputSize := { cx := 1280, cy := 720 },
                   OutputGranularityX := 0, OutputGranularityY := 0,
                   MinFrameInterval := 166666, MaxFrameInterval := 666666 } }

/-- The descriptor extracted from `exampleVideoCapsSmall`. -/
def exampleVideoInfoSmall : VideoInfo :=
  { minCX := 1280, minCY := 720, maxCX := 1280, maxCY := 720, granularityCX := 1,
    granularityCY := 1, minInterval := 166666, maxInterval := 666666, format := VideoFormat.XRGB }

/-- Entry fixed at 1600x900, 15-60 frames per second. -/
def exampleVideoCapsMid : VideoCaps :=
  { mt := { subtype := 0, formattype := FormatGuid.FORMAT_VideoInfo,
            pbFormat := { AvgTimePerFrame := 333333,
                          bmiHeader := { biWidth := 1600, biHeight := 900 } } },
    data := some { MinOutputSize := { cx := 1600, cy := 900 },
                   MaxOutputSize := { cx := 1600, cy := 900 },
                   OutputGranularityX := 1, OutputGranularityY := 1,
                   MinFrameInterval := 166666, MaxFrameInterval := 666666 } }

/-- The descriptor extracted from `exampleVideoCapsMid`. -/
def exampleVideoInfoMid : VideoInfo :=
  { minCX := 1600, minCY := 900, maxCX := 1600, maxCY := 900, granularityCX := 1,
    granularityCY := 1, minInterval := 166666, maxInterval := 666666, format := VideoFormat.XRGB }

/-- Content of the uninitialised local `AudioInfo` used in the examples. -/
def exampleUninit : AudioInfo :=
  { minChannels := 0, maxChannels := 0, channelsGranularity := 0, minSampleRate := 0,
    maxSampleRate := 0, sampleRateGranularity := 0, format := AudioFormat.Unknown }

/-- Request 96000 Hz with 8 channels. -/
def exampleAudioConfigHigh : AudioConfig :=
  { name := "microphone", path := "", useDefaultConfig := false, callback := none,
    useVideoDevice := false, sampleRate := 96000, channels := 8,
    format := AudioFormat.Wave16bit, mode := AudioMode.Capture }

/-- Request 44100 Hz with 1 channel. -/
def exampleAudioConfigMono : AudioConfig :=
  { name := "microphone", path := "", useDefaultConfig := false, callback := none,
    useVideoDevice := false, sampleRate := 44100, channels := 1,
    format := AudioFormat.Wave16bit, mode := AudioMode.Capture }

/-- Request 44100 Hz with 2 channels. -/
def exampleAudioConfigStereo : AudioConfig :=
  { name := "microphone", path := "", useDefaultConfig := false, callback := none,
    useVideoDevice := false, sampleRate := 44100, channels := 2,
    format := AudioFormat.Wave16bit, mode := AudioMode.Capture }

/-- Entry 8000-48000 Hz in steps of 100, 1-2 channels; the media type itself declares
44100 Hz, 2 channels, 16 bits. -/
def exampleAudioCaps : AudioCaps :=
  { mt := { subtype := 1, formattype := FormatGuid.FORMAT_WaveFormatEx,
            pbFormat := { nChannels := 2, nSamplesPerSec := 44100, nAvgBytesPerSec := 176400,
                          nBlockAlign := 4, wBitsPerSample := 16 } },
    data := { MinimumChannels := 1, MaximumChannels := 2, ChannelsGranularity := 1,
              MinimumSampleFrequency := 8000, MaximumSampleFrequency := 48000,
              SampleFrequencyGranularity := 100 } }

/-- The descriptor extracted from `exampleAudioCaps`. -/
def exampleAudioInfo : AudioInfo :=
  { minChannels := 1, maxChannels := 2, channelsGranularity := 1, minSampleRate := 8000,
    maxSampleRate := 48000, sampleRateGranularity := 100, format := AudioFormat.Wave16bit }

/-- Entry 8000-48000 Hz in steps of 100, 1-4 channels; the media type itself declares
44100 Hz, 4 channels, 16 bits. -/
def exampleAudioCapsWide : AudioCaps :=
  { mt := { subtype := 1, formattype := FormatGuid.FORMAT_WaveFormatEx,
            pbFormat := { nChannels := 4, nSamplesPerSec := 44100, nAvgBytesPerSec := 352800,
                          nBlockAlign := 8, wBitsPerSample := 16 } },
    data := { MinimumChannels := 1, MaximumChannels := 4, ChannelsGranularity := 1,
              MinimumSampleFrequency := 8000, MaximumSampleFrequency := 48000,
              SampleFrequencyGranularity := 100 } }

/-- Entry of a fixed-format device: exactly 44100 Hz and 2 channels, both granularities
reported as 0. -/
def exampleAudioCapsFixed : AudioCaps :=
  { mt := { subtype := 1, formattype := FormatGuid.FORMAT_WaveFormatEx,
            pbFormat := { nChannels := 2, nSamplesPerSec := 44100, nAvgBytesPerSec := 176400,
                          nBlockAlign := 4, wBitsPerSample := 16 } },
    data := { MinimumChannels := 2, MaximumChannels := 2, ChannelsGranularity := 0,
              MinimumSampleFrequency := 44100, MaximumSampleFrequency := 44100,
              SampleFrequencyGranularity := 0 } }

/-- Entry 640-1280 x 480-720, 15-60 frames per second; the media type itself declares 640x480. -/
def exampleVideoCapsRange : VideoCaps :=
  { mt := { subtype := 0, formattype := FormatGuid.FORMAT_VideoInfo,
            pbFormat := { AvgTimePerFrame := 166666,
                          bmiHeader := { biWidth := 640, biHeight := 480 } } },
    data := some { MinOutputSize := { cx := 640, cy := 480 },
                   MaxOutputSize := { cx := 1280, cy := 720 },
                   OutputGranularityX := 8, OutputGranularityY := 8,
                   MinFrameInterval := 166666, MaxFrameInterval := 666666 } }

/-- The descriptor extracted from `exampleVideoCapsRange`. -/
def exampleVideoInfoRange : VideoInfo :=
  { minCX := 640, minCY := 480, maxCX := 1280, maxCY := 720, granularityCX := 8,
    granularityCY := 8, minInterval := 166666, maxInterval := 666666, format := VideoFormat.XRGB }

/-- Entry of exactly 2 channels, 8000-48000 Hz, whose media type carries a block alignment of 2
with 16 bits and 2 channels. -/
def exampleAudioCapsOdd : AudioCaps :=
  { mt := { subtype := 1, formattype := FormatGuid.FORMAT_WaveFormatEx,
            pbFormat := { nChannels := 2, nSamplesPerSec := 44100, nAvgBytesPerSec := 88200,
                          nBlockAlign := 2, wBitsPerSample := 16 } },
    data := { MinimumChannels := 2, MaximumChannels := 2, ChannelsGranularity := 1,
              MinimumSampleFrequency := 8000, MaximumSampleFrequency := 48000,
              SampleFrequencyGranularity := 100 } }

/-- The descriptor extracted from `exampleAudioCapsOdd`. -/
def exampleAudioInfoOdd : AudioInfo :=
  { minChannels := 2, maxChannels := 2, channelsGranularity := 1, minSampleRate := 8000,
    maxSampleRate := 48000, sampleRateGranularity := 100, format := AudioFormat.Wave16bit }

/-- Request 2000000000 Hz with 2 channels. -/
def exampleAudioConfigFast : AudioConfig :=
  { name := "microphone", path := "", useDefaultConfig := false, callback := none,
    useVideoDevice := false, sampleRate := 2000000000, channels := 2,
    format := AudioFormat.Wave16bit, mode := AudioMode.Capture }

/-- Entry of exactly 2 channels with sample rates 8000-2000000000 Hz. -/
def exampleAudioCapsFast : AudioCaps :=
  { mt := { subtype := 1, formattype := FormatGuid.FORMAT_WaveFormatEx,
            pbFormat := { nChannels := 2, nSamplesPerSec := 44100, nAvgBytesPerSec := 176400,
                          nBlockAlign := 4, wBitsPerSample := 16 } },
    data := { MinimumChannels := 2, MaximumChannels := 2, ChannelsGranularity := 1,
              MinimumSampleFrequency := 8000, MaximumSampleFrequency := 2000000000,
              SampleFrequencyGranularity := 1 } }

/-- A device filter with a video capture pin offering `exampleVideoCaps` and an audio capture
pin offering `exampleAudioCaps`. -/
def exampleFilter : IBaseFilter :=
  { videoPin := some (pinOfCaps [some exampleVideoCaps]),
    audioPin := some (pinOfCaps [some exampleAudioCaps]) }

/-- An outside world in which every call succeeds: every device name resolves to
`exampleFilter`, a media type has a bitmap info header exactly when its format type is
`FORMAT_VideoInfo`, and the default formats are those of the example entries. -/
def exampleEnv : Env :=
  { GetMediaTypeVFormat := exampleVFormat
    vformatAfterFailure := fun _ format => format
    hasBitmapInfoHeader := fun mt => decide (mt.formattype = FormatGuid.FORMAT_VideoInfo)
    uninit := exampleUninit
    GetDeviceFilter := fun _ _ _ => some (some exampleFilter)
    videoGetFormat := fun _ => some exampleVideoCaps.mt
    videoSetFormat := fun _ _ => 0
    audioGetFormat := fun _ => some exampleAudioCaps.mt
    audioSetFormat := fun _ _ => 0
    createFilterGraph := 0
    createCaptureGraphBuilder2 := 0
    queryMediaControl := 0
    setFiltergraph := 0
    renderStream := fun _ => 0
    findPin := fun _ => 0
    connect := fun _ => 0
    run := 0 }

/-- An initialized, inactive session with nothing attached. -/
def exampleDevice : HDevice :=
  { graph := true, builder := true, control := true,
    videoFilter := none, audioFilter := none, videoCapture := none, audioCapture := none,
    videoMediaType := none, audioMediaType := none,
    videoConfig := exampleVideoConfig, audioConfig := exampleAudioConfigStereo,
    initialized := true, active := false }

/-- The sink adapter of the audio stream for the media type of `exampleAudioCaps`. -/
def exampleAudioCapture : CaptureFilter :=
  { info := { callback := MediaKind.Audio, expectedSubType := MediaSubtype.ofMediaType 1 } }

/-- The sink adapter of the video stream for an `XRGB` configuration. -/
def exampleVideoCapture : CaptureFilter :=
  { info := { callback := MediaKind.Video, expectedSubType := MediaSubtype.MEDIASUBTYPE_RGB32 } }

/-- An initialized, inactive session with an audio stream attached and no video. -/
def exampleDeviceAudio : HDevice :=
  { exampleDevice with
    audioFilter := some exampleFilter
    audioCapture := some exampleAudioCapture
    audioMediaType := some exampleAudioCaps.mt }

/-- An initialized, inactive session with a video and an audio stream attached. -/
def exampleDeviceBoth : HDevice :=
  { exampleDeviceAudio with
    videoFilter := some exampleFilter
    videoCapture := some exampleVideoCapture
    videoMediaType := some exampleVideoCaps.mt }

/-- The session `exampleDeviceBoth` while running. -/
def exampleDeviceActive : HDevice :=
  { exampleDeviceBoth with active := true }

/-- The outside world of `exampleEnv`, except that `RenderStream` fails for video (the exact-pin
connection then succeeds). -/
def exampleEnvRenderFails : Env :=
  { exampleEnv with
    renderStream := fun type => if type = MediaKind.Video then -2147467259 else 0 }

/-- The outside world of `exampleEnv`, except that both video strategies fail: `RenderStream`
fails and `Connect` fails. -/
def exampleEnvVideoFails : Env :=
  { exampleEnv with
    renderStream := fun type => if type = MediaKind.Video then -2147467259 else 0
    connect := fun type => if type = MediaKind.Video then -2147467259 else 0 }

/-- A media type of a format type other than `FORMAT_VideoInfo`, declaring 720x576 at 25 frames
per second. -/
def exampleOtherMediaType : AM_MEDIA_TYPE VIDEOINFOHEADER :=
  { subtype := 2, formattype := FormatGuid.other 1,
    pbFormat := { AvgTimePerFrame := 400000, bmiHeader := { biWidth := 720, biHeight := 576 } } }

/-- The outside world of `exampleEnv`, except that the default format of the video pin is
`exampleOtherMediaType`, for which `GetBitmapInfoHeader` returns `NULL`. -/
def exampleEnvOtherDefault : Env :=
  { exampleEnv with videoGetFormat := fun _ => some exampleOtherMediaType }

/-- Request for the device's default video format, with 1920x1080 at 30 frames per second
filled in. -/
def exampleVideoConfigDefault : VideoConfig :=
  { exampleVideoConfig with useDefaultConfig := true }

/-- A sample of 4096 bytes with pointer and times available. -/
def exampleSample : IMediaSample :=
  { actualDataLength := 4096, getPointer := 0, ptr := 1000, getTime := 0,
    startTime := 10, stopTime := 20 }

/-- The session `exampleDeviceActive` with procedure 7 registered for video frames and
procedure 8 for audio frames. -/
def exampleDeviceCallbacks : HDevice :=
  { exampleDeviceActive with
    videoConfig := { exampleVideoConfig with callback := some 7 }
    audioConfig := { exampleAudioConfigStereo with callback := some 8 } }

/-- Entry whose capability record reports all four size bounds as 0; the media type itself
declares 1280x720. -/
def exampleVideoCapsZero : VideoCaps :=
  { mt := { subtype := 0, formattype := FormatGuid.FORMAT_VideoInfo,
            pbFormat := { AvgTimePerFrame := 333333,
                          bmiHeader := { biWidth := 1280, biHeight := 720 } } },
    data := some { MinOutputSize := { cx := 0, cy := 0 },
                   MaxOutputSize := { cx := 0, cy := 0 },
                   OutputGranularityX := 0, OutputGranularityY := 0,
                   MinFrameInterval := 166666, MaxFrameInterval := 666666 } }

/-- The outside world of `exampleEnv`, except that the device rejects every format:
`SetFormat` fails on the video pin and on the audio pin. -/
def exampleEnvFormatRejected : Env :=
  { exampleEnv with
    videoSetFormat := fun _ _ => -2147467259
    audioSetFormat := fun _ _ => -2147467259 }

/-- A sequence of calls: create the graph, configure video, configure audio in a world where
the device rejects the selected format, connect, start, stop. -/
def exampleSteps : List (Env × Operation) :=
  [(exampleEnv, Operation.CreateGraph),
   (exampleEnv, Operation.SetVideoConfig (some exampleVideoConfig)),
   (exampleEnvFormatRejected, Operation.SetAudioConfig (some exampleAudioConfigStereo)),
   (exampleEnv, Operation.ConnectFilters), (exampleEnv, Operation.Start),
   (exampleEnv, Operation.Stop)]

/-- The state `exampleSteps` leads to from a fresh session: video attached at 1920x1080, no
audio filter and no audio sink adapter, the selected audio media type stored. -/
def exampleReached : HDevice :=
  { exampleDevice with
    videoFilter := some exampleFilter
    videoCapture := some exampleVideoCapture
    videoMediaType := some
      { exampleVideoCaps.mt with pbFormat :=
          { AvgTimePerFrame := 333333, bmiHeader := { biWidth := 1920, biHeight := 1080 } } }
    audioMediaType := some exampleAudioCaps.mt }

/-- Entry 640-1920 x 480-1080 whose frame-interval bounds are reversed (minimum 400000,
maximum 200000); the media type itself declares 640x480 at interval 400000. -/
def exampleVideoCapsReversed : VideoCaps :=
  { mt := { subtype := 0, formattype := FormatGuid.FORMAT_VideoInfo,
            pbFormat := { AvgTimePerFrame := 400000,
                          bmiHeader := { biWidth := 640, biHeight := 480 } } },
    data := some { MinOutputSize := { cx := 640, cy := 480 },
                   MaxOutputSize := { cx := 1920, cy := 1080 },
                   OutputGranularityX := 8, OutputGranularityY := 8,
                   MinFrameInterval := 400000, MaxFrameInterval := 200000 } }

/-- The descriptor extracted from `exampleVideoCapsReversed`. -/
def exampleVideoInfoReversed : VideoInfo :=
  { minCX := 640, minCY := 480, maxCX := 1920, maxCY := 1080, granularityCX := 8,
    granularityCY := 8, minInterval := 400000, maxInterval := 200000, format := VideoFormat.XRGB }

/-- Entry 640-1920 x 480-1080 with frame intervals 433333-500000; the media type itself
declares 640x480 at interval 433333. -/
def exampleVideoCapsSlow : VideoCaps :=
  { mt := { subtype := 0, formattype := FormatGuid.FORMAT_VideoInfo,
            pbFormat := { AvgTimePerFrame := 433333,
                          bmiHeader := { biWidth := 640, biHeight := 480 } } },
    data := some { MinOutputSize := { cx := 640, cy := 480 },
                   MaxOutputSize := { cx := 1920, cy := 1080 },
                   OutputGranularityX := 8, OutputGranularityY := 8,
                   MinFrameInterval := 433333, MaxFrameInterval := 500000 } }

/-- The descriptor extracted from `exampleVideoCapsSlow`. -/
def exampleVideoInfoSlow : VideoInfo :=
  { minCX := 640, minCY := 480, maxCX := 1920, maxCY := 1080, granularityCX := 8,
    granularityCY := 8, minInterval := 433333, maxInterval := 500000, format := VideoFormat.XRGB }

/-- Request 1920x1080 at interval 333333 with the wildcard internal format `Any`. -/
def exampleVideoConfigAny : VideoConfig :=
  { exampleVideoConfig with internalFormat := VideoFormat.Any }

/-- The media type of `exampleVideoCaps` (format type `FORMAT_VideoInfo`) enumerated with a null
capability block. -/
def exampleVideoCapsNoCaps : VideoCaps :=
  { mt := exampleVideoCaps.mt, data := none }

/-- A pixel-format reader that knows no media type. -/
def exampleVFormatUnknown : AM_MEDIA_TYPE VIDEOINFOHEADER → Option VideoFormat :=
  fun _ => none

/-- Entry 8000-16000 Hz in steps of 100, 1-2 channels; the media type itself declares
16000 Hz, 1 channel, 16 bits. -/
def exampleAudioCapsLow : AudioCaps :=
  { mt := { subtype := 1, formattype := FormatGuid.FORMAT_WaveFormatEx,
            pbFormat := { nChannels := 1, nSamplesPerSec := 16000, nAvgBytesPerSec := 32000,
                          nBlockAlign := 2, wBitsPerSample := 16 } },
    data := { MinimumChannels := 1, MaximumChannels := 2, ChannelsGranularity := 1,
              MinimumSampleFrequency := 8000, MaximumSampleFrequency := 16000,
              SampleFrequencyGranularity := 100 } }

/-- Request 44100 Hz with 65535 channels, any sample format. -/
def exampleAudioConfigMany : AudioConfig :=
  { name := "microphone", path := "", useDefaultConfig := false, callback := none,
    useVideoDevice := false, sampleRate := 44100, channels := 65535,
    format := AudioFormat.Any, mode := AudioMode.Capture }

/-- Entry of exactly 65535 channels, 8000-48000 Hz, whose media type declares 65535 bits per
sample. -/
def exampleAudioCapsMany : AudioCaps :=
  { mt := { subtype := 1, formattype := FormatGuid.FORMAT_WaveFormatEx,
            pbFormat := { nChannels := 65535, nSamplesPerSec := 44100, nAvgBytesPerSec := 0,
                          nBlockAlign := 0, wBitsPerSample := 65535 } },
    data := { MinimumChannels := 65535, MaximumChannels := 65535, ChannelsGranularity := 1,
              MinimumSampleFrequency := 8000, MaximumSampleFrequency := 48000,
              SampleFrequencyGranularity := 100 } }

/-- Request 1915x1080 at interval 333333: the width is not on the 8-pixel grid above 640. -/
def exampleVideoConfigUnaligned : VideoConfig :=
  { exampleVideoConfig with cx := 1915 }

/-! ## Basic lemmas -/

theorem ClampToGranularity_of_ne_zero (val minVal granularity : Int) (h : granularity ≠ 0) :
    ClampToGranularity val minVal granularity
      = some (val - Int.tmod (val - minVal) granularity) := by
  simp [ClampToGranularity, h]

theorem Get_FORMAT_VideoInfo_Data_granularity
    (vf : AM_MEDIA_TYPE VIDEOINFOHEADER → Option VideoFormat) (mt : AM_MEDIA_TYPE VIDEOINFOHEADER)
    (data : Option VIDEO_STREAM_CONFIG_CAPS) (info : VideoInfo)
    (h : Get_FORMAT_VideoInfo_Data vf mt data = some info) :
    1 ≤ info.granularityCX ∧ 1 ≤ info.granularityCY := by
  unfold Get_FORMAT_VideoInfo_Data at h
  cases hv : vf mt with
  | none => simp [hv] at h
  | some f =>
    cases data with
    | none => simp [hv] at h
    | some vscc =>
      simp only [hv] at h
      injection h with h
      subst h
      exact ⟨le_max_right _ _, le_max_right _ _⟩

theorem videoDescriptor_granularity
    (vf : AM_MEDIA_TYPE VIDEOINFOHEADER → Option VideoFormat) (config : VideoConfig) (c : VideoCaps)
    (info : VideoInfo) (h : videoDescriptor vf config c = some info) :
    1 ≤ info.granularityCX ∧ 1 ≤ info.granularityCY := by
  unfold videoDescriptor at h
  split at h
  · cases hg : Get_FORMAT_VideoInfo_Data vf c.mt c.data with
    | none => simp [hg] at h
    | some i =>
      simp only [hg] at h
      split at h
      · injection h with h
        subst h
        exact Get_FORMAT_VideoInfo_Data_granularity vf c.mt c.data i hg
      · exact absurd h (by simp)
  · exact absurd h (by simp)

theorem xVal_nonneg (config : VideoConfig) (info : VideoInfo) : 0 ≤ xVal config info := by
  unfold xVal; split_ifs <;> omega

theorem yVal_nonneg (config : VideoConfig) (info : VideoInfo) : 0 ≤ yVal config info := by
  unfold yVal; split_ifs <;> omega

theorem frameVal_nonneg (config : VideoConfig) (info : VideoInfo) : 0 ≤ frameVal config info := by
  unfold frameVal; split_ifs <;> omega

theorem xVal_eq_zero_iff (config : VideoConfig) (info : VideoInfo) :
    xVal config info = 0 ↔ info.minCX ≤ config.cx ∧ config.cx ≤ info.maxCX := by
  unfold xVal; split_ifs <;> omega

theorem yVal_eq_zero_iff (config : VideoConfig) (info : VideoInfo) :
    yVal config info = 0 ↔ info.minCY ≤ config.cy ∧ config.cy ≤ info.maxCY := by
  unfold yVal; split_ifs <;> omega

theorem frameVal_eq_zero_iff (config : VideoConfig) (info : VideoInfo) :
    frameVal config info = 0 ↔
      info.minInterval ≤ config.frameInterval ∧ config.frameInterval ≤ info.maxInterval := by
  unfold frameVal; split_ifs <;> omega

theorem ClosestVideoMTCallback_skip
    (vf : AM_MEDIA_TYPE VIDEOINFOHEADER → Option VideoFormat) (data : ClosestVideoData)
    (c : VideoCaps) (h : videoDescriptor vf data.config c = none) :
    ClosestVideoMTCallback vf data c.mt c.data = some (data, true) := by
  unfold videoDescriptor at h
  unfold ClosestVideoMTCallback
  by_cases hf : c.mt.formattype = FormatGuid.FORMAT_VideoInfo
  · simp only [hf, if_true] at h
    simp only [hf, ne_eq, not_true_eq_false, if_false]
    cases hg : Get_FORMAT_VideoInfo_Data vf c.mt c.data with
    | none => rfl
    | some info =>
      simp only [hg] at h
      split at h
      · exact absurd h (by simp)
      · rename_i hc
        have hc' : data.config.internalFormat ≠ VideoFormat.Any ∧
            data.config.internalFormat ≠ info.format := by
          constructor
          · intro e; exact hc (Or.inl e)
          · intro e; exact hc (Or.inr e)
        have h1 := hc'.1
        have h2 := hc'.2
        simp [h1, h2]
  · simp [hf]

theorem ClosestVideoMTCallback_accept
    (vf : AM_MEDIA_TYPE VIDEOINFOHEADER → Option VideoFormat) (data : ClosestVideoData)
    (c : VideoCaps) (info : VideoInfo) (h : videoDescriptor vf data.config c = some info) :
    ClosestVideoMTCallback vf data c.mt c.data =
      if data.found = false ∨
          data.bestVal > frameVal data.config info + yVal data.config info + xVal data.config info then
        some ({ data with
                found := true
                bestVal := frameVal data.config info + yVal data.config info + xVal data.config info
                mt := some (videoOutput data.config info c.mt) },
              decide (frameVal data.config info + yVal data.config info + xVal data.config info ≠ 0))
      else some (data, true) := by
  have hgr := videoDescriptor_granularity vf data.config c info h
  have hgx : info.granularityCX ≠ 0 := by omega
  have hgy : info.granularityCY ≠ 0 := by omega
  unfold videoDescriptor at h
  unfold ClosestVideoMTCallback
  by_cases hf : c.mt.formattype = FormatGuid.FORMAT_VideoInfo
  · simp only [hf, if_true] at h
    simp only [hf, ne_eq, not_true_eq_false, if_false]
    cases hg : Get_FORMAT_VideoInfo_Data vf c.mt c.data with
    | none => simp [hg] at h
    | some info' =>
      simp only [hg] at h
      split at h
      · rename_i hc
        injection h with h
        subst h
        have hc' : ¬ (data.config.internalFormat ≠ VideoFormat.Any ∧
            data.config.internalFormat ≠ info'.format) := by
          intro hh
          rcases hc with e | e
          · exact hh.1 e
          · exact hh.2 e
        simp only [hc', if_false]
        split
        · simp only [ClampToGranularity_of_ne_zero _ _ _ hgx,
            ClampToGranularity_of_ne_zero _ _ _ hgy, videoOutput]
          by_cases hx : xVal data.config info' = 0 <;> by_cases hy : yVal data.config info' = 0 <;>
            simp [hx, hy, hf]
        · rfl
      · exact absurd h (by simp)
  · simp [hf] at h

theorem videoTotal_nonneg (config : VideoConfig) (info : VideoInfo) : 0 ≤ videoTotal config info := by
  have h1 := xVal_nonneg config info
  have h2 := yVal_nonneg config info
  have h3 := frameVal_nonneg config info
  unfold videoTotal; omega

theorem videoTotal_eq_zero_iff (config : VideoConfig) (info : VideoInfo) :
    videoTotal config info = 0 ↔ VideoContains config info := by
  have h1 := xVal_nonneg config info
  have h2 := yVal_nonneg config info
  have h3 := frameVal_nonneg config info
  unfold videoTotal VideoContains
  rw [← xVal_eq_zero_iff, ← yVal_eq_zero_iff, ← frameVal_eq_zero_iff]
  omega

theorem ClosestVideoMTCallback_taken
    (vf : AM_MEDIA_TYPE VIDEOINFOHEADER → Option VideoFormat) (data : ClosestVideoData)
    (c : VideoCaps) (info : VideoInfo) (h : videoDescriptor vf data.config c = some info)
    (hrep : data.found = false ∨ data.bestVal > videoTotal data.config info) :
    ClosestVideoMTCallback vf data c.mt c.data
      = some (videoTaken data info c, decide (videoTotal data.config info ≠ 0)) := by
  rw [ClosestVideoMTCallback_accept vf data c info h]
  unfold videoTotal at hrep
  rw [if_pos hrep]
  rfl

theorem ClosestVideoMTCallback_kept
    (vf : AM_MEDIA_TYPE VIDEOINFOHEADER → Option VideoFormat) (data : ClosestVideoData)
    (c : VideoCaps) (info : VideoInfo) (h : videoDescriptor vf data.config c = some info)
    (hrep : ¬ (data.found = false ∨ data.bestVal > videoTotal data.config info)) :
    ClosestVideoMTCallback vf data c.mt c.data = some (data, true) := by
  rw [ClosestVideoMTCallback_accept vf data c info h]
  unfold videoTotal at hrep
  rw [if_neg hrep]

/-- The enumeration loop of the video selector, started in a state whose best distance (if any)
is positive: either no entry improves on the state and it is returned unchanged, or the
result is the first entry of least distance. -/
theorem video_loop_spec (vf : AM_MEDIA_TYPE VIDEOINFOHEADER → Option VideoFormat)
    (l : List (Option VideoCaps)) :
    ∀ d : ClosestVideoData, (d.found = true → 0 < d.bestVal) →
      (EnumPinCaps.loop (ClosestVideoMTCallback vf) l d = some d ∧
        ∀ c info, some c ∈ l → videoDescriptor vf d.config c = some info →
          d.found = true ∧ d.bestVal ≤ videoTotal d.config info) ∨
      (∃ pre c post info, l = pre ++ some c :: post ∧
        videoDescriptor vf d.config c = some info ∧
        EnumPinCaps.loop (ClosestVideoMTCallback vf) l d = some (videoTaken d info c) ∧
        (d.found = true → videoTotal d.config info < d.bestVal) ∧
        (∀ c' info', some c' ∈ l → videoDescriptor vf d.config c' = some info' →
          videoTotal d.config info ≤ videoTotal d.config info') ∧
        (∀ c' info', some c' ∈ pre → videoDescriptor vf d.config c' = some info' →
          videoTotal d.config info < videoTotal d.config info')) := by
  induction l with
  | nil =>
    intro d _
    left
    refine ⟨rfl, ?_⟩
    intro c info hm
    simp at hm
  | cons e rest ih =>
    intro d hd
    cases e with
    | none =>
      have hloop : EnumPinCaps.loop (ClosestVideoMTCallback vf) (none :: rest) d
          = EnumPinCaps.loop (ClosestVideoMTCallback vf) rest d := rfl
      rcases ih d hd with ⟨h1, h2⟩ | ⟨pre, c, post, info, hl, hdesc, hres, hlt, hmin, hpre⟩
      · left
        refine ⟨by rw [hloop, h1], ?_⟩
        intro c info hm
        simp only [List.mem_cons, reduceCtorEq, false_or] at hm
        exact h2 c info hm
      · right
        refine ⟨none :: pre, c, post, info, by simp [hl], hdesc, by rw [hloop, hres], hlt, ?_, ?_⟩
        · intro c' info' hm
          simp only [List.mem_cons, reduceCtorEq, false_or] at hm
          exact hmin c' info' hm
        · intro c' info' hm
          simp only [List.mem_cons, reduceCtorEq, false_or] at hm
          exact hpre c' info' hm
    | some c =>
      cases hdc : videoDescriptor vf d.config c with
      | none =>
        have hloop : EnumPinCaps.loop (ClosestVideoMTCallback vf) (some c :: rest) d
            = EnumPinCaps.loop (ClosestVideoMTCallback vf) rest d := by
          simp [EnumPinCaps.loop, ClosestVideoMTCallback_skip vf d c hdc]
        rcases ih d hd with ⟨h1, h2⟩ | ⟨pre, c2, post, info, hl, hdesc, hres, hlt, hmin, hpre⟩
        · left
          refine ⟨by rw [hloop, h1], ?_⟩
          intro c' info' hm hd'
          simp only [List.mem_cons, Option.some.injEq] at hm
          rcases hm with rfl | hm
          · rw [hdc] at hd'; exact absurd hd' (by simp)
          · exact h2 c' info' hm hd'
        · right
          refine ⟨some c :: pre, c2, post, info, by simp [hl], hdesc, by rw [hloop, hres], hlt, ?_, ?_⟩
          · intro c' info' hm hd'
            simp only [List.mem_cons, Option.some.injEq] at hm
            rcases hm with rfl | hm
            · rw [hdc] at hd'; exact absurd hd' (by simp)
            · exact hmin c' info' hm hd'
          · intro c' info' hm hd'
            simp only [List.mem_cons, Option.some.injEq] at hm
            rcases hm with rfl | hm
            · rw [hdc] at hd'; exact absurd hd' (by simp)
            · exact hpre c' info' hm hd'
      | some info =>
        have hnn := videoTotal_nonneg d.config info
        by_cases hrep : d.found = false ∨ d.bestVal > videoTotal d.config info
        · have hcb := ClosestVideoMTCallback_taken vf d c info hdc hrep
          have hlt : d.found = true → videoTotal d.config info < d.bestVal := by
            intro hf
            rcases hrep with h | h
            · rw [hf] at h; exact absurd h (by simp)
            · exact h
          by_cases ht : videoTotal d.config info = 0
          · right
            refine ⟨[], c, rest, info, rfl, hdc, ?_, hlt, ?_, ?_⟩
            · simp [EnumPinCaps.loop, hcb, ht]
            · intro c' info' _ _
              rw [ht]; exact videoTotal_nonneg d.config info'
            · intro c' info' hm
              simp at hm
          · have hloop : EnumPinCaps.loop (ClosestVideoMTCallback vf) (some c :: rest) d
                = EnumPinCaps.loop (ClosestVideoMTCallback vf) rest (videoTaken d info c) := by
              simp [EnumPinCaps.loop, hcb, ht]
            have hd' : (videoTaken d info c).found = true → 0 < (videoTaken d info c).bestVal := by
              intro _
              show 0 < videoTotal d.config info
              omega
            rcases ih (videoTaken d info c) hd' with
              ⟨h1, h2⟩ | ⟨pre, c2, post, info2, hl, hdesc, hres, hlt2, hmin, hpre⟩
            · right
              refine ⟨[], c, rest, info, rfl, hdc, by rw [hloop, h1], hlt, ?_, ?_⟩
              · intro c' info' hm hd''
                simp only [List.mem_cons, Option.some.injEq] at hm
                rcases hm with rfl | hm
                · rw [hdc] at hd''; injection hd'' with e; rw [e]
                · exact (h2 c' info' hm hd'').2
              · intro c' info' hm
                simp at hm
            · right
              have hlt3 : videoTotal d.config info2 < videoTotal d.config info := hlt2 rfl
              refine ⟨some c :: pre, c2, post, info2, by simp [hl], hdesc, ?_, ?_, ?_, ?_⟩
              · rw [hloop, hres]; rfl
              · intro hf; have := hlt hf; omega
              · intro c' info' hm hd''
                simp only [List.mem_cons, Option.some.injEq] at hm
                rcases hm with rfl | hm
                · rw [hdc] at hd''; injection hd'' with e; rw [← e]; omega
                · exact hmin c' info' hm hd''
              · intro c' info' hm hd''
                simp only [List.mem_cons, Option.some.injEq] at hm
                rcases hm with rfl | hm
                · rw [hdc] at hd''; injection hd'' with e; rw [← e]; exact hlt3
                · exact hpre c' info' hm hd''
        · have hcb := ClosestVideoMTCallback_kept vf d c info hdc hrep
          have hloop : EnumPinCaps.loop (ClosestVideoMTCallback vf) (some c :: rest) d
              = EnumPinCaps.loop (ClosestVideoMTCallback vf) rest d := by
            simp [EnumPinCaps.loop, hcb]
          have hfound : d.found = true := by
            cases hf : d.found with
            | true => rfl
            | false => exact absurd (Or.inl hf) hrep
          have hbest : d.bestVal ≤ videoTotal d.config info := by
            by_contra hcon
            exact hrep (Or.inr (by omega))
          rcases ih d hd with ⟨h1, h2⟩ | ⟨pre, c2, post, info2, hl, hdesc, hres, hlt2, hmin, hpre⟩
          · left
            refine ⟨by rw [hloop, h1], ?_⟩
            intro c' info' hm hd''
            simp only [List.mem_cons, Option.some.injEq] at hm
            rcases hm with rfl | hm
            · rw [hdc] at hd''; injection hd'' with e; rw [← e]; exact ⟨hfound, hbest⟩
            · exact h2 c' info' hm hd''
          · right
            have hlt3 := hlt2 hfound
            refine ⟨some c :: pre, c2, post, info2, by simp [hl], hdesc, by rw [hloop, hres], hlt2, ?_, ?_⟩
            · intro c' info' hm hd''
              simp only [List.mem_cons, Option.some.injEq] at hm
              rcases hm with rfl | hm
              · rw [hdc] at hd''; injection hd'' with e; rw [← e]; omega
              · exact hmin c' info' hm hd''
            · intro c' info' hm hd''
              simp only [List.mem_cons, Option.some.injEq] at hm
              rcases hm with rfl | hm
              · rw [hdc] at hd''; injection hd'' with e; rw [← e]; omega
              · exact hpre c' info' hm hd''

theorem video_loop_first_zero (vf : AM_MEDIA_TYPE VIDEOINFOHEADER → Option VideoFormat)
    (c : VideoCaps) (post : List (Option VideoCaps)) (pre : List (Option VideoCaps)) :
    ∀ (d : ClosestVideoData) (info : VideoInfo), (d.found = true → 0 < d.bestVal) →
      videoDescriptor vf d.config c = some info → videoTotal d.config info = 0 →
      (∀ c' info', some c' ∈ pre → videoDescriptor vf d.config c' = some info' →
        videoTotal d.config info' ≠ 0) →
      EnumPinCaps.loop (ClosestVideoMTCallback vf) (pre ++ some c :: post) d
        = some (videoTaken d info c) := by
  induction pre with
  | nil =>
    intro d info hd hdesc h0 _
    have hrep : d.found = false ∨ d.bestVal > videoTotal d.config info := by
      cases hf : d.found with
      | false => exact Or.inl rfl
      | true => right; have := hd hf; omega
    simp [EnumPinCaps.loop, ClosestVideoMTCallback_taken vf d c info hdesc hrep, h0]
  | cons e pre ih =>
    intro d info hd hdesc h0 hpre
    have hpre' : ∀ c' info', some c' ∈ pre → videoDescriptor vf d.config c' = some info' →
        videoTotal d.config info' ≠ 0 := by
      intro c' info' hm
      exact hpre c' info' (List.mem_cons_of_mem _ hm)
    cases e with
    | none => exact ih d info hd hdesc h0 hpre'
    | some c1 =>
      cases hdc : videoDescriptor vf d.config c1 with
      | none =>
        have := ih d info hd hdesc h0 hpre'
        simpa [EnumPinCaps.loop, ClosestVideoMTCallback_skip vf d c1 hdc] using this
      | some info1 =>
        have hne : videoTotal d.config info1 ≠ 0 := hpre c1 info1 (List.mem_cons_self _ _) hdc
        have hnn := videoTotal_nonneg d.config info1
        by_cases hrep : d.found = false ∨ d.bestVal > videoTotal d.config info1
        · have hd' : (videoTaken d info1 c1).found = true → 0 < (videoTaken d info1 c1).bestVal := by
            intro _
            show 0 < videoTotal d.config info1
            omega
          have := ih (videoTaken d info1 c1) info hd' hdesc h0 hpre'
          simpa [EnumPinCaps.loop, ClosestVideoMTCallback_taken vf d c1 info1 hdc hrep, hne] using this
        · have := ih d info hd hdesc h0 hpre'
          simpa [EnumPinCaps.loop, ClosestVideoMTCallback_kept vf d c1 info1 hdc hrep] using this

theorem videoDescriptor_of_parts (vf : AM_MEDIA_TYPE VIDEOINFOHEADER → Option VideoFormat)
    (config : VideoConfig) (c : VideoCaps) (info : VideoInfo)
    (hguid : c.mt.formattype = FormatGuid.FORMAT_VideoInfo)
    (hinfo : Get_FORMAT_VideoInfo_Data vf c.mt c.data = some info)
    (hfmt : config.internalFormat = info.format ∨ config.internalFormat = VideoFormat.Any) :
    videoDescriptor vf config c = some info := by
  unfold videoDescriptor
  rw [if_pos hguid, hinfo]
  exact if_pos hfmt.symm

theorem EnumPinCaps_pinOfCaps {φ γ σ : Type} (caps : List (Option (StreamCaps φ γ)))
    (callback : σ → AM_MEDIA_TYPE φ → γ → Option (σ × Bool)) (param : σ) :
    EnumPinCaps (pinOfCaps caps) callback param
      = (EnumPinCaps.loop callback caps param).map (fun p => (true, p)) := rfl

theorem ClosestAudioMTCallback_skip (uninit : AudioInfo) (data : ClosestAudioData) (c : AudioCaps)
    (h : audioDescriptor uninit data.config c = none) :
    ClosestAudioMTCallback uninit data c.mt c.data = some (data, true) := by
  unfold audioDescriptor at h
  unfold ClosestAudioMTCallback
  by_cases hf : c.mt.formattype = FormatGuid.FORMAT_WaveFormatEx
  · rw [if_pos hf] at h
    split at h
    · exact absurd h (by simp)
    · rename_i hc
      have h1 : data.config.format ≠ AudioFormat.Any := fun e => hc (Or.inl e)
      have h2 : data.config.format ≠ (Get_FORMAT_WaveFormatEx_Data uninit c.mt c.data).format :=
        fun e => hc (Or.inr e)
      simp [hf, h1, h2]
  · simp [hf]

theorem ClosestAudioMTCallback_accept (uninit : AudioInfo) (data : ClosestAudioData) (c : AudioCaps)
    (info : AudioInfo) (h : audioDescriptor uninit data.config c = some info) :
    ClosestAudioMTCallback uninit data c.mt c.data =
      if data.found = false ∨ data.bestVal > audioTotal data.config info then
        (audioOutput data.config info c.mt).map
          (fun out => (audioTaken data info out, decide (audioTotal data.config info ≠ 0)))
      else some (data, true) := by
  unfold audioDescriptor at h
  unfold ClosestAudioMTCallback
  by_cases hf : c.mt.formattype = FormatGuid.FORMAT_WaveFormatEx
  · rw [if_pos hf] at h
    split at h
    · rename_i hc
      injection h with h
      subst h
      have hc' : ¬ (data.config.format ≠ AudioFormat.Any ∧
          data.config.format ≠ (Get_FORMAT_WaveFormatEx_Data uninit c.mt c.data).format) := by
        intro hh
        rcases hc with e | e
        · exact hh.1 e
        · exact hh.2 e
      simp only [hf, ne_eq, not_true_eq_false, if_false]
      rw [if_neg hc']
      by_cases hrep : data.found = false ∨
          data.bestVal > audioTotal data.config (Get_FORMAT_WaveFormatEx_Data uninit c.mt c.data)
      · rw [if_pos hrep]
        unfold audioTotal at hrep
        rw [if_pos hrep]
        unfold audioOutput audioTaken audioTotal
        by_cases hch : channelsVal data.config (Get_FORMAT_WaveFormatEx_Data uninit c.mt c.data) = 0 <;>
          by_cases hsr : sampleRateVal data.config (Get_FORMAT_WaveFormatEx_Data uninit c.mt c.data) = 0 <;>
          simp only [hch, hsr, if_true, if_false] <;>
          cases ClampToGranularity data.config.channels
            (Get_FORMAT_WaveFormatEx_Data uninit c.mt c.data).minChannels
            (Get_FORMAT_WaveFormatEx_Data uninit c.mt c.data).channelsGranularity <;>
          cases ClampToGranularity (toLONG (toDWORD data.config.sampleRate))
            (Get_FORMAT_WaveFormatEx_Data uninit c.mt c.data).minSampleRate
            (Get_FORMAT_WaveFormatEx_Data uninit c.mt c.data).sampleRateGranularity <;>
          first | rfl | simp [hf]
      · rw [if_neg hrep]
        unfold audioTotal at hrep
        rw [if_neg hrep]
    · exact absurd h (by simp)
  · simp [hf] at h

theorem EnumPinCaps.loop_invariant {φ γ σ : Type}
    (callback : σ → AM_MEDIA_TYPE φ → γ → Option (σ × Bool)) (P : σ → Prop)
    (l : List (Option (StreamCaps φ γ)))
    (hstep : ∀ c, some c ∈ l → ∀ s s' b, P s → callback s c.mt c.data = some (s', b) → P s') :
    ∀ s r, P s → EnumPinCaps.loop callback l s = some r → P r := by
  induction l with
  | nil =>
    intro s r hs hr
    simp only [EnumPinCaps.loop, Option.some.injEq] at hr
    rw [← hr]; exact hs
  | cons e rest ih =>
    have hrest : ∀ c, some c ∈ rest → ∀ s s' b, P s → callback s c.mt c.data = some (s', b) → P s' :=
      fun c hm => hstep c (List.mem_cons_of_mem _ hm)
    intro s r hs hr
    cases e with
    | none => exact ih hrest s r hs hr
    | some c =>
      cases hcb : callback s c.mt c.data with
      | none => simp [EnumPinCaps.loop, hcb] at hr
      | some p =>
        obtain ⟨s', b⟩ := p
        have hs' : P s' := hstep c (List.mem_cons_self _ _) s s' b hs hcb
        cases b with
        | true =>
          simp only [EnumPinCaps.loop, hcb, if_true] at hr
          exact ih hrest s' r hs' hr
        | false =>
          simp only [EnumPinCaps.loop, hcb, Bool.false_eq_true, if_false, Option.some.injEq] at hr
          rw [← hr]; exact hs'

theorem IPin_eq_pinOfCaps {φ γ : Type} (pin : IPin φ γ) (config : IAMStreamConfig φ γ)
    (caps : List (Option (StreamCaps φ γ))) (h1 : pin.streamConfig = some config)
    (h2 : config.streamCaps = some caps) : pin = pinOfCaps caps := by
  cases pin with
  | mk sc =>
    cases config with
    | mk l =>
      simp only at h1 h2
      subst h1
      subst h2
      rfl

/-- A `true` result of `GetClosestVideoMediaType` comes from an entry of the enumerated
sequence: the stored media type is the one built from a format-compatible entry. -/
theorem GetClosestVideoMediaType_found
    (vf : AM_MEDIA_TYPE VIDEOINFOHEADER → Option VideoFormat) (filter : IBaseFilter)
    (config : VideoConfig) (mt0 m : Option (AM_MEDIA_TYPE VIDEOINFOHEADER))
    (h : GetClosestVideoMediaType vf filter config mt0 = some (true, m)) :
    ∃ caps c info, filter.videoPin = some (pinOfCaps caps) ∧ some c ∈ caps ∧
      videoDescriptor vf config c = some info ∧ m = some (videoOutput config info c.mt) := by
  unfold GetClosestVideoMediaType at h
  cases hp : filter.videoPin with
  | none => simp [hp] at h
  | some pin =>
    simp only [hp] at h
    cases hsc : pin.streamConfig with
    | none => simp [EnumPinCaps, hsc] at h
    | some cfg =>
      cases hcaps : cfg.streamCaps with
      | none => simp [EnumPinCaps, hsc, hcaps] at h
      | some caps =>
        have hpin := IPin_eq_pinOfCaps pin cfg caps hsc hcaps
        subst hpin
        rw [EnumPinCaps_pinOfCaps] at h
        rcases video_loop_spec vf caps (ClosestVideoData.new config mt0)
            (by intro hh; exact absurd hh (by simp [ClosestVideoData.new])) with
          ⟨h1, _⟩ | ⟨pre, c, post, info, hl, hdesc, hres, _, _, _⟩
        · rw [h1] at h
          simp [ClosestVideoData.new] at h
        · rw [hres] at h
          refine ⟨caps, c, info, rfl, by simp [hl], hdesc, ?_⟩
          simp only [Option.map_some', Bool.not_true, Bool.false_eq_true, if_false,
            Option.some.injEq, Prod.mk.injEq] at h
          rw [← h.2]
          rfl

/-- A `true` result of `GetClosestAudioMediaType` comes from an entry of the enumerated
sequence: the stored media type is the one built from a format-compatible entry. -/
theorem GetClosestAudioMediaType_found (uninit : AudioInfo) (filter : IBaseFilter)
    (config : AudioConfig) (mt0 m : Option (AM_MEDIA_TYPE WAVEFORMATEX))
    (h : GetClosestAudioMediaType uninit filter config mt0 = some (true, m)) :
    ∃ caps c info out, filter.audioPin = some (pinOfCaps caps) ∧ some c ∈ caps ∧
      audioDescriptor uninit config c = some info ∧ audioOutput config info c.mt = some out ∧
      m = some out := by
  unfold GetClosestAudioMediaType at h
  cases hp : filter.audioPin with
  | none => simp [hp] at h
  | some pin =>
    simp only [hp] at h
    cases hsc : pin.streamConfig with
    | none => simp [EnumPinCaps, hsc] at h
    | some cfg =>
      cases hcaps : cfg.streamCaps with
      | none => simp [EnumPinCaps, hsc, hcaps] at h
      | some caps =>
        have hpin := IPin_eq_pinOfCaps pin cfg caps hsc hcaps
        subst hpin
        rw [EnumPinCaps_pinOfCaps] at h
        cases hloop : EnumPinCaps.loop (ClosestAudioMTCallback uninit) caps
            (ClosestAudioData.new config mt0) with
        | none => simp [hloop] at h
        | some r =>
          have hinv := EnumPinCaps.loop_invariant (ClosestAudioMTCallback uninit)
            (fun s => s.config = config ∧ (s.found = true → ∃ c info out, some c ∈ caps ∧
              audioDescriptor uninit config c = some info ∧
              audioOutput config info c.mt = some out ∧ s.mt = some out))
            caps
            (by
              intro c hm s s' b hs hcb
              obtain ⟨hcfg, hfound⟩ := hs
              cases hd : audioDescriptor uninit s.config c with
              | none =>
                rw [ClosestAudioMTCallback_skip uninit s c hd] at hcb
                simp only [Option.some.injEq, Prod.mk.injEq] at hcb
                rw [← hcb.1]; exact ⟨hcfg, hfound⟩
              | some info =>
                rw [ClosestAudioMTCallback_accept uninit s c info hd] at hcb
                split at hcb
                · cases hout : audioOutput s.config info c.mt with
                  | none => simp [hout] at hcb
                  | some out =>
                    simp only [hout, Option.map_some', Option.some.injEq, Prod.mk.injEq] at hcb
                    rw [← hcb.1]
                    refine ⟨hcfg, fun _ => ⟨c, info, out, hm, ?_, ?_, rfl⟩⟩
                    · rw [← hcfg]; exact hd
                    · rw [← hcfg]; exact hout
                · simp only [Option.some.injEq, Prod.mk.injEq] at hcb
                  rw [← hcb.1]; exact ⟨hcfg, hfound⟩)
            (ClosestAudioData.new config mt0) r
            ⟨rfl, by intro hh; exact absurd hh (by simp [ClosestAudioData.new])⟩ hloop
          rw [hloop] at h
          simp only [Option.map_some', Bool.not_true, Bool.false_eq_true, if_false,
            Option.some.injEq, Prod.mk.injEq] at h
          obtain ⟨c, info, out, hm, hd, hout, hmt⟩ := hinv.2 h.1
          exact ⟨caps, c, info, out, rfl, hm, hd, hout, by rw [← h.2, hmt]⟩

theorem tmod_clamp_sub (val minVal g : Int) :
    val - Int.tmod (val - minVal) g - minVal = g * Int.tdiv (val - minVal) g := by
  have h := Int.tmod_add_tdiv (val - minVal) g
  omega

theorem videoOutput_width_of_zero (config : VideoConfig) (info : VideoInfo)
    (mt : AM_MEDIA_TYPE VIDEOINFOHEADER) (h : xVal config info = 0) :
    (videoOutput config info mt).pbFormat.bmiHeader.biWidth
      = config.cx - Int.tmod (config.cx - info.minCX) info.granularityCX := by
  simp [videoOutput, h]

theorem videoOutput_height_of_zero (config : VideoConfig) (info : VideoInfo)
    (mt : AM_MEDIA_TYPE VIDEOINFOHEADER) (h : yVal config info = 0) :
    (videoOutput config info mt).pbFormat.bmiHeader.biHeight
      = config.cy - Int.tmod (config.cy - info.minCY) info.granularityCY := by
  simp [videoOutput, h]

theorem clamp_bounds (val minVal g : Int) (hg : 1 ≤ g) (hv : minVal ≤ val) :
    minVal ≤ val - Int.tmod (val - minVal) g ∧ val - Int.tmod (val - minVal) g ≤ val ∧
      val - (val - Int.tmod (val - minVal) g) < g ∧
      g ∣ (val - Int.tmod (val - minVal) g - minVal) := by
  have hmod : Int.tmod (val - minVal) g = (val - minVal) % g :=
    Int.tmod_eq_emod (by omega) (by omega)
  have h0 : 0 ≤ (val - minVal) % g := Int.emod_nonneg _ (by omega)
  have h1 : (val - minVal) % g < g := Int.emod_lt_of_pos _ (by omega)
  have hq : 0 ≤ (val - minVal) / g := Int.ediv_nonneg (by omega) (by omega)
  have hmul : 0 ≤ g * ((val - minVal) / g) := mul_nonneg (by omega) hq
  have hdec := Int.emod_add_ediv (val - minVal) g
  refine ⟨by omega, by omega, by omega, ?_⟩
  rw [tmod_clamp_sub]
  exact Dvd.intro _ rfl

theorem sampleRateVal_ne_zero_of_outside (config : AudioConfig) (info : AudioInfo)
    (h : config.sampleRate < info.minSampleRate ∨ info.maxSampleRate < config.sampleRate) :
    sampleRateVal config info ≠ 0 := by
  unfold sampleRateVal; split_ifs <;> omega

theorem channelsVal_ne_zero_of_below (config : AudioConfig) (info : AudioInfo)
    (h : config.channels < info.minChannels) : channelsVal config info ≠ 0 := by
  unfold channelsVal
  rw [if_pos h]
  omega

/-- The promoted product `wBitsPerSample * nChannels`, divided by `8` and stored into a `WORD`,
is the plain quotient as long as the quotient fits 16 bits. -/
theorem blockAlign_of_small (b c : Nat) (hq : b * c / 8 < 65536) :
    toWORD (Int.tdiv (toLONG (b * c)) 8) = b * c / 8 := by
  have hp : b * c < 2147483648 := by omega
  have h1 : b * c % 4294967296 = b * c := Nat.mod_eq_of_lt (by omega)
  have h2 : toLONG (b * c) = ((b * c : Nat) : Int) := by
    unfold toLONG
    rw [h1, if_pos hp]
  rw [h2]
  have h3 : Int.tdiv ((b * c : Nat) : Int) 8 = (((b * c) / 8 : Nat) : Int) := by
    rw [Int.tdiv_eq_ediv (by omega) (by norm_num)]
    norm_cast
  rw [h3]
  unfold toWORD
  have h4 : ((((b * c) / 8 : Nat) : Int)) % 65536 = (((b * c) / 8 : Nat) : Int) := by
    apply Int.emod_eq_of_lt <;> omega
  rw [h4]
  exact Int.toNat_ofNat _

/-- What the stored audio media type looks like, field by field. -/
theorem audioOutput_spec (config : AudioConfig) (info : AudioInfo)
    (mt out : AM_MEDIA_TYPE WAVEFORMATEX) (h : audioOutput config info mt = some out) :
    out.pbFormat.wBitsPerSample = mt.pbFormat.wBitsPerSample ∧
    out.pbFormat.nAvgBytesPerSec
      = (out.pbFormat.nSamplesPerSec * out.pbFormat.nBlockAlign) % 4294967296 ∧
    (channelsVal config info = 0 →
      out.pbFormat.nBlockAlign
        = toWORD (Int.tdiv (toLONG (out.pbFormat.wBitsPerSample * out.pbFormat.nChannels)) 8)) ∧
    (channelsVal config info ≠ 0 →
      out.pbFormat.nChannels = mt.pbFormat.nChannels ∧
      out.pbFormat.nBlockAlign = mt.pbFormat.nBlockAlign) ∧
    (sampleRateVal config info ≠ 0 →
      out.pbFormat.nSamplesPerSec = mt.pbFormat.nSamplesPerSec) := by
  unfold audioOutput at h
  by_cases hch : channelsVal config info = 0 <;>
    by_cases hsr : sampleRateVal config info = 0 <;>
    simp only [hch, hsr, if_true, if_false] at h <;>
    cases hc1 : ClampToGranularity config.channels info.minChannels info.channelsGranularity <;>
    cases hc2 : ClampToGranularity (toLONG (toDWORD config.sampleRate)) info.minSampleRate
      info.sampleRateGranularity <;>
    simp [hc1, hc2] at h <;>
    (subst h; simp [hch, hsr])

/-- The video selector never faults: the extracted granularities are at least 1. -/
theorem GetClosestVideoMediaType_total
    (vf : AM_MEDIA_TYPE VIDEOINFOHEADER → Option VideoFormat) (filter : IBaseFilter)
    (config : VideoConfig) (mt0 : Option (AM_MEDIA_TYPE VIDEOINFOHEADER)) :
    ∃ r, GetClosestVideoMediaType vf filter config mt0 = some r := by
  unfold GetClosestVideoMediaType
  cases hp : filter.videoPin with
  | none => exact ⟨_, rfl⟩
  | some pin =>
    cases hsc : pin.streamConfig with
    | none => simp [EnumPinCaps, hsc]
    | some cfg =>
      cases hcaps : cfg.streamCaps with
      | none => simp [EnumPinCaps, hsc, hcaps]
      | some caps =>
        rcases video_loop_spec vf caps (ClosestVideoData.new config mt0)
            (by intro hh; exact absurd hh (by simp [ClosestVideoData.new])) with
          ⟨h1, _⟩ | ⟨_, c, _, info, _, _, hres, _, _, _⟩
        · simp [EnumPinCaps, hsc, hcaps, h1]
        · simp [EnumPinCaps, hsc, hcaps, hres]

theorem videoDescriptor_eq_some_iff (vf : AM_MEDIA_TYPE VIDEOINFOHEADER → Option VideoFormat)
    (config : VideoConfig) (c : VideoCaps) (info : VideoInfo) :
    videoDescriptor vf config c = some info ↔
      c.mt.formattype = FormatGuid.FORMAT_VideoInfo ∧
      Get_FORMAT_VideoInfo_Data vf c.mt c.data = some info ∧
      (config.internalFormat = info.format ∨ config.internalFormat = VideoFormat.Any) := by
  constructor
  · intro h
    unfold videoDescriptor at h
    by_cases hf : c.mt.formattype = FormatGuid.FORMAT_VideoInfo
    · rw [if_pos hf] at h
      cases hg : Get_FORMAT_VideoInfo_Data vf c.mt c.data with
      | none => simp [hg] at h
      | some i =>
        simp only [hg] at h
        split at h
        · rename_i hc
          injection h with h
          subst h
          exact ⟨hf, rfl, hc.symm⟩
        · exact absurd h (by simp)
    · rw [if_neg hf] at h
      exact absurd h (by simp)
  · rintro ⟨hf, hg, hc⟩
    exact videoDescriptor_of_parts vf config c info hf hg hc

/-- `ConvertVideoSettings` on a session with a media type: it returns, keeps the media type,
copies width, height and frame interval when the media type has a bitmap info header and
leaves the stored configuration alone otherwise. -/
theorem ConvertVideoSettings_spec (env : Env) (d : HDevice) (mt : AM_MEDIA_TYPE VIDEOINFOHEADER)
    (h : d.videoMediaType = some mt) :
    ∃ d2, HDevice.ConvertVideoSettings env d = some d2 ∧
      d2.videoMediaType = some mt ∧
      (env.hasBitmapInfoHeader mt = true →
        d2.videoConfig.cx = mt.pbFormat.bmiHeader.biWidth ∧
        d2.videoConfig.cy = mt.pbFormat.bmiHeader.biHeight ∧
        d2.videoConfig.frameInterval = mt.pbFormat.AvgTimePerFrame) ∧
      (env.hasBitmapInfoHeader mt = false → d2.videoConfig = d.videoConfig) := by
  unfold HDevice.ConvertVideoSettings
  rw [h]
  simp only
  cases hb : env.hasBitmapInfoHeader mt with
  | false =>
    rw [if_neg (by simp)]
    refine ⟨d, rfl, h, ?_, ?_⟩
    · intro hh; exact absurd hh (by simp)
    · intro _; rfl
  | true =>
    rw [if_pos rfl]
    refine ⟨_, rfl, rfl, ?_, ?_⟩
    · intro _
      split_ifs <;> exact ⟨rfl, rfl, rfl⟩
    · intro hh; exact absurd hh (by simp)

theorem SetupVideoCapture_attach_spec (env : Env) (d : HDevice) (filter : IBaseFilter)
    (mt : AM_MEDIA_TYPE VIDEOINFOHEADER) (h : d.videoMediaType = some mt) :
    ∃ r, HDevice.SetupVideoCapture.attach env d filter = some r ∧ r.result = true ∧
      r.device.videoMediaType = some mt ∧
      (env.hasBitmapInfoHeader mt = true →
        r.device.videoConfig.cx = mt.pbFormat.bmiHeader.biWidth ∧
        r.device.videoConfig.cy = mt.pbFormat.bmiHeader.biHeight ∧
        r.device.videoConfig.frameInterval = mt.pbFormat.AvgTimePerFrame) ∧
      (env.hasBitmapInfoHeader mt = false → r.device.videoConfig = d.videoConfig) := by
  obtain ⟨d2, hc, hmt, h1, h2⟩ := ConvertVideoSettings_spec env d mt h
  unfold HDevice.SetupVideoCapture.attach
  rw [hc]
  exact ⟨_, rfl, rfl, hmt, h1, h2⟩

/-- `SetupVideoCapture` returns, and when it succeeds the session holds a media type whose
width, height and frame interval the stored configuration carries if the media type has a
bitmap info header; without one the stored configuration is as before. -/
theorem SetupVideoCapture_spec (env : Env) (d : HDevice) (filter : IBaseFilter) :
    ∃ r, HDevice.SetupVideoCapture env d filter = some r ∧
      (r.result = true → ∃ mt, r.device.videoMediaType = some mt ∧
        (env.hasBitmapInfoHeader mt = true →
          r.device.videoConfig.cx = mt.pbFormat.bmiHeader.biWidth ∧
          r.device.videoConfig.cy = mt.pbFormat.bmiHeader.biHeight ∧
          r.device.videoConfig.frameInterval = mt.pbFormat.AvgTimePerFrame) ∧
        (env.hasBitmapInfoHeader mt = false → r.device.videoConfig = d.videoConfig)) := by
  unfold HDevice.SetupVideoCapture
  cases hp : filter.videoPin with
  | none => exact ⟨{ result := false, device := d, calls := [] }, rfl, fun hh => absurd hh (by simp)⟩
  | some pin =>
    simp only
    cases hsc : pin.streamConfig with
    | none =>
      exact ⟨{ result := false, device := d, calls := [] }, rfl, fun hh => absurd hh (by simp)⟩
    | some cfg =>
      simp only
      by_cases hdef : d.videoConfig.useDefaultConfig = true
      · rw [if_pos hdef]
        cases hgf : env.videoGetFormat filter with
        | none =>
          exact ⟨{ result := false, device := d, calls := [] }, rfl,
            fun hh => absurd hh (by simp)⟩
        | some defaultMT =>
          obtain ⟨r, hr, hres, hmt, h1, h2⟩ := SetupVideoCapture_attach_spec env
            { d with videoMediaType := some defaultMT } filter defaultMT rfl
          exact ⟨r, hr, fun _ => ⟨defaultMT, hmt, h1, h2⟩⟩
      · rw [if_neg hdef]
        obtain ⟨⟨found, m⟩, hsel⟩ := GetClosestVideoMediaType_total env.GetMediaTypeVFormat filter
          d.videoConfig d.videoMediaType
        rw [hsel]
        cases found with
        | false =>
          exact ⟨{ result := false, device := { d with videoMediaType := m }, calls := [] }, rfl,
            fun hh => absurd hh (by simp)⟩
        | true =>
          obtain ⟨caps, c, info, _, _, _, hm⟩ := GetClosestVideoMediaType_found
            env.GetMediaTypeVFormat filter d.videoConfig d.videoMediaType m hsel
          simp only [Bool.not_true, Bool.false_eq_true, if_false]
          by_cases hset : FAILED (env.videoSetFormat filter m) = true
          · rw [if_pos hset]
            exact ⟨{ result := false, device := { d with videoMediaType := m }, calls := [] }, rfl,
              fun hh => absurd hh (by simp)⟩
          · rw [if_neg hset]
            obtain ⟨r, hr, hres, hmt, h1, h2⟩ := SetupVideoCapture_attach_spec env
              { d with videoMediaType := m } filter (videoOutput d.videoConfig info c.mt) hm
            exact ⟨r, hr, fun _ => ⟨_, hmt, h1, h2⟩⟩

theorem Get_FORMAT_VideoInfo_Data_zero_bound
    (vf : AM_MEDIA_TYPE VIDEOINFOHEADER → Option VideoFormat) (mt : AM_MEDIA_TYPE VIDEOINFOHEADER)
    (vscc : VIDEO_STREAM_CONFIG_CAPS) (info : VideoInfo)
    (hz : vscc.MinOutputSize.cx = 0 ∨ vscc.MinOutputSize.cy = 0 ∨
      vscc.MaxOutputSize.cx = 0 ∨ vscc.MaxOutputSize.cy = 0)
    (h : Get_FORMAT_VideoInfo_Data vf mt (some vscc) = some info) :
    info.minCX = mt.pbFormat.bmiHeader.biWidth ∧ info.maxCX = mt.pbFormat.bmiHeader.biWidth ∧
    info.minCY = mt.pbFormat.bmiHeader.biHeight ∧ info.maxCY = mt.pbFormat.bmiHeader.biHeight := by
  unfold Get_FORMAT_VideoInfo_Data at h
  cases hv : vf mt with
  | none => simp [hv] at h
  | some f =>
    simp only [hv] at h
    injection h with h
    subst h
    simp [hz]

/-- The media type stored for a descriptor whose range is the single declared size keeps the
declared width and height, whatever the request. -/
theorem videoOutput_of_single_size (config : VideoConfig) (info : VideoInfo)
    (mt : AM_MEDIA_TYPE VIDEOINFOHEADER)
    (hx1 : info.minCX = mt.pbFormat.bmiHeader.biWidth)
    (hx2 : info.maxCX = mt.pbFormat.bmiHeader.biWidth)
    (hy1 : info.minCY = mt.pbFormat.bmiHeader.biHeight)
    (hy2 : info.maxCY = mt.pbFormat.bmiHeader.biHeight) :
    (videoOutput config info mt).pbFormat.bmiHeader.biWidth = mt.pbFormat.bmiHeader.biWidth ∧
    (videoOutput config info mt).pbFormat.bmiHeader.biHeight = mt.pbFormat.bmiHeader.biHeight := by
  constructor
  · by_cases hx : xVal config info = 0
    · rw [videoOutput_width_of_zero config info mt hx]
      have hr := (xVal_eq_zero_iff config info).1 hx
      have hcx : config.cx = info.minCX := by omega
      rw [hcx, sub_self, Int.zero_tmod, sub_zero, hx1]
    · simp [videoOutput, hx]
  · by_cases hy : yVal config info = 0
    · rw [videoOutput_height_of_zero config info mt hy]
      have hr := (yVal_eq_zero_iff config info).1 hy
      have hcy : config.cy = info.minCY := by omega
      rw [hcy, sub_self, Int.zero_tmod, sub_zero, hy1]
    · simp [videoOutput, hy]

theorem ConvertVideoSettings_fields (env : Env) (d d2 : HDevice)
    (h : HDevice.ConvertVideoSettings env d = some d2) :
    d.videoMediaType.isSome = true ∧ d2.videoMediaType = d.videoMediaType ∧
    d2.videoFilter = d.videoFilter ∧ d2.videoCapture = d.videoCapture ∧
    d2.audioFilter = d.audioFilter ∧ d2.audioCapture = d.audioCapture ∧
    d2.audioMediaType = d.audioMediaType := by
  unfold HDevice.ConvertVideoSettings at h
  cases hmt : d.videoMediaType with
  | none => simp [hmt] at h
  | some mt =>
    simp only [hmt] at h
    split at h <;> (injection h with h; subst h; simp [hmt])

theorem ConvertAudioSettings_fields (d d2 : HDevice)
    (h : HDevice.ConvertAudioSettings d = some d2) :
    d.audioMediaType.isSome = true ∧ d2.audioMediaType = d.audioMediaType ∧
    d2.audioFilter = d.audioFilter ∧ d2.audioCapture = d.audioCapture ∧
    d2.videoFilter = d.videoFilter ∧ d2.videoCapture = d.videoCapture ∧
    d2.videoMediaType = d.videoMediaType := by
  unfold HDevice.ConvertAudioSettings at h
  cases hmt : d.audioMediaType with
  | none => simp [hmt] at h
  | some mt =>
    simp only [hmt] at h
    injection h with h
    subst h
    simp [hmt]

/-- The tail of `SetupVideoCapture`, when it returns, succeeds with all three video members
present and the audio members untouched. -/
theorem SetupVideoCapture_attach_fields (env : Env) (d : HDevice) (filter : IBaseFilter)
    (r : Ret Bool) (h : HDevice.SetupVideoCapture.attach env d filter = some r) :
    r.result = true ∧ r.device.videoFilter.isSome = true ∧
    r.device.videoCapture.isSome = true ∧ r.device.videoMediaType.isSome = true ∧
    r.device.audioFilter = d.audioFilter ∧ r.device.audioCapture = d.audioCapture ∧
    r.device.audioMediaType = d.audioMediaType := by
  unfold HDevice.SetupVideoCapture.attach at h
  cases hc : HDevice.ConvertVideoSettings env d with
  | none => simp [hc] at h
  | some d2 =>
    obtain ⟨h1, h2, _, _, h5, h6, h7⟩ := ConvertVideoSettings_fields env d d2 hc
    simp only [hc] at h
    injection h with h
    subst h
    simp [h1, h2, h5, h6, h7]

/-- The tail of `SetupAudioCapture`, when it returns, either fails without writing a member or
succeeds with all three audio members present; the video members are untouched. -/
theorem SetupAudioCapture_attach_fields (env : Env) (d : HDevice) (filter : IBaseFilter)
    (r : Ret Bool) (h : HDevice.SetupAudioCapture.attach env d filter = some r) :
    r.device.videoFilter = d.videoFilter ∧ r.device.videoCapture = d.videoCapture ∧
    r.device.videoMediaType = d.videoMediaType ∧
    ((r.result = false ∧ r.device = d) ∨
      (r.result = true ∧ r.device.audioFilter.isSome = true ∧
        r.device.audioCapture.isSome = true ∧ r.device.audioMediaType.isSome = true)) := by
  unfold HDevice.SetupAudioCapture.attach at h
  split at h
  · injection h with h
    subst h
    exact ⟨rfl, rfl, rfl, Or.inl ⟨rfl, rfl⟩⟩
  · cases hc : HDevice.ConvertAudioSettings d with
    | none => simp [hc] at h
    | some d2 =>
      obtain ⟨h1, h2, _, _, h5, h6, h7⟩ := ConvertAudioSettings_fields d d2 hc
      simp only [hc] at h
      injection h with h
      subst h
      refine ⟨h5, h6, h7, Or.inr ?_⟩
      simp [h1, h2]

/-- `SetupVideoCapture`, when it returns, either fails leaving source filter and sink adapter
as they were, or succeeds with all three video members present; the audio members are
untouched. -/
theorem SetupVideoCapture_fields (env : Env) (d : HDevice) (filter : IBaseFilter) (r : Ret Bool)
    (h : HDevice.SetupVideoCapture env d filter = some r) :
    r.device.audioFilter = d.audioFilter ∧ r.device.audioCapture = d.audioCapture ∧
    r.device.audioMediaType = d.audioMediaType ∧
    ((r.result = false ∧ r.device.videoFilter = d.videoFilter ∧
        r.device.videoCapture = d.videoCapture) ∨
      (r.result = true ∧ r.device.videoFilter.isSome = true ∧
        r.device.videoCapture.isSome = true ∧ r.device.videoMediaType.isSome = true)) := by
  have hfail : ∀ d' : HDevice, d'.audioFilter = d.audioFilter → d'.audioCapture = d.audioCapture →
      d'.audioMediaType = d.audioMediaType → d'.videoFilter = d.videoFilter →
      d'.videoCapture = d.videoCapture →
      some ({ result := false, device := d', calls := [] } : Ret Bool) = some r →
      r.device.audioFilter = d.audioFilter ∧ r.device.audioCapture = d.audioCapture ∧
      r.device.audioMediaType = d.audioMediaType ∧
      ((r.result = false ∧ r.device.videoFilter = d.videoFilter ∧
          r.device.videoCapture = d.videoCapture) ∨
        (r.result = true ∧ r.device.videoFilter.isSome = true ∧
          r.device.videoCapture.isSome = true ∧ r.device.videoMediaType.isSome = true)) := by
    intro d' a1 a2 a3 a4 a5 e
    injection e with e
    subst e
    exact ⟨a1, a2, a3, Or.inl ⟨rfl, a4, a5⟩⟩
  have hatt : ∀ d' : HDevice, d'.audioFilter = d.audioFilter → d'.audioCapture = d.audioCapture →
      d'.audioMediaType = d.audioMediaType →
      HDevice.SetupVideoCapture.attach env d' filter = some r →
      r.device.audioFilter = d.audioFilter ∧ r.device.audioCapture = d.audioCapture ∧
      r.device.audioMediaType = d.audioMediaType ∧
      ((r.result = false ∧ r.device.videoFilter = d.videoFilter ∧
          r.device.videoCapture = d.videoCapture) ∨
        (r.result = true ∧ r.device.videoFilter.isSome = true ∧
          r.device.videoCapture.isSome = true ∧ r.device.videoMediaType.isSome = true)) := by
    intro d' a1 a2 a3 e
    obtain ⟨b1, b2, b3, b4, b5, b6, b7⟩ := SetupVideoCapture_attach_fields env d' filter r e
    exact ⟨b5.trans a1, b6.trans a2, b7.trans a3, Or.inr ⟨b1, b2, b3, b4⟩⟩
  unfold HDevice.SetupVideoCapture at h
  cases hp : filter.videoPin with
  | none =>
    simp only [hp] at h
    exact hfail d rfl rfl rfl rfl rfl h
  | some pin =>
    simp only [hp] at h
    cases hsc : pin.streamConfig with
    | none =>
      simp only [hsc] at h
      exact hfail d rfl rfl rfl rfl rfl h
    | some cfg =>
      simp only [hsc] at h
      by_cases hdef : d.videoConfig.useDefaultConfig = true
      · rw [if_pos hdef] at h
        cases hgf : env.videoGetFormat filter with
        | none =>
          simp only [hgf] at h
          exact hfail d rfl rfl rfl rfl rfl h
        | some defaultMT =>
          simp only [hgf] at h
          exact hatt _ (by rfl) (by rfl) (by rfl) h
      · rw [if_neg hdef] at h
        cases hsel : GetClosestVideoMediaType env.GetMediaTypeVFormat filter d.videoConfig
            d.videoMediaType with
        | none => simp [hsel] at h
        | some p =>
          obtain ⟨found, m⟩ := p
          simp only [hsel] at h
          cases found with
          | false =>
            simp only [Bool.not_false, if_true] at h
            exact hfail _ (by rfl) (by rfl) (by rfl) (by rfl) (by rfl) h
          | true =>
            simp only [Bool.not_true, Bool.false_eq_true, if_false] at h
            split at h
            · exact hfail _ (by rfl) (by rfl) (by rfl) (by rfl) (by rfl) h
            · exact hatt _ (by rfl) (by rfl) (by rfl) h

/-- `SetupAudioCapture`, when it returns, either fails leaving source filter and sink adapter
as they were, or succeeds with all three audio members present; the video members are
untouched. -/
theorem SetupAudioCapture_fields (env : Env) (d : HDevice) (filter : IBaseFilter) (r : Ret Bool)
    (h : HDevice.SetupAudioCapture env d filter = some r) :
    r.device.videoFilter = d.videoFilter ∧ r.device.videoCapture = d.videoCapture ∧
    r.device.videoMediaType = d.videoMediaType ∧
    ((r.result = false ∧ r.device.audioFilter = d.audioFilter ∧
        r.device.audioCapture = d.audioCapture) ∨
      (r.result = true ∧ r.device.audioFilter.isSome = true ∧
        r.device.audioCapture.isSome = true ∧ r.device.audioMediaType.isSome = true)) := by
  have hfail : ∀ d' : HDevice, d'.videoFilter = d.videoFilter → d'.videoCapture = d.videoCapture →
      d'.videoMediaType = d.videoMediaType → d'.audioFilter = d.audioFilter →
      d'.audioCapture = d.audioCapture →
      some ({ result := false, device := d', calls := [] } : Ret Bool) = some r →
      r.device.videoFilter = d.videoFilter ∧ r.device.videoCapture = d.videoCapture ∧
      r.device.videoMediaType = d.videoMediaType ∧
      ((r.result = false ∧ r.device.audioFilter = d.audioFilter ∧
          r.device.audioCapture = d.audioCapture) ∨
        (r.result = true ∧ r.device.audioFilter.isSome = true ∧
          r.device.audioCapture.isSome = true ∧ r.device.audioMediaType.isSome = true)) := by
    intro d' a1 a2 a3 a4 a5 e
    injection e with e
    subst e
    exact ⟨a1, a2, a3, Or.inl ⟨rfl, a4, a5⟩⟩
  have hatt : ∀ d' : HDevice, d'.videoFilter = d.videoFilter → d'.videoCapture = d.videoCapture →
      d'.videoMediaType = d.videoMediaType → d'.audioFilter = d.audioFilter →
      d'.audioCapture = d.audioCapture →
      HDevice.SetupAudioCapture.attach env d' filter = some r →
      r.device.videoFilter = d.videoFilter ∧ r.device.videoCapture = d.videoCapture ∧
      r.device.videoMediaType = d.videoMediaType ∧
      ((r.result = false ∧ r.device.audioFilter = d.audioFilter ∧
          r.device.audioCapture = d.audioCapture) ∨
        (r.result = true ∧ r.device.audioFilter.isSome = true ∧
          r.device.audioCapture.isSome = true ∧ r.device.audioMediaType.isSome = true)) := by
    intro d' a1 a2 a3 a4 a5 e
    obtain ⟨b1, b2, b3, b4⟩ := SetupAudioCapture_attach_fields env d' filter r e
    refine ⟨b1.trans a1, b2.trans a2, b3.trans a3, ?_⟩
    rcases b4 with ⟨c1, c2⟩ | c
    · left
      rw [c2]
      exact ⟨c1, a4, a5⟩
    · exact Or.inr c
  unfold HDevice.SetupAudioCapture at h
  cases hp : filter.audioPin with
  | none =>
    simp only [hp] at h
    exact hfail d rfl rfl rfl rfl rfl h
  | some pin =>
    simp only [hp] at h
    cases hsc : pin.streamConfig with
    | none =>
      simp only [hsc] at h
      exact hfail d rfl rfl rfl rfl rfl h
    | some cfg =>
      simp only [hsc] at h
      by_cases hdef : d.audioConfig.useDefaultConfig = true
      · rw [if_pos hdef] at h
        cases hgf : env.audioGetFormat filter with
        | none =>
          simp only [hgf] at h
          exact hfail d rfl rfl rfl rfl rfl h
        | some defaultMT =>
          simp only [hgf] at h
          exact hatt _ (by rfl) (by rfl) (by rfl) (by rfl) (by rfl) h
      · rw [if_neg hdef] at h
        cases hsel : GetClosestAudioMediaType env.uninit filter d.audioConfig
            d.audioMediaType with
        | none => simp [hsel] at h
        | some p =>
          obtain ⟨found, m⟩ := p
          simp only [hsel] at h
          cases found with
          | false =>
            simp only [Bool.not_false, if_true] at h
            exact hfail _ (by rfl) (by rfl) (by rfl) (by rfl) (by rfl) h
          | true =>
            simp only [Bool.not_true, Bool.false_eq_true, if_false] at h
            exact hatt _ (by rfl) (by rfl) (by rfl) (by rfl) (by rfl) h

/-- What `SetVideoConfig` does to the attachment members: nothing when a guard fails;
otherwise the audio members are untouched and either source filter and sink adapter are absent
or the call succeeded with all three video members present. -/
theorem SetVideoConfig_fields (env : Env) (d : HDevice) (config : Option VideoConfig)
    (r : ConfigRet VideoConfig) (h : d.SetVideoConfig env config = some r) :
    ((d.initialized = false ∨ d.active = true) ∧ r.result = false ∧ r.device = d) ∨
    (d.initialized = true ∧ d.active = false ∧
      r.device.audioFilter = d.audioFilter ∧ r.device.audioCapture = d.audioCapture ∧
      r.device.audioMediaType = d.audioMediaType ∧
      ((r.device.videoFilter = none ∧ r.device.videoCapture = none) ∨
        (r.result = true ∧ r.device.videoFilter.isSome = true ∧
          r.device.videoCapture.isSome = true ∧ r.device.videoMediaType.isSome = true))) := by
  unfold HDevice.SetVideoConfig at h
  by_cases hg : (!d.EnsureInitialized || !d.EnsureInactive) = true
  · rw [if_pos hg] at h
    injection h with h
    subst h
    left
    refine ⟨?_, rfl, rfl⟩
    cases hi : d.initialized <;> cases ha : d.active <;>
      simp [HDevice.EnsureInitialized, HDevice.EnsureInactive, hi, ha] at hg ⊢
  · rw [if_neg hg] at h
    right
    have hi : d.initialized = true := by
      cases hi : d.initialized <;> cases ha : d.active <;>
        simp [HDevice.EnsureInitialized, HDevice.EnsureInactive, hi, ha] at hg ⊢
    have ha : d.active = false := by
      cases hi : d.initialized <;> cases ha : d.active <;>
        simp [HDevice.EnsureInitialized, HDevice.EnsureInactive, hi, ha] at hg ⊢
    refine ⟨hi, ha, ?_⟩
    simp only at h
    cases config with
    | none =>
      simp only at h
      injection h with h
      subst h
      exact ⟨rfl, rfl, rfl, Or.inl ⟨rfl, rfl⟩⟩
    | some c =>
      simp only at h
      split at h
      · injection h with h
        subst h
        exact ⟨rfl, rfl, rfl, Or.inl ⟨rfl, rfl⟩⟩
      · cases hdev : env.GetDeviceFilter MediaKind.Video c.name c.path with
        | none =>
          simp only [hdev] at h
          injection h with h
          subst h
          exact ⟨rfl, rfl, rfl, Or.inl ⟨rfl, rfl⟩⟩
        | some found =>
          cases found with
          | none =>
            simp only [hdev] at h
            injection h with h
            subst h
            exact ⟨rfl, rfl, rfl, Or.inl ⟨rfl, rfl⟩⟩
          | some filter =>
            simp only [hdev] at h
            cases hsetup : HDevice.SetupVideoCapture env
                { d with videoMediaType := none, videoFilter := none, videoCapture := none,
                         videoConfig := c } filter with
            | none => simp [hsetup] at h
            | some r0 =>
              obtain ⟨a1, a2, a3, a4⟩ := SetupVideoCapture_fields env _ filter r0 hsetup
              simp only [hsetup] at h
              split at h <;>
                (injection h with h
                 subst h
                 refine ⟨a1, a2, a3, ?_⟩
                 rcases a4 with ⟨_, b2, b3⟩ | b
                 · exact Or.inl ⟨b2, b3⟩
                 · first
                     | exact Or.inr ⟨rfl, b.2⟩
                     | (rename_i hres; rw [b.1] at hres; exact absurd hres (by simp)))

/-- What `SetAudioConfig` does to the attachment members when it returns: nothing when a guard
fails; otherwise the video members are untouched and either source filter and sink adapter
are absent or the call succeeded with all three audio members present. -/
theorem SetAudioConfig_fields (env : Env) (d : HDevice) (config : Option AudioConfig)
    (r : ConfigRet AudioConfig) (h : d.SetAudioConfig env config = some r) :
    ((d.initialized = false ∨ d.active = true) ∧ r.result = false ∧ r.device = d) ∨
    (d.initialized = true ∧ d.active = false ∧
      r.device.videoFilter = d.videoFilter ∧ r.device.videoCapture = d.videoCapture ∧
      r.device.videoMediaType = d.videoMediaType ∧
      ((r.device.audioFilter = none ∧ r.device.audioCapture = none) ∨
        (r.result = true ∧ r.device.audioFilter.isSome = true ∧
          r.device.audioCapture.isSome = true ∧ r.device.audioMediaType.isSome = true))) := by
  unfold HDevice.SetAudioConfig at h
  by_cases hg : (!d.EnsureInitialized || !d.EnsureInactive) = true
  · rw [if_pos hg] at h
    injection h with h
    subst h
    left
    refine ⟨?_, rfl, rfl⟩
    cases hi : d.initialized <;> cases ha : d.active <;>
      simp [HDevice.EnsureInitialized, HDevice.EnsureInactive, hi, ha] at hg ⊢
  · rw [if_neg hg] at h
    right
    have hi : d.initialized = true := by
      cases hi : d.initialized <;> cases ha : d.active <;>
        simp [HDevice.EnsureInitialized, HDevice.EnsureInactive, hi, ha] at hg ⊢
    have ha : d.active = false := by
      cases hi : d.initialized <;> cases ha : d.active <;>
        simp [HDevice.EnsureInitialized, HDevice.EnsureInactive, hi, ha] at hg ⊢
    refine ⟨hi, ha, ?_⟩
    simp only at h
    cases config with
    | none =>
      simp only at h
      injection h with h
      subst h
      exact ⟨rfl, rfl, rfl, Or.inl ⟨rfl, rfl⟩⟩
    | some c =>
      simp only at h
      split at h
      · injection h with h
        subst h
        exact ⟨rfl, rfl, rfl, Or.inl ⟨rfl, rfl⟩⟩
      · split at h
        · injection h with h
          subst h
          exact ⟨rfl, rfl, rfl, Or.inl ⟨rfl, rfl⟩⟩
        · injection h with h
          subst h
          exact ⟨rfl, rfl, rfl, Or.inl ⟨rfl, rfl⟩⟩
        · rename_i filter _
          split at h
          · cases hsetup : HDevice.SetupAudioCapture env
                { d with audioFilter := none, audioCapture := none, audioMediaType := none,
                         audioConfig := c } filter with
            | none => simp [hsetup] at h
            | some r0 =>
              obtain ⟨a1, a2, a3, a4⟩ := SetupAudioCapture_fields env _ filter r0 hsetup
              simp only [hsetup] at h
              split at h <;>
                (injection h with h
                 subst h
                 refine ⟨a1, a2, a3, ?_⟩
                 rcases a4 with ⟨_, b2, b3⟩ | b
                 · exact Or.inl ⟨b2, b3⟩
                 · first
                     | exact Or.inr ⟨rfl, b.2⟩
                     | (rename_i hres; rw [b.1] at hres; exact absurd hres (by simp)))
          · injection h with h
            subst h
            exact ⟨rfl, rfl, rfl, Or.inl ⟨rfl, rfl⟩⟩

theorem AttachmentConsistent_of_fields (d d' : HDevice)
    (h1 : d'.videoFilter = d.videoFilter) (h2 : d'.videoCapture = d.videoCapture)
    (h3 : d'.videoMediaType = d.videoMediaType) (h4 : d'.audioFilter = d.audioFilter)
    (h5 : d'.audioCapture = d.audioCapture) (h6 : d'.audioMediaType = d.audioMediaType)
    (h : d.AttachmentConsistent) : d'.AttachmentConsistent := by
  unfold HDevice.AttachmentConsistent at h ⊢
  rw [h1, h2, h3, h4, h5, h6]
  exact h

theorem CreateGraph_attachment (env : Env) (d : HDevice) :
    (d.CreateGraph env).device.videoFilter = d.videoFilter ∧
    (d.CreateGraph env).device.videoCapture = d.videoCapture ∧
    (d.CreateGraph env).device.videoMediaType = d.videoMediaType ∧
    (d.CreateGraph env).device.audioFilter = d.audioFilter ∧
    (d.CreateGraph env).device.audioCapture = d.audioCapture ∧
    (d.CreateGraph env).device.audioMediaType = d.audioMediaType := by
  unfold HDevice.CreateGraph
  split_ifs <;> exact ⟨rfl, rfl, rfl, rfl, rfl, rfl⟩

theorem ConnectFilters_device (env : Env) (d : HDevice) : (d.ConnectFilters env).device = d := by
  unfold HDevice.ConnectFilters
  split_ifs <;> rfl

theorem Start_attachment (env : Env) (d : HDevice) :
    (d.Start env).device.videoFilter = d.videoFilter ∧
    (d.Start env).device.videoCapture = d.videoCapture ∧
    (d.Start env).device.videoMediaType = d.videoMediaType ∧
    (d.Start env).device.audioFilter = d.audioFilter ∧
    (d.Start env).device.audioCapture = d.audioCapture ∧
    (d.Start env).device.audioMediaType = d.audioMediaType := by
  unfold HDevice.Start
  dsimp only
  split_ifs <;> exact ⟨rfl, rfl, rfl, rfl, rfl, rfl⟩

theorem Stop_attachment (d : HDevice) :
    d.Stop.1.videoFilter = d.videoFilter ∧ d.Stop.1.videoCapture = d.videoCapture ∧
    d.Stop.1.videoMediaType = d.videoMediaType ∧ d.Stop.1.audioFilter = d.audioFilter ∧
    d.Stop.1.audioCapture = d.audioCapture ∧ d.Stop.1.audioMediaType = d.audioMediaType := by
  unfold HDevice.Stop
  split_ifs <;> exact ⟨rfl, rfl, rfl, rfl, rfl, rfl⟩

/-- Every operation that returns keeps the weaker attachment property. -/
theorem step_AttachmentConsistent (env : Env) (d d' : HDevice) (op : Operation)
    (h : d.AttachmentConsistent) (hstep : d.step env op = some d') :
    d'.AttachmentConsistent := by
  cases op with
  | CreateGraph =>
    simp only [HDevice.step, Option.some.injEq] at hstep
    subst hstep
    obtain ⟨a1, a2, a3, a4, a5, a6⟩ := CreateGraph_attachment env d
    exact AttachmentConsistent_of_fields d _ a1 a2 a3 a4 a5 a6 h
  | ConnectFilters =>
    simp only [HDevice.step, Option.some.injEq] at hstep
    subst hstep
    rw [ConnectFilters_device]
    exact h
  | Start =>
    simp only [HDevice.step, Option.some.injEq] at hstep
    subst hstep
    obtain ⟨a1, a2, a3, a4, a5, a6⟩ := Start_attachment env d
    exact AttachmentConsistent_of_fields d _ a1 a2 a3 a4 a5 a6 h
  | Stop =>
    simp only [HDevice.step, Option.some.injEq] at hstep
    subst hstep
    obtain ⟨a1, a2, a3, a4, a5, a6⟩ := Stop_attachment d
    exact AttachmentConsistent_of_fields d _ a1 a2 a3 a4 a5 a6 h
  | SetVideoConfig config =>
    simp only [HDevice.step] at hstep
    cases hr : d.SetVideoConfig env config with
    | none => simp [hr] at hstep
    | some r =>
      simp only [hr, Option.map_some', Option.some.injEq] at hstep
      subst hstep
      rcases SetVideoConfig_fields env d config r hr with ⟨_, _, e⟩ | ⟨_, _, a1, a2, a3, a4⟩
      · rw [e]; exact h
      · unfold HDevice.AttachmentConsistent at h ⊢
        rw [a1, a2, a3]
        refine ⟨?_, h.2⟩
        rcases a4 with ⟨b1, b2⟩ | ⟨_, b1, b2, b3⟩
        · rw [b1, b2]
          simp
        · rw [b1, b2]
          exact ⟨rfl, fun _ => b3⟩
  | SetAudioConfig config =>
    simp only [HDevice.step] at hstep
    cases hr : d.SetAudioConfig env config with
    | none => simp [hr] at hstep
    | some r =>
      simp only [hr, Option.map_some', Option.some.injEq] at hstep
      subst hstep
      rcases SetAudioConfig_fields env d config r hr with ⟨_, _, e⟩ | ⟨_, _, a1, a2, a3, a4⟩
      · rw [e]; exact h
      · unfold HDevice.AttachmentConsistent at h ⊢
        rw [a1, a2, a3]
        refine ⟨h.1, ?_⟩
        rcases a4 with ⟨b1, b2⟩ | ⟨_, b1, b2, b3⟩
        · rw [b1, b2]
          simp
        · rw [b1, b2]
          exact ⟨rfl, fun _ => b3⟩

theorem run_AttachmentConsistent (steps : List (Env × Operation)) :
    ∀ d d' : HDevice, d.AttachmentConsistent → d.run steps = some d' →
      d'.AttachmentConsistent := by
  induction steps with
  | nil =>
    intro d d' h hrun
    simp only [HDevice.run, Option.some.injEq] at hrun
    rw [← hrun]; exact h
  | cons head rest ih =>
    intro d d' h hrun
    obtain ⟨env, op⟩ := head
    simp only [HDevice.run] at hrun
    cases hs : d.step env op with
    | none => simp [hs] at hrun
    | some d1 =>
      simp only [hs] at hrun
      exact ih d1 d' (step_AttachmentConsistent env d d1 op h hs) hrun

/-- The audio enumeration, from any state: either nothing is taken, or the result is the
media type built from the entry on which the enumeration ends. -/
theorem audio_loop_spec (uninit : AudioInfo) (l : List (Option AudioCaps)) :
    ∀ d r : ClosestAudioData, EnumPinCaps.loop (ClosestAudioMTCallback uninit) l d = some r →
      (r = d ∧ ∀ c info, some c ∈ l → audioDescriptor uninit d.config c = some info →
          d.found = true ∧ d.bestVal ≤ audioTotal d.config info) ∨
      (∃ pre c post info out, l = pre ++ some c :: post ∧
        audioDescriptor uninit d.config c = some info ∧
        audioOutput d.config info c.mt = some out ∧
        r = audioTaken d info out ∧
        (d.found = true → audioTotal d.config info < d.bestVal) ∧
        (∀ c' info', some c' ∈ pre → audioDescriptor uninit d.config c' = some info' →
          audioTotal d.config info < audioTotal d.config info') ∧
        (∀ p e q infoE, pre = p ++ some e :: q →
          audioDescriptor uninit d.config e = some infoE → audioTotal d.config infoE = 0 →
          (d.found = true ∧ d.bestVal ≤ 0) ∨
          ∃ e' infoE', some e' ∈ p ∧ audioDescriptor uninit d.config e' = some infoE' ∧
            audioTotal d.config infoE' ≤ 0) ∧
        (audioTotal d.config info = 0 ∨
          ∀ c' info', some c' ∈ post → audioDescriptor uninit d.config c' = some info' →
            audioTotal d.config info ≤ audioTotal d.config info')) := by
  induction l with
  | nil =>
    intro d r h
    simp only [EnumPinCaps.loop, Option.some.injEq] at h
    left
    exact ⟨h.symm, by simp⟩
  | cons e rest ih =>
    intro d r h
    cases e with
    | none =>
      simp only [EnumPinCaps.loop] at h
      rcases ih d r h with
        ⟨h1, h2⟩ | ⟨pre, c, post, info, out, hl, hd, ho, hr, hb, hpre, hz, hpost⟩
      · left
        refine ⟨h1, ?_⟩
        intro c info hm
        simp only [List.mem_cons, reduceCtorEq, false_or] at hm
        exact h2 c info hm
      · right
        refine ⟨none :: pre, c, post, info, out, by simp [hl], hd, ho, hr, hb, ?_, ?_, hpost⟩
        · intro c' info' hm
          simp only [List.mem_cons, reduceCtorEq, false_or] at hm
          exact hpre c' info' hm
        · intro p e q infoE hdec hde hte
          cases p with
          | nil => simp at hdec
          | cons x p' =>
            simp only [List.cons_append, List.cons.injEq] at hdec
            rcases hz p' e q infoE hdec.2 hde hte with hh | ⟨e', i', hm', hd', ht'⟩
            · exact Or.inl hh
            · exact Or.inr ⟨e', i', List.mem_cons_of_mem _ hm', hd', ht'⟩
    | some c0 =>
      cases hd0 : audioDescriptor uninit d.config c0 with
      | none =>
        have hcb := ClosestAudioMTCallback_skip uninit d c0 hd0
        simp only [EnumPinCaps.loop, hcb, if_true] at h
        rcases ih d r h with
          ⟨h1, h2⟩ | ⟨pre, c, post, info, out, hl, hd, ho, hr, hb, hpre, hz, hpost⟩
        · left
          refine ⟨h1, ?_⟩
          intro c info hm hdc
          simp only [List.mem_cons, Option.some.injEq] at hm
          rcases hm with hm | hm
          · subst hm
            rw [hd0] at hdc
            exact absurd hdc (by simp)
          · exact h2 c info hm hdc
        · right
          refine ⟨some c0 :: pre, c, post, info, out, by simp [hl], hd, ho, hr, hb, ?_, ?_, hpost⟩
          · intro c' info' hm hdc
            simp only [List.mem_cons, Option.some.injEq] at hm
            rcases hm with hm | hm
            · subst hm
              rw [hd0] at hdc
              exact absurd hdc (by simp)
            · exact hpre c' info' hm hdc
          · intro p e q infoE hdec hde hte
            cases p with
            | nil =>
              simp only [List.nil_append, List.cons.injEq, Option.some.injEq] at hdec
              rw [← hdec.1, hd0] at hde
              exact absurd hde (by simp)
            | cons x p' =>
              simp only [List.cons_append, List.cons.injEq] at hdec
              rcases hz p' e q infoE hdec.2 hde hte with hh | ⟨e', i', hm', hd', ht'⟩
              · exact Or.inl hh
              · exact Or.inr ⟨e', i', List.mem_cons_of_mem _ hm', hd', ht'⟩
      | some info0 =>
        have hcb := ClosestAudioMTCallback_accept uninit d c0 info0 hd0
        by_cases hrep : d.found = false ∨ d.bestVal > audioTotal d.config info0
        · rw [if_pos hrep] at hcb
          have hb0 : d.found = true → audioTotal d.config info0 < d.bestVal := by
            intro hf
            rcases hrep with h1 | h1
            · rw [hf] at h1
              exact absurd h1 (by simp)
            · exact h1
          cases ho0 : audioOutput d.config info0 c0.mt with
          | none =>
            rw [ho0] at hcb
            simp [EnumPinCaps.loop, hcb] at h
          | some out0 =>
            rw [ho0] at hcb
            simp only [Option.map_some'] at hcb
            by_cases ht0 : audioTotal d.config info0 = 0
            · simp only [EnumPinCaps.loop, hcb, ht0, ne_eq, not_true_eq_false, decide_False,
                Bool.false_eq_true, if_false, Option.some.injEq] at h
              right
              refine ⟨[], c0, rest, info0, out0, rfl, hd0, ho0, h.symm, hb0, by simp, ?_,
                Or.inl ht0⟩
              intro p e q infoE hdec
              simp at hdec
            · simp only [EnumPinCaps.loop, hcb, ht0, ne_eq, not_false_eq_true, decide_True,
                if_true] at h
              rcases ih (audioTaken d info0 out0) r h with
                ⟨h1, h2⟩ | ⟨pre, c, post, info, out, hl, hd, ho, hr, hb, hpre, hz, hpost⟩
              · right
                refine ⟨[], c0, rest, info0, out0, rfl, hd0, ho0, h1, hb0, by simp, ?_, Or.inr ?_⟩
                · intro p e q infoE hdec
                  simp at hdec
                · intro c' info' hm hdc
                  exact (h2 c' info' hm hdc).2
              · right
                have hlt : audioTotal d.config info < audioTotal d.config info0 := hb rfl
                refine ⟨some c0 :: pre, c, post, info, out, by simp [hl], hd, ho, hr, ?_, ?_, ?_,
                  hpost⟩
                · intro hf
                  have := hb0 hf
                  omega
                · intro c' info' hm hdc
                  simp only [List.mem_cons, Option.some.injEq] at hm
                  rcases hm with hm | hm
                  · subst hm
                    rw [hd0] at hdc
                    injection hdc with hdc
                    subst hdc
                    exact hlt
                  · exact hpre c' info' hm hdc
                · intro p e q infoE hdec hde hte
                  cases p with
                  | nil =>
                    simp only [List.nil_append, List.cons.injEq, Option.some.injEq] at hdec
                    rw [← hdec.1, hd0] at hde
                    injection hde with hde
                    subst hde
                    exact absurd hte ht0
                  | cons x p' =>
                    simp only [List.cons_append, List.cons.injEq] at hdec
                    rcases hz p' e q infoE hdec.2 hde hte with hh | ⟨e', i', hm', hd', ht'⟩
                    · right
                      have hle : audioTotal d.config info0 ≤ 0 := hh.2
                      refine ⟨c0, info0, ?_, hd0, hle⟩
                      rw [← hdec.1]
                      exact List.mem_cons_self _ _
                    · exact Or.inr ⟨e', i', List.mem_cons_of_mem _ hm', hd', ht'⟩
        · rw [if_neg hrep] at hcb
          have hkeep : d.found = true ∧ d.bestVal ≤ audioTotal d.config info0 := by
            constructor
            · cases hf : d.found with
              | true => rfl
              | false => exact absurd (Or.inl hf) hrep
            · have : ¬ d.bestVal > audioTotal d.config info0 := fun hh => hrep (Or.inr hh)
              omega
          simp only [EnumPinCaps.loop, hcb, if_true] at h
          rcases ih d r h with
            ⟨h1, h2⟩ | ⟨pre, c, post, info, out, hl, hd, ho, hr, hb, hpre, hz, hpost⟩
          · left
            refine ⟨h1, ?_⟩
            intro c info hm hdc
            simp only [List.mem_cons, Option.some.injEq] at hm
            rcases hm with hm | hm
            · subst hm
              rw [hd0] at hdc
              injection hdc with hdc
              subst hdc
              exact hkeep
            · exact h2 c info hm hdc
          · right
            have hlt := hb hkeep.1
            refine ⟨some c0 :: pre, c, post, info, out, by simp [hl], hd, ho, hr, hb, ?_, ?_,
              hpost⟩
            · intro c' info' hm hdc
              simp only [List.mem_cons, Option.some.injEq] at hm
              rcases hm with hm | hm
              · subst hm
                rw [hd0] at hdc
                injection hdc with hdc
                subst hdc
                have := hkeep.2
                omega
              · exact hpre c' info' hm hdc
            · intro p e q infoE hdec hde hte
              cases p with
              | nil =>
                simp only [List.nil_append, List.cons.injEq, Option.some.injEq] at hdec
                rw [← hdec.1, hd0] at hde
                injection hde with hde
                subst hde
                left
                refine ⟨hkeep.1, ?_⟩
                have := hkeep.2
                omega
              | cons x p' =>
                simp only [List.cons_append, List.cons.injEq] at hdec
                rcases hz p' e q infoE hdec.2 hde hte with hh | ⟨e', i', hm', hd', ht'⟩
                · exact Or.inl hh
                · exact Or.inr ⟨e', i', List.mem_cons_of_mem _ hm', hd', ht'⟩

/-- A `true` result of `GetClosestAudioMediaType` is the media type built from the entry on
which the enumeration ends. -/
theorem GetClosestAudioMediaType_selected (uninit : AudioInfo) (config : AudioConfig)
    (mt0 m : Option (AM_MEDIA_TYPE WAVEFORMATEX)) (caps : List (Option AudioCaps))
    (videoPin : Option (IPin VIDEOINFOHEADER (Option VIDEO_STREAM_CONFIG_CAPS)))
    (h : GetClosestAudioMediaType uninit
      { videoPin := videoPin, audioPin := some (pinOfCaps caps) } config mt0 = some (true, m)) :
    ∃ pre c post info out, AudioSelected uninit config caps pre c post info ∧
      audioOutput config info c.mt = some out ∧ m = some out := by
  simp only [GetClosestAudioMediaType] at h
  rw [EnumPinCaps_pinOfCaps] at h
  cases hloop : EnumPinCaps.loop (ClosestAudioMTCallback uninit) caps
      (ClosestAudioData.new config mt0) with
  | none => simp [hloop] at h
  | some r =>
    rw [hloop] at h
    simp only [Option.map_some', Bool.not_true, Bool.false_eq_true, if_false,
      Option.some.injEq, Prod.mk.injEq] at h
    rcases audio_loop_spec uninit caps (ClosestAudioData.new config mt0) r hloop with
      ⟨h1, _⟩ | ⟨pre, c, post, info, out, hl, hd, ho, hr, _, hpre, hz, hpost⟩
    · rw [h1] at h
      simp [ClosestAudioData.new] at h
    · refine ⟨pre, c, post, info, out, ⟨hl, hd, hpre, ?_, hpost⟩, ho, ?_⟩
      · intro p e q infoE hdec hde hte
        rcases hz p e q infoE hdec hde hte with hh | hh
        · exact absurd hh.1 (by simp [ClosestAudioData.new])
        · exact hh
      · rw [← h.2, hr]
        rfl

/-- A `true` result of `GetClosestVideoMediaType` is the media type built from the first entry
of least total. -/
theorem GetClosestVideoMediaType_selected
    (vf : AM_MEDIA_TYPE VIDEOINFOHEADER → Option VideoFormat) (config : VideoConfig)
    (mt0 m : Option (AM_MEDIA_TYPE VIDEOINFOHEADER)) (caps : List (Option VideoCaps))
    (audioPin : Option (IPin WAVEFORMATEX AUDIO_STREAM_CONFIG_CAPS))
    (h : GetClosestVideoMediaType vf { videoPin := some (pinOfCaps caps), audioPin := audioPin }
      config mt0 = some (true, m)) :
    ∃ pre c post info,
      caps = pre ++ some c :: post ∧
      videoDescriptor vf config c = some info ∧
      (∀ c' info', some c' ∈ caps → videoDescriptor vf config c' = some info' →
        videoTotal config info ≤ videoTotal config info') ∧
      (∀ c' info', some c' ∈ pre → videoDescriptor vf config c' = some info' →
        videoTotal config info < videoTotal config info') ∧
      m = some (videoOutput config info c.mt) := by
  simp only [GetClosestVideoMediaType] at h
  rw [EnumPinCaps_pinOfCaps] at h
  rcases video_loop_spec vf caps (ClosestVideoData.new config mt0)
      (by intro hh; exact absurd hh (by simp [ClosestVideoData.new])) with
    ⟨h1, _⟩ | ⟨pre, c, post, info, hl, hdesc, hres, _, hmin, hpre⟩
  · rw [h1] at h
    simp [ClosestVideoData.new] at h
  · rw [hres] at h
    simp only [Option.map_some', Bool.not_true, Bool.false_eq_true, if_false,
      Option.some.injEq, Prod.mk.injEq] at h
    refine ⟨pre, c, post, info, hl, hdesc, hmin, hpre, ?_⟩
    rw [← h.2]
    rfl

/-- For a range with `lo <= hi` the code's `if` / `else if` chain is the deficit of the
specification. -/
theorem xVal_eq_xDeficit (config : VideoConfig) (info : VideoInfo) (h : info.minCX ≤ info.maxCX) :
    xVal config info = xDeficit config info := by
  unfold xVal xDeficit deficit
  simp only [max_def]
  split_ifs <;> omega

theorem yVal_eq_yDeficit (config : VideoConfig) (info : VideoInfo) (h : info.minCY ≤ info.maxCY) :
    yVal config info = yDeficit config info := by
  unfold yVal yDeficit deficit
  simp only [max_def]
  split_ifs <;> omega

theorem frameVal_eq_frameDeficit (config : VideoConfig) (info : VideoInfo)
    (h : info.minInterval ≤ info.maxInterval) :
    frameVal config info = frameDeficit config info := by
  unfold frameVal frameDeficit deficit
  simp only [max_def]
  split_ifs <;> omega

theorem videoTotal_eq_totalDistance (config : VideoConfig) (info : VideoInfo)
    (hx : info.minCX ≤ info.maxCX) (hy : info.minCY ≤ info.maxCY)
    (hf : info.minInterval ≤ info.maxInterval) :
    videoTotal config info = totalDistance config info := by
  unfold videoTotal totalDistance
  rw [xVal_eq_xDeficit config info hx, yVal_eq_yDeficit config info hy,
    frameVal_eq_frameDeficit config info hf]
  omega

/-- The filter of a `true` result of `GetClosestVideoMediaType` has a video pin whose
capabilities enumerate. -/
theorem GetClosestVideoMediaType_filter
    (vf : AM_MEDIA_TYPE VIDEOINFOHEADER → Option VideoFormat) (filter : IBaseFilter)
    (config : VideoConfig) (mt0 m : Option (AM_MEDIA_TYPE VIDEOINFOHEADER))
    (h : GetClosestVideoMediaType vf filter config mt0 = some (true, m)) :
    ∃ caps, filter = { videoPin := some (pinOfCaps caps), audioPin := filter.audioPin } := by
  obtain ⟨caps, _, _, hpin, _⟩ := GetClosestVideoMediaType_found vf filter config mt0 m h
  refine ⟨caps, ?_⟩
  cases filter with
  | mk v a =>
    simp only at hpin
    subst hpin
    rfl

/-- The filter of a `true` result of `GetClosestAudioMediaType` has an audio pin whose
capabilities enumerate. -/
theorem GetClosestAudioMediaType_filter (uninit : AudioInfo) (filter : IBaseFilter)
    (config : AudioConfig) (mt0 m : Option (AM_MEDIA_TYPE WAVEFORMATEX))
    (h : GetClosestAudioMediaType uninit filter config mt0 = some (true, m)) :
    ∃ caps, filter = { videoPin := filter.videoPin, audioPin := some (pinOfCaps caps) } := by
  obtain ⟨caps, _, _, _, hpin, _⟩ := GetClosestAudioMediaType_found uninit filter config mt0 m h
  refine ⟨caps, ?_⟩
  cases filter with
  | mk v a =>
    simp only at hpin
    subst hpin
    rfl

/-- The extraction succeeds exactly when the pixel format is known and the capability block
is not null; the descriptor carries that pixel format. -/
theorem Get_FORMAT_VideoInfo_Data_isSome
    (vf : AM_MEDIA_TYPE VIDEOINFOHEADER → Option VideoFormat)
    (mt : AM_MEDIA_TYPE VIDEOINFOHEADER) (data : Option VIDEO_STREAM_CONFIG_CAPS)
    (format : VideoFormat) :
    (∃ info, Get_FORMAT_VideoInfo_Data vf mt data = some info ∧ info.format = format) ↔
      (vf mt = some format ∧ ∃ vscc, data = some vscc) := by
  unfold Get_FORMAT_VideoInfo_Data
  cases hv : vf mt with
  | none => simp
  | some f =>
    cases data with
    | none => simp
    | some vscc =>
      constructor
      · rintro ⟨info, hi, hfmt⟩
        simp only [Option.some.injEq] at hi
        rw [← hi] at hfmt
        simp only at hfmt
        exact ⟨by rw [hfmt], vscc, rfl⟩
      · rintro ⟨hfmt, _⟩
        simp only [Option.some.injEq] at hfmt
        exact ⟨_, rfl, hfmt⟩

/-- The stored audio media type keeps the subtype and the format type of the entry. -/
theorem audioOutput_header (config : AudioConfig) (info : AudioInfo)
    (mt out : AM_MEDIA_TYPE WAVEFORMATEX) (h : audioOutput config info mt = some out) :
    out.subtype = mt.subtype ∧ out.formattype = mt.formattype := by
  unfold audioOutput at h
  by_cases hch : channelsVal config info = 0 <;>
    by_cases hsr : sampleRateVal config info = 0 <;>
    simp only [hch, hsr, if_true, if_false] at h <;>
    cases hc1 : ClampToGranularity config.channels info.minChannels info.channelsGranularity <;>
    cases hc2 : ClampToGranularity (toLONG (toDWORD config.sampleRate)) info.minSampleRate
      info.sampleRateGranularity <;>
    simp [hc1, hc2] at h <;>
    (subst h; simp)

/-- Two entries on which the audio enumeration ends cannot stand one before the other. -/
theorem AudioSelected_not_before (uninit : AudioInfo) (config : AudioConfig)
    (caps pre1 : List (Option AudioCaps)) (c1 : AudioCaps) (post1 : List (Option AudioCaps))
    (info1 : AudioInfo) (pre2 : List (Option AudioCaps)) (c2 : AudioCaps)
    (post2 : List (Option AudioCaps)) (info2 : AudioInfo) (q : List (Option AudioCaps))
    (h1 : AudioSelected uninit config caps pre1 c1 post1 info1)
    (h2 : AudioSelected uninit config caps pre2 c2 post2 info2)
    (hpre : pre2 = pre1 ++ some c1 :: q) (hpost : post1 = q ++ some c2 :: post2) : False := by
  obtain ⟨_, hd1, hb1, _, he1⟩ := h1
  obtain ⟨_, hd2, hb2, hz2, _⟩ := h2
  have hlt : audioTotal config info2 < audioTotal config info1 :=
    hb2 c1 info1 (by simp [hpre]) hd1
  have ht1 : audioTotal config info1 = 0 := by
    rcases he1 with h0 | hle
    · exact h0
    · have := hle c2 info2 (by simp [hpost]) hd2
      omega
  obtain ⟨e', infoE', hm', hd', ht'⟩ := hz2 pre1 c1 q info1 hpre hd1 ht1
  have := hb1 e' infoE' hm' hd'
  omega

/-- The entry on which the audio enumeration ends is determined by the sequence. -/
theorem AudioSelected_unique (uninit : AudioInfo) (config : AudioConfig)
    (caps pre1 : List (Option AudioCaps)) (c1 : AudioCaps) (post1 : List (Option AudioCaps))
    (info1 : AudioInfo) (pre2 : List (Option AudioCaps)) (c2 : AudioCaps)
    (post2 : List (Option AudioCaps)) (info2 : AudioInfo)
    (h1 : AudioSelected uninit config caps pre1 c1 post1 info1)
    (h2 : AudioSelected uninit config caps pre2 c2 post2 info2) :
    pre1 = pre2 ∧ c1 = c2 ∧ post1 = post2 ∧ info1 = info2 := by
  have heq : pre1 ++ some c1 :: post1 = pre2 ++ some c2 :: post2 := by
    rw [← h1.1, ← h2.1]
  rcases List.append_eq_append_iff.1 heq with ⟨a, ha1, ha2⟩ | ⟨a, ha1, ha2⟩
  · cases a with
    | nil =>
      simp only [List.append_nil, List.nil_append, List.cons.injEq, Option.some.injEq] at ha1 ha2
      obtain ⟨hc, hp⟩ := ha2
      subst hc
      refine ⟨ha1.symm, rfl, hp, ?_⟩
      have := h1.2.1
      rw [h2.2.1] at this
      injection this with this
      exact this.symm
    | cons x q =>
      simp only [List.cons_append, List.cons.injEq] at ha2
      obtain ⟨hx, hp⟩ := ha2
      subst hx
      exact absurd (AudioSelected_not_before uninit config caps pre1 c1 post1 info1 pre2 c2
        post2 info2 q h1 h2 ha1 hp) id
  · cases a with
    | nil =>
      simp only [List.append_nil, List.nil_append, List.cons.injEq, Option.some.injEq] at ha1 ha2
      obtain ⟨hc, hp⟩ := ha2
      subst hc
      refine ⟨ha1, rfl, hp.symm, ?_⟩
      have := h1.2.1
      rw [h2.2.1] at this
      injection this with this
      exact this.symm
    | cons x q =>
      simp only [List.cons_append, List.cons.injEq] at ha2
      obtain ⟨hx, hp⟩ := ha2
      subst hx
      exact absurd (AudioSelected_not_before uninit config caps pre2 c2 post2 info2 pre1 c1
        post1 info1 q h2 h1 ha1 hp) id

/-! ## Claims -/

/-- C1. Video selector, in-range request: when an entry of the capability sequence is
format-compatible with the request (its format equals the requested internal format, or the
request is `Any`) and its ranges contain the requested width, height and frame interval, and no
earlier entry does, the enumeration succeeds with `found = true` and distance `0`, nothing
after that entry matters, and the stored media type is that entry's with frame interval equal
to the request, width `cx - ((cx - minCX) mod granularityCX)` and height
`cy - ((cy - minCY) mod granularityCY)`; `GetClosestVideoMediaType` returns `true` with it. -/
theorem video_in_range_selects_first_match
    (vf : AM_MEDIA_TYPE VIDEOINFOHEADER → Option VideoFormat) (config : VideoConfig)
    (mt0 : Option (AM_MEDIA_TYPE VIDEOINFOHEADER)) (pre post : List (Option VideoCaps))
    (c : VideoCaps) (info : VideoInfo) (audioPin : Option (IPin WAVEFORMATEX AUDIO_STREAM_CONFIG_CAPS))
    (hguid : c.mt.formattype = FormatGuid.FORMAT_VideoInfo)
    (hinfo : Get_FORMAT_VideoInfo_Data vf c.mt c.data = some info)
    (hfmt : config.internalFormat = info.format ∨ config.internalFormat = VideoFormat.Any)
    (hin : VideoContains config info)
    (hfirst : ∀ c' info', some c' ∈ pre → videoDescriptor vf config c' = some info' →
      ¬ VideoContains config info') :
    EnumPinCaps (pinOfCaps (pre ++ some c :: post)) (ClosestVideoMTCallback vf)
        (ClosestVideoData.new config mt0)
      = some (true,
          { config := config
            found := true
            bestVal := 0
            mt := some
              { c.mt with pbFormat :=
                  { AvgTimePerFrame := config.frameInterval
                    bmiHeader :=
                      { biWidth := config.cx - (config.cx - info.minCX) % info.granularityCX
                        biHeight := config.cy - (config.cy - info.minCY) % info.granularityCY } } } }) ∧
    GetClosestVideoMediaType vf { videoPin := some (pinOfCaps (pre ++ some c :: post)),
                                  audioPin := audioPin } config mt0
      = some (true, some
          { c.mt with pbFormat :=
              { AvgTimePerFrame := config.frameInterval
                bmiHeader :=
                  { biWidth := config.cx - (config.cx - info.minCX) % info.granularityCX
                    biHeight := config.cy - (config.cy - info.minCY) % info.granularityCY } } }) := by
  have hdesc : videoDescriptor vf (ClosestVideoData.new config mt0).config c = some info :=
    videoDescriptor_of_parts vf config c info hguid hinfo hfmt
  have h0 : videoTotal config info = 0 := (videoTotal_eq_zero_iff config info).2 hin
  have hloop := video_loop_first_zero vf c post pre (ClosestVideoData.new config mt0) info
    (by intro h; exact absurd h (by simp [ClosestVideoData.new])) hdesc h0
    (by
      intro c' info' hm hd' hz
      exact hfirst c' info' hm hd' ((videoTotal_eq_zero_iff config info').1 hz))
  have hgr := Get_FORMAT_VideoInfo_Data_granularity vf c.mt c.data info hinfo
  obtain ⟨⟨hx1, hx2⟩, ⟨hy1, hy2⟩, hfr⟩ := hin
  have hx : xVal config info = 0 := (xVal_eq_zero_iff config info).2 ⟨hx1, hx2⟩
  have hy : yVal config info = 0 := (yVal_eq_zero_iff config info).2 ⟨hy1, hy2⟩
  have hf : frameVal config info = 0 := (frameVal_eq_zero_iff config info).2 hfr
  have hmx : Int.tmod (config.cx - info.minCX) info.granularityCX
      = (config.cx - info.minCX) % info.granularityCX :=
    Int.tmod_eq_emod (by omega) (by omega)
  have hmy : Int.tmod (config.cy - info.minCY) info.granularityCY
      = (config.cy - info.minCY) % info.granularityCY :=
    Int.tmod_eq_emod (by omega) (by omega)
  have htaken : videoTaken (ClosestVideoData.new config mt0) info c =
      { config := config
        found := true
        bestVal := 0
        mt := some
          { c.mt with pbFormat :=
              { AvgTimePerFrame := config.frameInterval
                bmiHeader :=
                  { biWidth := config.cx - (config.cx - info.minCX) % info.granularityCX
                    biHeight := config.cy - (config.cy - info.minCY) % info.granularityCY } } } } := by
    simp [videoTaken, videoOutput, ClosestVideoData.new, h0, hx, hy, hf, hmx, hmy]
  rw [htaken] at hloop
  constructor
  · rw [EnumPinCaps_pinOfCaps, hloop]; rfl
  · simp only [GetClosestVideoMediaType]
    rw [EnumPinCaps_pinOfCaps, hloop]; rfl

/-- Witness for C1: 1920x1080 at 30 frames per second against 640-1920 x 480-1080, 15-60 frames
per second, granularity 8x8, listed after an entry fixed at 1280x720 and before one fixed at
1600x900: distance 0 and output exactly 1920x1080 at the requested interval. -/
theorem video_in_range_selects_first_match_witness :
    EnumPinCaps
        (pinOfCaps ([some exampleVideoCapsSmall] ++ some exampleVideoCaps :: [some exampleVideoCapsMid]))
        (ClosestVideoMTCallback exampleVFormat) (ClosestVideoData.new exampleVideoConfig none)
      = some (true,
          { config := exampleVideoConfig
            found := true
            bestVal := 0
            mt := some
              { exampleVideoCaps.mt with pbFormat :=
                  { AvgTimePerFrame := 333333
                    bmiHeader := { biWidth := 1920, biHeight := 1080 } } } }) ∧
    GetClosestVideoMediaType exampleVFormat
        { videoPin := some (pinOfCaps
            ([some exampleVideoCapsSmall] ++ some exampleVideoCaps :: [some exampleVideoCapsMid])),
          audioPin := none } exampleVideoConfig none
      = some (true, some
          { exampleVideoCaps.mt with pbFormat :=
              { AvgTimePerFrame := 333333
                bmiHeader := { biWidth := 1920, biHeight := 1080 } } }) :=
  video_in_range_selects_first_match exampleVFormat exampleVideoConfig none
    [some exampleVideoCapsSmall] [some exampleVideoCapsMid] exampleVideoCaps exampleVideoInfo none
    (by decide) (by decide) (by decide) (by decide)
    (by
      intro c' info' hm hd
      simp only [List.mem_singleton, Option.some.injEq] at hm
      subst hm
      have hsmall : videoDescriptor exampleVFormat exampleVideoConfig exampleVideoCapsSmall
          = some exampleVideoInfoSmall := by decide
      rw [hsmall] at hd
      injection hd with e
      subst e
      decide)

/-- C2 (counterexample). Video selector, minimisation: the second entry has reversed
frame-interval bounds (minimum 400000, maximum 200000).  For the request of interval 333333
inside both size ranges its distance `xDeficit + yDeficit + frameDeficit` is 133333, more than
the 100000 of the first entry; the selector computes 66667 for it and selects it, so the
selected descriptor is not one of minimal distance. -/
theorem video_minimum_fails_on_reversed_range :
    videoDescriptor exampleVFormat exampleVideoConfig exampleVideoCapsSlow
      = some exampleVideoInfoSlow ∧
    videoDescriptor exampleVFormat exampleVideoConfig exampleVideoCapsReversed
      = some exampleVideoInfoReversed ∧
    totalDistance exampleVideoConfig exampleVideoInfoSlow = 100000 ∧
    totalDistance exampleVideoConfig exampleVideoInfoReversed = 133333 ∧
    EnumPinCaps (pinOfCaps [some exampleVideoCapsSlow, some exampleVideoCapsReversed])
        (ClosestVideoMTCallback exampleVFormat) (ClosestVideoData.new exampleVideoConfig none)
      = some (true,
          { config := exampleVideoConfig
            found := true
            bestVal := 66667
            mt := some
              { exampleVideoCapsReversed.mt with pbFormat :=
                  { AvgTimePerFrame := 400000
                    bmiHeader := { biWidth := 1920, biHeight := 1080 } } } }) ∧
    GetClosestVideoMediaType exampleVFormat
        { videoPin := some (pinOfCaps [some exampleVideoCapsSlow, some exampleVideoCapsReversed]),
          audioPin := none }
        exampleVideoConfig none
      = some (true, some
          { exampleVideoCapsReversed.mt with pbFormat :=
              { AvgTimePerFrame := 400000
                bmiHeader := { biWidth := 1920, biHeight := 1080 } } }) ∧
    exampleVideoCapsReversed.mt ≠ exampleVideoCapsSlow.mt := by
  decide

/-- C2 (amended). Video selector, minimisation and tie-break: when the capability sequence holds
at least one format-compatible descriptor and every format-compatible descriptor has
`min <= max` on each of the three dimensions, the enumeration ends with `found = true` on an
entry whose distance `xDeficit + yDeficit + frameDeficit` (each deficit being
`max(0, min - req, req - max)`) is least among all format-compatible entries and strictly less
than that of every format-compatible entry before it; `bestVal` is that distance and the
reported media type is the one built from that entry. -/
theorem video_selects_first_minimum
    (vf : AM_MEDIA_TYPE VIDEOINFOHEADER → Option VideoFormat) (config : VideoConfig)
    (mt0 : Option (AM_MEDIA_TYPE VIDEOINFOHEADER)) (caps : List (Option VideoCaps))
    (audioPin : Option (IPin WAVEFORMATEX AUDIO_STREAM_CONFIG_CAPS))
    (hex : ∃ c info, some c ∈ caps ∧ videoDescriptor vf config c = some info)
    (hwf : ∀ c info, some c ∈ caps → videoDescriptor vf config c = some info →
      info.minCX ≤ info.maxCX ∧ info.minCY ≤ info.maxCY ∧
      info.minInterval ≤ info.maxInterval) :
    ∃ pre c post info,
      caps = pre ++ some c :: post ∧
      videoDescriptor vf config c = some info ∧
      EnumPinCaps (pinOfCaps caps) (ClosestVideoMTCallback vf) (ClosestVideoData.new config mt0)
        = some (true,
            { config := config
              found := true
              bestVal := xDeficit config info + yDeficit config info + frameDeficit config info
              mt := some (videoOutput config info c.mt) }) ∧
      GetClosestVideoMediaType vf { videoPin := some (pinOfCaps caps), audioPin := audioPin }
        config mt0 = some (true, some (videoOutput config info c.mt)) ∧
      (∀ c' info', some c' ∈ caps → videoDescriptor vf config c' = some info' →
        xDeficit config info + yDeficit config info + frameDeficit config info
          ≤ xDeficit config info' + yDeficit config info' + frameDeficit config info') ∧
      (∀ c' info', some c' ∈ pre → videoDescriptor vf config c' = some info' →
        xDeficit config info + yDeficit config info + frameDeficit config info
          < xDeficit config info' + yDeficit config info' + frameDeficit config info') := by
  have htot : ∀ c i, some c ∈ caps → videoDescriptor vf config c = some i →
      xDeficit config i + yDeficit config i + frameDeficit config i = videoTotal config i := by
    intro c i hm hd
    obtain ⟨h1, h2, h3⟩ := hwf c i hm hd
    rw [videoTotal_eq_totalDistance config i h1 h2 h3]
    rfl
  obtain ⟨c0, info0, hm0, hd0⟩ := hex
  rcases video_loop_spec vf caps (ClosestVideoData.new config mt0)
      (by intro h; exact absurd h (by simp [ClosestVideoData.new])) with
    ⟨_, h2⟩ | ⟨pre, c, post, info, hl, hdesc, hres, _, hmin, hpre⟩
  · have := (h2 c0 info0 hm0 hd0).1
    exact absurd this (by simp [ClosestVideoData.new])
  · have hmem : some c ∈ caps := by simp [hl]
    have hpremem : ∀ c', some c' ∈ pre → some c' ∈ caps := by
      intro c' hm
      simp [hl, hm]
    refine ⟨pre, c, post, info, hl, hdesc, ?_, ?_, ?_, ?_⟩
    · rw [EnumPinCaps_pinOfCaps, hres, htot c info hmem hdesc]
      rfl
    · simp only [GetClosestVideoMediaType]
      rw [EnumPinCaps_pinOfCaps, hres]
      rfl
    · intro c' info' hm hd'
      rw [htot c info hmem hdesc, htot c' info' hm hd']
      exact hmin c' info' hm hd'
    · intro c' info' hm hd'
      rw [htot c info hmem hdesc, htot c' info' (hpremem c' hm) hd']
      exact hpre c' info' hm hd'

/-- Witness for C2 (amended): a 1920x1080 request against an entry fixed at 1280x720, a failed
entry, two entries fixed at 1600x900 and one more fixed at 1280x720; every descriptor has
`min <= max`, and the first of the two 1600x900 entries is selected with distance 500. -/
theorem video_selects_first_minimum_witness :
    (∃ pre c post info,
      [some exampleVideoCapsSmall, none, some exampleVideoCapsMid, some exampleVideoCapsMid,
          some exampleVideoCapsSmall] = pre ++ some c :: post ∧
      videoDescriptor exampleVFormat exampleVideoConfig c = some info ∧
      EnumPinCaps
          (pinOfCaps [some exampleVideoCapsSmall, none, some exampleVideoCapsMid,
            some exampleVideoCapsMid, some exampleVideoCapsSmall])
          (ClosestVideoMTCallback exampleVFormat) (ClosestVideoData.new exampleVideoConfig none)
        = some (true,
            { config := exampleVideoConfig
              found := true
              bestVal := xDeficit exampleVideoConfig info + yDeficit exampleVideoConfig info
                + frameDeficit exampleVideoConfig info
              mt := some (videoOutput exampleVideoConfig info c.mt) }) ∧
      GetClosestVideoMediaType exampleVFormat
          { videoPin := some (pinOfCaps [some exampleVideoCapsSmall, none,
              some exampleVideoCapsMid, some exampleVideoCapsMid, some exampleVideoCapsSmall]),
            audioPin := none }
          exampleVideoConfig none
        = some (true, some (videoOutput exampleVideoConfig info c.mt)) ∧
      (∀ c' info', some c' ∈ [some exampleVideoCapsSmall, none, some exampleVideoCapsMid,
          some exampleVideoCapsMid, some exampleVideoCapsSmall] →
        videoDescriptor exampleVFormat exampleVideoConfig c' = some info' →
        xDeficit exampleVideoConfig info + yDeficit exampleVideoConfig info
            + frameDeficit exampleVideoConfig info
          ≤ xDeficit exampleVideoConfig info' + yDeficit exampleVideoConfig info'
            + frameDeficit exampleVideoConfig info') ∧
      (∀ c' info', some c' ∈ pre →
        videoDescriptor exampleVFormat exampleVideoConfig c' = some info' →
        xDeficit exampleVideoConfig info + yDeficit exampleVideoConfig info
            + frameDeficit exampleVideoConfig info
          < xDeficit exampleVideoConfig info' + yDeficit exampleVideoConfig info'
            + frameDeficit exampleVideoConfig info')) ∧
    GetClosestVideoMediaType exampleVFormat
        { videoPin := some (pinOfCaps [some exampleVideoCapsSmall, none,
            some exampleVideoCapsMid, some exampleVideoCapsMid, some exampleVideoCapsSmall]),
          audioPin := none }
        exampleVideoConfig none
      = some (true, some exampleVideoCapsMid.mt) ∧
    totalDistance exampleVideoConfig exampleVideoInfoSmall = 1000 ∧
    totalDistance exampleVideoConfig exampleVideoInfoMid = 500 :=
  ⟨video_selects_first_minimum exampleVFormat exampleVideoConfig none
      [some exampleVideoCapsSmall, none, some exampleVideoCapsMid, some exampleVideoCapsMid,
        some exampleVideoCapsSmall] none
      ⟨exampleVideoCapsSmall, exampleVideoInfoSmall, by simp, by decide⟩
      (by
        intro c info hm hd
        have hsmall : videoDescriptor exampleVFormat exampleVideoConfig exampleVideoCapsSmall
            = some exampleVideoInfoSmall := by decide
        have hmid : videoDescriptor exampleVFormat exampleVideoConfig exampleVideoCapsMid
            = some exampleVideoInfoMid := by decide
        simp only [List.mem_cons, Option.some.injEq, reduceCtorEq, List.mem_singleton,
          List.not_mem_nil, or_false, false_or] at hm
        rcases hm with hm | hm | hm | hm
        · subst hm
          rw [hsmall] at hd
          injection hd with e
          subst e
          decide
        · subst hm
          rw [hmid] at hd
          injection hd with e
          subst e
          decide
        · subst hm
          rw [hmid] at hd
          injection hd with e
          subst e
          decide
        · subst hm
          rw [hsmall] at hd
          injection hd with e
          subst e
          decide),
   by decide, by decide, by decide⟩

/-- C3 (evaluation at the failing input). Audio channel deficit: for a request of 8 channels
against the 1-2 channel descriptor the selector computes `channelsVal = 0`, where
`max(0, minChannels - 8, 8 - maxChannels)` is 6; for a request of 1 channel against the same
descriptor it computes `-1`, a negative value.  Run through the selector, the 96000 Hz /
8 channel request ends with distance 48000 and 8 channels written to the output. -/
theorem audio_channel_deficit_at_failing_input :
    Get_FORMAT_WaveFormatEx_Data exampleUninit exampleAudioCaps.mt exampleAudioCaps.data
      = exampleAudioInfo ∧
    channelsVal exampleAudioConfigHigh exampleAudioInfo = 0 ∧
    max 0 (max (exampleAudioInfo.minChannels - exampleAudioConfigHigh.channels)
      (exampleAudioConfigHigh.channels - exampleAudioInfo.maxChannels)) = 6 ∧
    channelsVal exampleAudioConfigMono exampleAudioInfo = -1 ∧
    EnumPinCaps (pinOfCaps [some exampleAudioCaps]) (ClosestAudioMTCallback exampleUninit)
        (ClosestAudioData.new exampleAudioConfigHigh none)
      = some (true,
          { config := exampleAudioConfigHigh
            found := true
            bestVal := 48000
            mt := some
              { exampleAudioCaps.mt with pbFormat :=
                  { nChannels := 8, nSamplesPerSec := 44100, nAvgBytesPerSec := 705600,
                    nBlockAlign := 16, wBitsPerSample := 16 } } }) := by
  decide

/-- C4 (evaluation at the failing input). Audio selector, in-range request: 44100 Hz / 1 channel
lies within both the 1-2 channel entry and the 1-4 channel entry that follows it, yet the
enumeration does not stop at the first: it ends with distance `-3` on the second entry, whose
4 channels are left in the output. -/
theorem audio_in_range_at_failing_input :
    audioDescriptor exampleUninit exampleAudioConfigMono exampleAudioCaps = some exampleAudioInfo ∧
    (exampleAudioInfo.minSampleRate ≤ exampleAudioConfigMono.sampleRate ∧
      exampleAudioConfigMono.sampleRate ≤ exampleAudioInfo.maxSampleRate) ∧
    (exampleAudioInfo.minChannels ≤ exampleAudioConfigMono.channels ∧
      exampleAudioConfigMono.channels ≤ exampleAudioInfo.maxChannels) ∧
    EnumPinCaps (pinOfCaps [some exampleAudioCaps, some exampleAudioCapsWide])
        (ClosestAudioMTCallback exampleUninit) (ClosestAudioData.new exampleAudioConfigMono none)
      = some (true,
          { config := exampleAudioConfigMono
            found := true
            bestVal := -3
            mt := some
              { exampleAudioCapsWide.mt with pbFormat :=
                  { nChannels := 4, nSamplesPerSec := 44100, nAvgBytesPerSec := 352800,
                    nBlockAlign := 8, wBitsPerSample := 16 } } }) ∧
    EnumPinCaps (pinOfCaps [some exampleAudioCaps]) (ClosestAudioMTCallback exampleUninit)
        (ClosestAudioData.new exampleAudioConfigMono none)
      = some (true,
          { config := exampleAudioConfigMono
            found := true
            bestVal := -1
            mt := some
              { exampleAudioCaps.mt with pbFormat :=
                  { nChannels := 2, nSamplesPerSec := 44100, nAvgBytesPerSec := 176400,
                    nBlockAlign := 4, wBitsPerSample := 16 } } }) := by
  decide

/-- C5 (counterexample). Out-of-range dimensions are not moved to the capability bound: the
96000 Hz request against the 8000-48000 Hz entry whose media type declares 44100 Hz is answered
with 44100 Hz, not 48000; the 1920-wide request against the 640-1280 entry whose media type
declares width 640 is answered with width 640, not 1280. -/
theorem out_of_range_not_clamped_to_bound :
    (GetClosestAudioMediaType exampleUninit
        { videoPin := none, audioPin := some (pinOfCaps [some exampleAudioCaps]) }
        exampleAudioConfigHigh none
      = some (true, some
          { exampleAudioCaps.mt with pbFormat :=
              { nChannels := 8, nSamplesPerSec := 44100, nAvgBytesPerSec := 705600,
                nBlockAlign := 16, wBitsPerSample := 16 } }) ∧
      audioDescriptor exampleUninit exampleAudioConfigHigh exampleAudioCaps = some exampleAudioInfo ∧
      exampleAudioInfo.maxSampleRate < exampleAudioConfigHigh.sampleRate ∧
      sampleRateVal exampleAudioConfigHigh exampleAudioInfo ≠ 0 ∧
      (44100 : Int) ≠ exampleAudioInfo.maxSampleRate) ∧
    (GetClosestVideoMediaType exampleVFormat
        { videoPin := some (pinOfCaps [some exampleVideoCapsRange]), audioPin := none }
        exampleVideoConfig none
      = some (true, some
          { exampleVideoCapsRange.mt with pbFormat :=
              { AvgTimePerFrame := 333333, bmiHeader := { biWidth := 640, biHeight := 480 } } }) ∧
      videoDescriptor exampleVFormat exampleVideoConfig exampleVideoCapsRange
        = some exampleVideoInfoRange ∧
      exampleVideoInfoRange.maxCX < exampleVideoConfig.cx ∧
      xVal exampleVideoConfig exampleVideoInfoRange ≠ 0 ∧
      (640 : Int) ≠ exampleVideoInfoRange.maxCX) := by
  decide

/-- C5 (amended). Out-of-range dimensions keep the carried value: whenever a selector reports a
format, it is the one built from the selected entry of the enumerated sequence (video: the first
entry of least total; audio: the entry on which the enumeration ends), and every dimension on
which the request lies outside that entry's descriptor range has, in the output, the value the
entry's media type carried: video width, height and frame interval; audio sample rate; audio
channels when the request is below `minChannels`. -/
theorem out_of_range_dimension_keeps_carried_value :
    (∀ (vf : AM_MEDIA_TYPE VIDEOINFOHEADER → Option VideoFormat) (filter : IBaseFilter)
        (config : VideoConfig) (mt0 m : Option (AM_MEDIA_TYPE VIDEOINFOHEADER)),
      GetClosestVideoMediaType vf filter config mt0 = some (true, m) →
      ∃ caps pre c post info out,
        filter.videoPin = some (pinOfCaps caps) ∧
        caps = pre ++ some c :: post ∧
        videoDescriptor vf config c = some info ∧
        (∀ c' info', some c' ∈ caps → videoDescriptor vf config c' = some info' →
          videoTotal config info ≤ videoTotal config info') ∧
        (∀ c' info', some c' ∈ pre → videoDescriptor vf config c' = some info' →
          videoTotal config info < videoTotal config info') ∧
        m = some out ∧
        out.subtype = c.mt.subtype ∧ out.formattype = c.mt.formattype ∧
        (config.cx < info.minCX ∨ info.maxCX < config.cx →
          out.pbFormat.bmiHeader.biWidth = c.mt.pbFormat.bmiHeader.biWidth) ∧
        (config.cy < info.minCY ∨ info.maxCY < config.cy →
          out.pbFormat.bmiHeader.biHeight = c.mt.pbFormat.bmiHeader.biHeight) ∧
        (config.frameInterval < info.minInterval ∨ info.maxInterval < config.frameInterval →
          out.pbFormat.AvgTimePerFrame = c.mt.pbFormat.AvgTimePerFrame)) ∧
    (∀ (uninit : AudioInfo) (filter : IBaseFilter) (config : AudioConfig)
        (mt0 m : Option (AM_MEDIA_TYPE WAVEFORMATEX)),
      GetClosestAudioMediaType uninit filter config mt0 = some (true, m) →
      ∃ caps pre c post info out,
        filter.audioPin = some (pinOfCaps caps) ∧
        AudioSelected uninit config caps pre c post info ∧
        m = some out ∧
        out.subtype = c.mt.subtype ∧ out.formattype = c.mt.formattype ∧
        (config.sampleRate < info.minSampleRate ∨ info.maxSampleRate < config.sampleRate →
          out.pbFormat.nSamplesPerSec = c.mt.pbFormat.nSamplesPerSec) ∧
        (config.channels < info.minChannels →
          out.pbFormat.nChannels = c.mt.pbFormat.nChannels)) := by
  constructor
  · intro vf filter config mt0 m h
    obtain ⟨caps, hfilter⟩ := GetClosestVideoMediaType_filter vf filter config mt0 m h
    rw [hfilter] at h
    obtain ⟨pre, c, post, info, hl, hdesc, hmin, hpre, hout⟩ :=
      GetClosestVideoMediaType_selected vf config mt0 m caps filter.audioPin h
    refine ⟨caps, pre, c, post, info, videoOutput config info c.mt, ?_, hl, hdesc, hmin, hpre,
      hout, rfl, rfl, ?_, ?_, ?_⟩
    · rw [hfilter]
    · intro hx
      have : xVal config info ≠ 0 := fun e => by
        have := (xVal_eq_zero_iff config info).1 e
        omega
      simp [videoOutput, this]
    · intro hy
      have : yVal config info ≠ 0 := fun e => by
        have := (yVal_eq_zero_iff config info).1 e
        omega
      simp [videoOutput, this]
    · intro hf
      have : frameVal config info ≠ 0 := fun e => by
        have := (frameVal_eq_zero_iff config info).1 e
        omega
      simp [videoOutput, this]
  · intro uninit filter config mt0 m h
    obtain ⟨caps, hfilter⟩ := GetClosestAudioMediaType_filter uninit filter config mt0 m h
    rw [hfilter] at h
    obtain ⟨pre, c, post, info, out, hsel, hout, hmt⟩ :=
      GetClosestAudioMediaType_selected uninit config mt0 m caps filter.videoPin h
    obtain ⟨_, _, _, hch, hsr⟩ := audioOutput_spec config info c.mt out hout
    obtain ⟨hsub, hfmt⟩ := audioOutput_header config info c.mt out hout
    refine ⟨caps, pre, c, post, info, out, ?_, hsel, hmt, hsub, hfmt, ?_, ?_⟩
    · rw [hfilter]
    · intro hr
      exact hsr (sampleRateVal_ne_zero_of_outside config info hr)
    · intro hc
      exact (hch (channelsVal_ne_zero_of_below config info hc)).1

/-- Witness for C5 (amended): the 1920x1080 request against a failed entry, the 640-1280 x
480-720 entry and the entry fixed at 1280x720 (equal totals, the earlier one is selected and its
declared 640x480 is reported); the 96000 Hz / 8 channel request against the 8000-16000 Hz entry
and the 8000-48000 Hz entry (the second is selected and its declared 44100 Hz is reported). -/
theorem out_of_range_dimension_keeps_carried_value_witness :
    (∃ caps pre c post info out,
      (some (pinOfCaps [none, some exampleVideoCapsRange, some exampleVideoCapsSmall]) :
          Option (IPin VIDEOINFOHEADER _)) = some (pinOfCaps caps) ∧
      caps = pre ++ some c :: post ∧
      videoDescriptor exampleVFormat exampleVideoConfig c = some info ∧
      (∀ c' info', some c' ∈ caps →
        videoDescriptor exampleVFormat exampleVideoConfig c' = some info' →
        videoTotal exampleVideoConfig info ≤ videoTotal exampleVideoConfig info') ∧
      (∀ c' info', some c' ∈ pre →
        videoDescriptor exampleVFormat exampleVideoConfig c' = some info' →
        videoTotal exampleVideoConfig info < videoTotal exampleVideoConfig info') ∧
      some ({ exampleVideoCapsRange.mt with pbFormat :=
          { AvgTimePerFrame := 333333, bmiHeader := { biWidth := 640, biHeight := 480 } } } :
          AM_MEDIA_TYPE VIDEOINFOHEADER) = some out ∧
      out.subtype = c.mt.subtype ∧ out.formattype = c.mt.formattype ∧
      (exampleVideoConfig.cx < info.minCX ∨ info.maxCX < exampleVideoConfig.cx →
        out.pbFormat.bmiHeader.biWidth = c.mt.pbFormat.bmiHeader.biWidth) ∧
      (exampleVideoConfig.cy < info.minCY ∨ info.maxCY < exampleVideoConfig.cy →
        out.pbFormat.bmiHeader.biHeight = c.mt.pbFormat.bmiHeader.biHeight) ∧
      (exampleVideoConfig.frameInterval < info.minInterval ∨
          info.maxInterval < exampleVideoConfig.frameInterval →
        out.pbFormat.AvgTimePerFrame = c.mt.pbFormat.AvgTimePerFrame)) ∧
    (∃ caps pre c post info out,
      (some (pinOfCaps [some exampleAudioCapsLow, some exampleAudioCaps]) :
          Option (IPin WAVEFORMATEX _)) = some (pinOfCaps caps) ∧
      AudioSelected exampleUninit exampleAudioConfigHigh caps pre c post info ∧
      some ({ exampleAudioCaps.mt with pbFormat :=
          { nChannels := 8, nSamplesPerSec := 44100, nAvgBytesPerSec := 705600,
            nBlockAlign := 16, wBitsPerSample := 16 } } : AM_MEDIA_TYPE WAVEFORMATEX)
        = some out ∧
      out.subtype = c.mt.subtype ∧ out.formattype = c.mt.formattype ∧
      (exampleAudioConfigHigh.sampleRate < info.minSampleRate ∨
          info.maxSampleRate < exampleAudioConfigHigh.sampleRate →
        out.pbFormat.nSamplesPerSec = c.mt.pbFormat.nSamplesPerSec) ∧
      (exampleAudioConfigHigh.channels < info.minChannels →
        out.pbFormat.nChannels = c.mt.pbFormat.nChannels)) :=
  ⟨out_of_range_dimension_keeps_carried_value.1 exampleVFormat
      { videoPin := some (pinOfCaps [none, some exampleVideoCapsRange,
          some exampleVideoCapsSmall]), audioPin := none }
      exampleVideoConfig none
      (some { exampleVideoCapsRange.mt with pbFormat :=
        { AvgTimePerFrame := 333333, bmiHeader := { biWidth := 640, biHeight := 480 } } })
      (by decide),
   out_of_range_dimension_keeps_carried_value.2 exampleUninit
      { videoPin := none, audioPin := some (pinOfCaps [some exampleAudioCapsLow,
          some exampleAudioCaps]) }
      exampleAudioConfigHigh none
      (some { exampleAudioCaps.mt with pbFormat :=
        { nChannels := 8, nSamplesPerSec := 44100, nAvgBytesPerSec := 705600,
          nBlockAlign := 16, wBitsPerSample := 16 } })
      (by decide)⟩

/-- C6 (counterexample). Audio derived fields: a request of 1 channel against the entry of
exactly 2 channels whose media type carries block alignment 2 is answered with 16 bits,
2 channels and block alignment 2, where `bitsPerSample * channels / 8` is 4; a request of
2000000000 Hz that the entry contains is answered with block alignment 4 and 3705032704 average
bytes per second, where `sampleRate * blockAlign` is 8000000000; and a request of 65535
channels against the entry of exactly 65535 channels whose media type declares 65535 bits per
sample is answered with block alignment 49153, where `bitsPerSample * channels / 8` is
536854528. -/
theorem audio_derived_fields_not_always_recomputed :
    (GetClosestAudioMediaType exampleUninit
        { videoPin := none, audioPin := some (pinOfCaps [some exampleAudioCapsOdd]) }
        exampleAudioConfigMono none
      = some (true, some
          { exampleAudioCapsOdd.mt with pbFormat :=
              { nChannels := 2, nSamplesPerSec := 44100, nAvgBytesPerSec := 88200,
                nBlockAlign := 2, wBitsPerSample := 16 } }) ∧
      (2 : Nat) ≠ 16 * 2 / 8) ∧
    (GetClosestAudioMediaType exampleUninit
        { videoPin := none, audioPin := some (pinOfCaps [some exampleAudioCapsFast]) }
        exampleAudioConfigFast none
      = some (true, some
          { exampleAudioCapsFast.mt with pbFormat :=
              { nChannels := 2, nSamplesPerSec := 2000000000, nAvgBytesPerSec := 3705032704,
                nBlockAlign := 4, wBitsPerSample := 16 } }) ∧
      (3705032704 : Nat) ≠ 2000000000 * 4) ∧
    (GetClosestAudioMediaType exampleUninit
        { videoPin := none, audioPin := some (pinOfCaps [some exampleAudioCapsMany]) }
        exampleAudioConfigMany none
      = some (true, some
          { exampleAudioCapsMany.mt with pbFormat :=
              { nChannels := 65535, nSamplesPerSec := 44100, nAvgBytesPerSec := 2167647300,
                nBlockAlign := 49153, wBitsPerSample := 65535 } }) ∧
      (49153 : Nat) ≠ 65535 * 65535 / 8 ∧ (65535 * 65535 / 8 : Nat) = 536854528) := by
  decide

/-- C6 (amended). Audio derived fields: whenever the audio selector reports a format, it is the
one built from the entry on which the enumeration ends and, on the output's own values,
`nAvgBytesPerSec = (nSamplesPerSec * nBlockAlign) mod 2^32` (the product itself when it is below
`2^32`).  When the computed channel deficit of that entry is 0, `nBlockAlign` is the 16-bit
store of the product `wBitsPerSample * nChannels`, taken as a signed 32-bit integer and divided
by `8` towards zero; this is `wBitsPerSample * nChannels / 8` itself whenever that quotient is
below `2^16`.  Otherwise `nBlockAlign` and `nChannels` are the values the entry's media type
carried.  `wBitsPerSample` is always the carried value. -/
theorem audio_derived_fields (uninit : AudioInfo) (filter : IBaseFilter) (config : AudioConfig)
    (mt0 m : Option (AM_MEDIA_TYPE WAVEFORMATEX))
    (h : GetClosestAudioMediaType uninit filter config mt0 = some (true, m)) :
    ∃ caps pre c post info out,
      filter.audioPin = some (pinOfCaps caps) ∧
      AudioSelected uninit config caps pre c post info ∧
      m = some out ∧
      out.pbFormat.wBitsPerSample = c.mt.pbFormat.wBitsPerSample ∧
      out.pbFormat.nAvgBytesPerSec
        = (out.pbFormat.nSamplesPerSec * out.pbFormat.nBlockAlign) % 4294967296 ∧
      (out.pbFormat.nSamplesPerSec * out.pbFormat.nBlockAlign < 4294967296 →
        out.pbFormat.nAvgBytesPerSec = out.pbFormat.nSamplesPerSec * out.pbFormat.nBlockAlign) ∧
      (channelsVal config info = 0 →
        out.pbFormat.nBlockAlign
          = toWORD (Int.tdiv (toLONG (out.pbFormat.wBitsPerSample * out.pbFormat.nChannels)) 8) ∧
        (out.pbFormat.wBitsPerSample * out.pbFormat.nChannels / 8 < 65536 →
          out.pbFormat.nBlockAlign = out.pbFormat.wBitsPerSample * out.pbFormat.nChannels / 8)) ∧
      (channelsVal config info ≠ 0 →
        out.pbFormat.nBlockAlign = c.mt.pbFormat.nBlockAlign ∧
        out.pbFormat.nChannels = c.mt.pbFormat.nChannels) := by
  obtain ⟨caps, hfilter⟩ := GetClosestAudioMediaType_filter uninit filter config mt0 m h
  rw [hfilter] at h
  obtain ⟨pre, c, post, info, out, hsel, hout, hmt⟩ :=
    GetClosestAudioMediaType_selected uninit config mt0 m caps filter.videoPin h
  obtain ⟨hbits, havg, hzero, hch, _⟩ := audioOutput_spec config info c.mt out hout
  refine ⟨caps, pre, c, post, info, out, ?_, hsel, hmt, hbits, havg, ?_, ?_, ?_⟩
  · rw [hfilter]
  · intro hlt
    rw [havg, Nat.mod_eq_of_lt hlt]
  · intro hz
    refine ⟨hzero hz, ?_⟩
    intro hlt
    rw [hzero hz]
    exact blockAlign_of_small _ _ hlt
  · intro hnz
    exact ⟨(hch hnz).2, (hch hnz).1⟩

/-- Witness for C6 (amended): the 44100 Hz / 2 channel request against the 8000-16000 Hz entry,
the entry of exactly 2 channels whose media type carries block alignment 2, and the 1-2 channel
entry; the enumeration ends on the second entry, whose block alignment is recomputed to 4. -/
theorem audio_derived_fields_witness :
    ∃ caps pre c post info out,
      (some (pinOfCaps [some exampleAudioCapsLow, some exampleAudioCapsOdd,
          some exampleAudioCaps]) : Option (IPin WAVEFORMATEX _)) = some (pinOfCaps caps) ∧
      AudioSelected exampleUninit exampleAudioConfigStereo caps pre c post info ∧
      some ({ exampleAudioCapsOdd.mt with pbFormat :=
          { nChannels := 2, nSamplesPerSec := 44100, nAvgBytesPerSec := 176400,
            nBlockAlign := 4, wBitsPerSample := 16 } } : AM_MEDIA_TYPE WAVEFORMATEX)
        = some out ∧
      out.pbFormat.wBitsPerSample = c.mt.pbFormat.wBitsPerSample ∧
      out.pbFormat.nAvgBytesPerSec
        = (out.pbFormat.nSamplesPerSec * out.pbFormat.nBlockAlign) % 4294967296 ∧
      (out.pbFormat.nSamplesPerSec * out.pbFormat.nBlockAlign < 4294967296 →
        out.pbFormat.nAvgBytesPerSec = out.pbFormat.nSamplesPerSec * out.pbFormat.nBlockAlign) ∧
      (channelsVal exampleAudioConfigStereo info = 0 →
        out.pbFormat.nBlockAlign
          = toWORD (Int.tdiv (toLONG (out.pbFormat.wBitsPerSample * out.pbFormat.nChannels)) 8) ∧
        (out.pbFormat.wBitsPerSample * out.pbFormat.nChannels / 8 < 65536 →
          out.pbFormat.nBlockAlign = out.pbFormat.wBitsPerSample * out.pbFormat.nChannels / 8)) ∧
      (channelsVal exampleAudioConfigStereo info ≠ 0 →
        out.pbFormat.nBlockAlign = c.mt.pbFormat.nBlockAlign ∧
        out.pbFormat.nChannels = c.mt.pbFormat.nChannels) :=
  audio_derived_fields exampleUninit
    { videoPin := none, audioPin := some (pinOfCaps [some exampleAudioCapsLow,
        some exampleAudioCapsOdd, some exampleAudioCaps]) }
    exampleAudioConfigStereo none
    (some { exampleAudioCapsOdd.mt with pbFormat :=
      { nChannels := 2, nSamplesPerSec := 44100, nAvgBytesPerSec := 176400,
        nBlockAlign := 4, wBitsPerSample := 16 } })
    (by decide)

/-- C7 (evaluation at the failing input). Granularity invariant: the audio extraction copies a
reported granularity of 0 into the descriptor, and the selector then takes a remainder with
divisor 0 (the fault `none`) for a request that the entry matches exactly. -/
theorem audio_granularity_at_failing_input :
    (Get_FORMAT_WaveFormatEx_Data exampleUninit exampleAudioCapsFixed.mt
      exampleAudioCapsFixed.data).channelsGranularity = 0 ∧
    (Get_FORMAT_WaveFormatEx_Data exampleUninit exampleAudioCapsFixed.mt
      exampleAudioCapsFixed.data).sampleRateGranularity = 0 ∧
    ClosestAudioMTCallback exampleUninit (ClosestAudioData.new exampleAudioConfigStereo none)
      exampleAudioCapsFixed.mt exampleAudioCapsFixed.data = none ∧
    GetClosestAudioMediaType exampleUninit
      { videoPin := none, audioPin := some (pinOfCaps [some exampleAudioCapsFixed]) }
      exampleAudioConfigStereo none = none := by
  decide

/-- C8. Clamped outputs are aligned and stay in range: for `g >= 1` and `val >= minVal`,
`ClampToGranularity` returns a value `r` with `minVal <= r <= val`, `val - r < g` and
`r - minVal` a multiple of `g`; and whenever `GetClosestVideoMediaType` reports a format, it is
the one built from the selected entry (the first entry of least total), and when the width
(height) deficit of that entry's descriptor is 0 the output width (height) is the request
clamped by `ClampToGranularity`, lies within the descriptor's `[min, max]` range and is the
minimum plus a multiple of the granularity. -/
theorem clamp_aligned_and_in_range :
    (∀ val minVal g : Int, 1 ≤ g → minVal ≤ val →
      ∃ r, ClampToGranularity val minVal g = some r ∧
        minVal ≤ r ∧ r ≤ val ∧ val - r < g ∧ g ∣ (r - minVal)) ∧
    (∀ (vf : AM_MEDIA_TYPE VIDEOINFOHEADER → Option VideoFormat) (filter : IBaseFilter)
        (config : VideoConfig) (mt0 m : Option (AM_MEDIA_TYPE VIDEOINFOHEADER)),
      GetClosestVideoMediaType vf filter config mt0 = some (true, m) →
      ∃ caps pre c post info out,
        filter.videoPin = some (pinOfCaps caps) ∧
        caps = pre ++ some c :: post ∧
        videoDescriptor vf config c = some info ∧
        (∀ c' info', some c' ∈ caps → videoDescriptor vf config c' = some info' →
          videoTotal config info ≤ videoTotal config info') ∧
        (∀ c' info', some c' ∈ pre → videoDescriptor vf config c' = some info' →
          videoTotal config info < videoTotal config info') ∧
        m = some out ∧
        (xVal config info = 0 →
          ClampToGranularity config.cx info.minCX info.granularityCX
            = some out.pbFormat.bmiHeader.biWidth ∧
          info.minCX ≤ out.pbFormat.bmiHeader.biWidth ∧
          out.pbFormat.bmiHeader.biWidth ≤ info.maxCX ∧
          ∃ k : Int, 0 ≤ k ∧
            out.pbFormat.bmiHeader.biWidth = info.minCX + k * info.granularityCX) ∧
        (yVal config info = 0 →
          ClampToGranularity config.cy info.minCY info.granularityCY
            = some out.pbFormat.bmiHeader.biHeight ∧
          info.minCY ≤ out.pbFormat.bmiHeader.biHeight ∧
          out.pbFormat.bmiHeader.biHeight ≤ info.maxCY ∧
          ∃ k : Int, 0 ≤ k ∧
            out.pbFormat.bmiHeader.biHeight = info.minCY + k * info.granularityCY)) := by
  constructor
  · intro val minVal g hg hv
    refine ⟨val - Int.tmod (val - minVal) g, ClampToGranularity_of_ne_zero _ _ _ (by omega), ?_⟩
    exact clamp_bounds val minVal g hg hv
  · intro vf filter config mt0 m h
    obtain ⟨caps, hfilter⟩ := GetClosestVideoMediaType_filter vf filter config mt0 m h
    rw [hfilter] at h
    obtain ⟨pre, c, post, info, hl, hdesc, hmin, hpre, hout⟩ :=
      GetClosestVideoMediaType_selected vf config mt0 m caps filter.audioPin h
    have hgr := videoDescriptor_granularity vf config c info hdesc
    refine ⟨caps, pre, c, post, info, videoOutput config info c.mt, ?_, hl, hdesc, hmin, hpre,
      hout, ?_, ?_⟩
    · rw [hfilter]
    · intro hx
      rw [videoOutput_width_of_zero config info c.mt hx]
      have hr := (xVal_eq_zero_iff config info).1 hx
      obtain ⟨b1, b2, _, _⟩ := clamp_bounds config.cx info.minCX info.granularityCX hgr.1 hr.1
      refine ⟨ClampToGranularity_of_ne_zero _ _ _ (by omega), b1, by omega,
        Int.tdiv (config.cx - info.minCX) info.granularityCX, ?_, ?_⟩
      · exact Int.tdiv_nonneg (by omega) (by omega)
      · have := tmod_clamp_sub config.cx info.minCX info.granularityCX
        rw [mul_comm]
        omega
    · intro hy
      rw [videoOutput_height_of_zero config info c.mt hy]
      have hr := (yVal_eq_zero_iff config info).1 hy
      obtain ⟨b1, b2, _, _⟩ := clamp_bounds config.cy info.minCY info.granularityCY hgr.2 hr.1
      refine ⟨ClampToGranularity_of_ne_zero _ _ _ (by omega), b1, by omega,
        Int.tdiv (config.cy - info.minCY) info.granularityCY, ?_, ?_⟩
      · exact Int.tdiv_nonneg (by omega) (by omega)
      · have := tmod_clamp_sub config.cy info.minCY info.granularityCY
        rw [mul_comm]
        omega

/-- Witness for C8: clamping 1083 above the minimum 480 with granularity 8 gives 1080; and the
1915x1080 request against the entry fixed at 1280x720 and the 640-1920 x 480-1080 entry selects
the second entry, whose output is 1912x1080. -/
theorem clamp_aligned_and_in_range_witness :
    (∃ r, ClampToGranularity 1083 480 8 = some r ∧
      (480 : Int) ≤ r ∧ r ≤ 1083 ∧ 1083 - r < 8 ∧ (8 : Int) ∣ (r - 480)) ∧
    (∃ caps pre c post info out,
      (some (pinOfCaps [some exampleVideoCapsSmall, some exampleVideoCaps]) :
          Option (IPin VIDEOINFOHEADER _)) = some (pinOfCaps caps) ∧
      caps = pre ++ some c :: post ∧
      videoDescriptor exampleVFormat exampleVideoConfigUnaligned c = some info ∧
      (∀ c' info', some c' ∈ caps →
        videoDescriptor exampleVFormat exampleVideoConfigUnaligned c' = some info' →
        videoTotal exampleVideoConfigUnaligned info ≤ videoTotal exampleVideoConfigUnaligned info') ∧
      (∀ c' info', some c' ∈ pre →
        videoDescriptor exampleVFormat exampleVideoConfigUnaligned c' = some info' →
        videoTotal exampleVideoConfigUnaligned info < videoTotal exampleVideoConfigUnaligned info') ∧
      some ({ exampleVideoCaps.mt with pbFormat :=
          { AvgTimePerFrame := 333333, bmiHeader := { biWidth := 1912, biHeight := 1080 } } } :
          AM_MEDIA_TYPE VIDEOINFOHEADER) = some out ∧
      (xVal exampleVideoConfigUnaligned info = 0 →
        ClampToGranularity exampleVideoConfigUnaligned.cx info.minCX info.granularityCX
          = some out.pbFormat.bmiHeader.biWidth ∧
        info.minCX ≤ out.pbFormat.bmiHeader.biWidth ∧
        out.pbFormat.bmiHeader.biWidth ≤ info.maxCX ∧
        ∃ k : Int, 0 ≤ k ∧
          out.pbFormat.bmiHeader.biWidth = info.minCX + k * info.granularityCX) ∧
      (yVal exampleVideoConfigUnaligned info = 0 →
        ClampToGranularity exampleVideoConfigUnaligned.cy info.minCY info.granularityCY
          = some out.pbFormat.bmiHeader.biHeight ∧
        info.minCY ≤ out.pbFormat.bmiHeader.biHeight ∧
        out.pbFormat.bmiHeader.biHeight ≤ info.maxCY ∧
        ∃ k : Int, 0 ≤ k ∧
          out.pbFormat.bmiHeader.biHeight = info.minCY + k * info.granularityCY)) :=
  ⟨clamp_aligned_and_in_range.1 1083 480 8 (by decide) (by decide),
   clamp_aligned_and_in_range.2 exampleVFormat
     { videoPin := some (pinOfCaps [some exampleVideoCapsSmall, some exampleVideoCaps]),
       audioPin := none }
     exampleVideoConfigUnaligned none
     (some { exampleVideoCaps.mt with pbFormat :=
       { AvgTimePerFrame := 333333, bmiHeader := { biWidth := 1912, biHeight := 1080 } } })
     (by decide)⟩

/-- C9. Granularity clamping is idempotent: for `g >= 1` and every `val`, `minVal`,
`ClampToGranularity` returns a value on which a second application returns the same value, and
when `g` divides `val - minVal` that value is `val` itself. -/
theorem ClampToGranularity_idempotent (val minVal g : Int) (hg : 1 ≤ g) :
    ∃ r, ClampToGranularity val minVal g = some r ∧
      ClampToGranularity r minVal g = some r ∧
      (g ∣ (val - minVal) → r = val) := by
  have hne : g ≠ 0 := by omega
  refine ⟨val - Int.tmod (val - minVal) g, ClampToGranularity_of_ne_zero _ _ _ hne, ?_, ?_⟩
  · rw [ClampToGranularity_of_ne_zero _ _ _ hne, tmod_clamp_sub, Int.mul_tmod_right]
    simp
  · intro hdvd
    rw [Int.tmod_eq_zero_of_dvd hdvd]
    simp

/-- Witness for C9: granularity 8 above the minimum 640, at the unaligned value 1283. -/
theorem ClampToGranularity_idempotent_witness :
    ∃ r, ClampToGranularity 1283 640 8 = some r ∧
      ClampToGranularity r 640 8 = some r ∧
      ((8 : Int) ∣ (1283 - 640) → r = 1283) :=
  ClampToGranularity_idempotent 1283 640 8 (by decide)

/-- C10. Video deficit definition: for a descriptor with `min <= max` on each dimension, the
values computed by the video selector are `xVal = max(0, minCX - cx, cx - maxCX)`,
`yVal = max(0, minCY - cy, cy - maxCY)` and
`frameVal = max(0, minInterval - frameInterval, frameInterval - maxInterval)`; each is
non-negative and their sum is 0 exactly when the request lies within all three ranges. -/
theorem video_deficit_definition (config : VideoConfig) (info : VideoInfo)
    (hx : info.minCX ≤ info.maxCX) (hy : info.minCY ≤ info.maxCY)
    (hf : info.minInterval ≤ info.maxInterval) :
    xVal config info = max 0 (max (info.minCX - config.cx) (config.cx - info.maxCX)) ∧
    yVal config info = max 0 (max (info.minCY - config.cy) (config.cy - info.maxCY)) ∧
    frameVal config info
      = max 0 (max (info.minInterval - config.frameInterval)
          (config.frameInterval - info.maxInterval)) ∧
    0 ≤ xVal config info ∧ 0 ≤ yVal config info ∧ 0 ≤ frameVal config info ∧
    (xVal config info + yVal config info + frameVal config info = 0 ↔
      VideoContains config info) := by
  refine ⟨?_, ?_, ?_, xVal_nonneg config info, yVal_nonneg config info,
    frameVal_nonneg config info, ?_⟩
  · unfold xVal; split_ifs <;> omega
  · unfold yVal; split_ifs <;> omega
  · unfold frameVal; split_ifs <;> omega
  · rw [← videoTotal_eq_zero_iff]
    unfold videoTotal
    omega

/-- Witness for C10: the 1920x1080 request against the entry fixed at 1280x720. -/
theorem video_deficit_definition_witness :
    xVal exampleVideoConfig exampleVideoInfoSmall
      = max 0 (max (exampleVideoInfoSmall.minCX - exampleVideoConfig.cx)
          (exampleVideoConfig.cx - exampleVideoInfoSmall.maxCX)) ∧
    yVal exampleVideoConfig exampleVideoInfoSmall
      = max 0 (max (exampleVideoInfoSmall.minCY - exampleVideoConfig.cy)
          (exampleVideoConfig.cy - exampleVideoInfoSmall.maxCY)) ∧
    frameVal exampleVideoConfig exampleVideoInfoSmall
      = max 0 (max (exampleVideoInfoSmall.minInterval - exampleVideoConfig.frameInterval)
          (exampleVideoConfig.frameInterval - exampleVideoInfoSmall.maxInterval)) ∧
    0 ≤ xVal exampleVideoConfig exampleVideoInfoSmall ∧
    0 ≤ yVal exampleVideoConfig exampleVideoInfoSmall ∧
    0 ≤ frameVal exampleVideoConfig exampleVideoInfoSmall ∧
    (xVal exampleVideoConfig exampleVideoInfoSmall + yVal exampleVideoConfig exampleVideoInfoSmall
        + frameVal exampleVideoConfig exampleVideoInfoSmall = 0 ↔
      VideoContains exampleVideoConfig exampleVideoInfoSmall) :=
  video_deficit_definition exampleVideoConfig exampleVideoInfoSmall
    (by decide) (by decide) (by decide)

/-- C11 (counterexample). Video selector found flag: a sequence whose only entry has format type
`FORMAT_VideoInfo` but a null capability block, enumerated for a request with the wildcard
`Any`, gives `found = false`; so does the entry with a capability block when the pixel format
of its media type is unknown; and so does the entry with the null capability block for the
`XRGB` request when its media type has pixel format `XRGB`. -/
theorem video_not_found_without_descriptor :
    (exampleVideoCapsNoCaps.mt.formattype = FormatGuid.FORMAT_VideoInfo ∧
      exampleVideoConfigAny.internalFormat = VideoFormat.Any ∧
      GetClosestVideoMediaType exampleVFormat
          { videoPin := some (pinOfCaps [some exampleVideoCapsNoCaps]), audioPin := none }
          exampleVideoConfigAny none
        = some (false, none)) ∧
    (exampleVideoCaps.mt.formattype = FormatGuid.FORMAT_VideoInfo ∧
      GetClosestVideoMediaType exampleVFormatUnknown
          { videoPin := some (pinOfCaps [some exampleVideoCaps]), audioPin := none }
          exampleVideoConfigAny none
        = some (false, none)) ∧
    (exampleVFormat exampleVideoCapsNoCaps.mt = some exampleVideoConfig.internalFormat ∧
      GetClosestVideoMediaType exampleVFormat
          { videoPin := some (pinOfCaps [some exampleVideoCapsNoCaps]), audioPin := none }
          exampleVideoConfig none
        = some (false, none)) := by
  decide

/-- C11 (amended). Video selector found flag: for a sequence that enumerates,
`GetClosestVideoMediaType` returns, and it reports `found = false` exactly when no entry of the
sequence has format type `FORMAT_VideoInfo`, a known pixel format, a non-null capability block
and a pixel format equal to the requested internal format (any pixel format when the request
is the wildcard `Any`); with `found = false` the caller's media type is as it was passed in,
and with `found = true` it is the one built from the first entry of least total among those
entries. -/
theorem video_found_iff_compatible
    (vf : AM_MEDIA_TYPE VIDEOINFOHEADER → Option VideoFormat) (config : VideoConfig)
    (mt0 : Option (AM_MEDIA_TYPE VIDEOINFOHEADER)) (caps : List (Option VideoCaps))
    (audioPin : Option (IPin WAVEFORMATEX AUDIO_STREAM_CONFIG_CAPS)) :
    ∃ found m,
      GetClosestVideoMediaType vf { videoPin := some (pinOfCaps caps), audioPin := audioPin }
        config mt0 = some (found, m) ∧
      (found = false ↔
        ∀ c format vscc, some c ∈ caps →
          ¬ (c.mt.formattype = FormatGuid.FORMAT_VideoInfo ∧
            vf c.mt = some format ∧ c.data = some vscc ∧
            (config.internalFormat = format ∨ config.internalFormat = VideoFormat.Any))) ∧
      (found = false → m = mt0) ∧
      (found = true →
        ∃ pre c post info,
          caps = pre ++ some c :: post ∧
          videoDescriptor vf config c = some info ∧
          (∀ c' info', some c' ∈ caps → videoDescriptor vf config c' = some info' →
            videoTotal config info ≤ videoTotal config info') ∧
          (∀ c' info', some c' ∈ pre → videoDescriptor vf config c' = some info' →
            videoTotal config info < videoTotal config info') ∧
          m = some (videoOutput config info c.mt)) := by
  have hraw : ∀ (c : VideoCaps) (info : VideoInfo), videoDescriptor vf config c = some info →
      ∃ format vscc, c.mt.formattype = FormatGuid.FORMAT_VideoInfo ∧
        vf c.mt = some format ∧ c.data = some vscc ∧
        (config.internalFormat = format ∨ config.internalFormat = VideoFormat.Any) := by
    intro c info hd
    obtain ⟨hf, hget, hfmt⟩ := (videoDescriptor_eq_some_iff vf config c info).1 hd
    obtain ⟨hv, vscc, hdata⟩ :=
      (Get_FORMAT_VideoInfo_Data_isSome vf c.mt c.data info.format).1 ⟨info, hget, rfl⟩
    exact ⟨info.format, vscc, hf, hv, hdata, hfmt⟩
  have hdesc : ∀ (c : VideoCaps) (format : VideoFormat) (vscc : VIDEO_STREAM_CONFIG_CAPS),
      c.mt.formattype = FormatGuid.FORMAT_VideoInfo → vf c.mt = some format →
      c.data = some vscc →
      (config.internalFormat = format ∨ config.internalFormat = VideoFormat.Any) →
      ∃ info, videoDescriptor vf config c = some info := by
    intro c format vscc hf hv hdata hfmt
    obtain ⟨info, hget, hif⟩ :=
      (Get_FORMAT_VideoInfo_Data_isSome vf c.mt c.data format).2 ⟨hv, vscc, hdata⟩
    refine ⟨info, (videoDescriptor_eq_some_iff vf config c info).2 ⟨hf, hget, ?_⟩⟩
    rw [hif]
    exact hfmt
  rcases video_loop_spec vf caps (ClosestVideoData.new config mt0)
      (by intro hh; exact absurd hh (by simp [ClosestVideoData.new])) with
    ⟨h1, h2⟩ | ⟨pre, c, post, info, hl, hd, hres, _, hmin, hpre⟩
  · refine ⟨false, mt0, ?_, ?_, fun _ => rfl, fun hh => absurd hh (by simp)⟩
    · simp only [GetClosestVideoMediaType]
      rw [EnumPinCaps_pinOfCaps, h1]
      rfl
    · constructor
      · intro _ c format vscc hm hcompat
        obtain ⟨info, hd⟩ := hdesc c format vscc hcompat.1 hcompat.2.1 hcompat.2.2.1
          hcompat.2.2.2
        have := (h2 c info hm hd).1
        exact absurd this (by simp [ClosestVideoData.new])
      · intro _; rfl
  · refine ⟨true, some (videoOutput config info c.mt), ?_, ?_, ?_, ?_⟩
    · simp only [GetClosestVideoMediaType]
      rw [EnumPinCaps_pinOfCaps, hres]
      rfl
    · constructor
      · intro h; exact absurd h (by simp)
      · intro hall
        have hm : some c ∈ caps := by simp [hl]
        obtain ⟨format, vscc, a1, a2, a3, a4⟩ := hraw c info hd
        exact absurd ⟨a1, a2, a3, a4⟩ (hall c format vscc hm)
    · intro h; exact absurd h (by simp)
    · intro _
      exact ⟨pre, c, post, info, hl, hd, hmin, hpre, rfl⟩

/-- Witness for C11 (amended): the 1920x1080 request against the entry with the null capability
block followed by the 640-1920 x 480-1080 entry is reported with `found = true` and the media
type built from the second entry; against the entry with the null capability block alone it is
reported with `found = false`. -/
theorem video_found_iff_compatible_witness :
    (∃ found m,
      GetClosestVideoMediaType exampleVFormat
        { videoPin := some (pinOfCaps [some exampleVideoCapsNoCaps, some exampleVideoCaps]),
          audioPin := none }
        exampleVideoConfig none = some (found, m) ∧
      (found = false ↔
        ∀ c format vscc, some c ∈ [some exampleVideoCapsNoCaps, some exampleVideoCaps] →
          ¬ (c.mt.formattype = FormatGuid.FORMAT_VideoInfo ∧
            exampleVFormat c.mt = some format ∧ c.data = some vscc ∧
            (exampleVideoConfig.internalFormat = format ∨
              exampleVideoConfig.internalFormat = VideoFormat.Any))) ∧
      (found = false → m = none) ∧
      (found = true →
        ∃ pre c post info,
          [some exampleVideoCapsNoCaps, some exampleVideoCaps] = pre ++ some c :: post ∧
          videoDescriptor exampleVFormat exampleVideoConfig c = some info ∧
          (∀ c' info', some c' ∈ [some exampleVideoCapsNoCaps, some exampleVideoCaps] →
            videoDescriptor exampleVFormat exampleVideoConfig c' = some info' →
            videoTotal exampleVideoConfig info ≤ videoTotal exampleVideoConfig info') ∧
          (∀ c' info', some c' ∈ pre →
            videoDescriptor exampleVFormat exampleVideoConfig c' = some info' →
            videoTotal exampleVideoConfig info < videoTotal exampleVideoConfig info') ∧
          m = some (videoOutput exampleVideoConfig info c.mt))) ∧
    GetClosestVideoMediaType exampleVFormat
        { videoPin := some (pinOfCaps [some exampleVideoCapsNoCaps, some exampleVideoCaps]),
          audioPin := none }
        exampleVideoConfig none
      = some (true, some
          { exampleVideoCaps.mt with pbFormat :=
              { AvgTimePerFrame := 333333, bmiHeader := { biWidth := 1920, biHeight := 1080 } } }) ∧
    GetClosestVideoMediaType exampleVFormat
        { videoPin := some (pinOfCaps [some exampleVideoCapsNoCaps]), audioPin := none }
        exampleVideoConfig none
      = some (false, none) :=
  ⟨video_found_iff_compatible exampleVFormat exampleVideoConfig none
      [some exampleVideoCapsNoCaps, some exampleVideoCaps] none,
   by decide, by decide⟩

/-- C12. Guard discipline: when the session is uninitialized or active, `SetVideoConfig`,
`SetAudioConfig`, `ConnectFilters` and `Start` return failure (`false`, `Result::Error` for
`Start`) with every argument, make no engine call (so `Start` on an active session does not
call `Run`), and return the session state they were given; the caller's configuration object
is untouched. -/
theorem guard_discipline (env : Env) (d : HDevice) (videoConfig : Option VideoConfig)
    (audioConfig : Option AudioConfig) (h : d.initialized = false ∨ d.active = true) :
    d.SetVideoConfig env videoConfig
      = some { result := false, device := d, config := videoConfig, calls := [] } ∧
    d.SetAudioConfig env audioConfig
      = some { result := false, device := d, config := audioConfig, calls := [] } ∧
    d.ConnectFilters env = { result := false, device := d, calls := [] } ∧
    d.Start env = { result := Result.Error, device := d, calls := [] } := by
  have hg : (!d.EnsureInitialized || !d.EnsureInactive) = true := by
    rcases h with h | h <;> simp [HDevice.EnsureInitialized, HDevice.EnsureInactive, h]
  refine ⟨?_, ?_, ?_, ?_⟩
  · unfold HDevice.SetVideoConfig; rw [if_pos hg]
  · unfold HDevice.SetAudioConfig; rw [if_pos hg]
  · unfold HDevice.ConnectFilters; rw [if_pos hg]
  · unfold HDevice.Start; rw [if_pos hg]

/-- Witness for C12: the running session `exampleDeviceActive`, with non-null configuration
arguments. -/
theorem guard_discipline_witness :
    exampleDeviceActive.SetVideoConfig exampleEnv (some exampleVideoConfig)
      = some { result := false, device := exampleDeviceActive,
               config := some exampleVideoConfig, calls := [] } ∧
    exampleDeviceActive.SetAudioConfig exampleEnv (some exampleAudioConfigStereo)
      = some { result := false, device := exampleDeviceActive,
               config := some exampleAudioConfigStereo, calls := [] } ∧
    exampleDeviceActive.ConnectFilters exampleEnv
      = { result := false, device := exampleDeviceActive, calls := [] } ∧
    exampleDeviceActive.Start exampleEnv
      = { result := Result.Error, device := exampleDeviceActive, calls := [] } :=
  guard_discipline exampleEnv exampleDeviceActive (some exampleVideoConfig)
    (some exampleAudioConfigStereo) (Or.inr rfl)

/-- C13. Start outcomes: on an initialized, inactive session `Start` calls `Run` once and
returns `Success` exactly when `Run` does not fail, `InUse` exactly when `Run` returns the code
`(HRESULT)0x8007001F` (the failure code -2147024865), and `Error` exactly for every other
failure; the session is active afterwards exactly when the result is `Success`, in which case
only the `active` flag changed, and on every failure the state is the one before. -/
theorem start_outcomes (env : Env) (d : HDevice) (hi : d.initialized = true)
    (ha : d.active = false) :
    ((d.Start env).result = Result.Success ↔ FAILED env.run = false) ∧
    ((d.Start env).result = Result.InUse ↔ env.run = HRESULT_DEVICE_IN_USE) ∧
    ((d.Start env).result = Result.Error ↔
      FAILED env.run = true ∧ env.run ≠ HRESULT_DEVICE_IN_USE) ∧
    ((d.Start env).device.active = true ↔ (d.Start env).result = Result.Success) ∧
    ((d.Start env).result = Result.Success → (d.Start env).device = { d with active := true }) ∧
    ((d.Start env).result ≠ Result.Success → (d.Start env).device = d) ∧
    (d.Start env).calls = [EngineCall.Run] ∧
    HRESULT_DEVICE_IN_USE = -2147024865 ∧ FAILED HRESULT_DEVICE_IN_USE = true := by
  have hcode : HRESULT_DEVICE_IN_USE = -2147024865 := by decide
  have hfail : FAILED HRESULT_DEVICE_IN_USE = true := by decide
  have hg : (!d.EnsureInitialized || !d.EnsureInactive) = false := by
    simp [HDevice.EnsureInitialized, HDevice.EnsureInactive, hi, ha]
  by_cases hf : FAILED env.run = true
  · by_cases hc : env.run = HRESULT_DEVICE_IN_USE
    · have hS : d.Start env
          = { result := Result.InUse, device := d, calls := [EngineCall.Run] } := by
        unfold HDevice.Start
        rw [hg]
        simp only [Bool.false_eq_true, if_false, hf, if_true, hc, hfail]
      rw [hS]
      refine ⟨?_, ?_, ?_, ?_, ?_, ?_, rfl, hcode, hfail⟩
      · simp [hf]
      · simp [hc]
      · simp [hc]
      · simp [ha]
      · intro h; exact absurd h (by simp)
      · intro _; rfl
    · have hS : d.Start env
          = { result := Result.Error, device := d, calls := [EngineCall.Run] } := by
        unfold HDevice.Start
        rw [hg]
        simp only [Bool.false_eq_true, if_false, hf, if_true, hc]
      rw [hS]
      refine ⟨?_, ?_, ?_, ?_, ?_, ?_, rfl, hcode, hfail⟩
      · simp [hf]
      · simp [hc]
      · simp [hc, hf]
      · simp [ha]
      · intro h; exact absurd h (by simp)
      · intro _; rfl
  · have hf' : FAILED env.run = false := by simpa using hf
    have hc : env.run ≠ HRESULT_DEVICE_IN_USE := by
      intro hc
      rw [hc, hfail] at hf'
      exact absurd hf' (by simp)
    have hS : d.Start env
        = { result := Result.Success, device := { d with active := true },
            calls := [EngineCall.Run] } := by
      unfold HDevice.Start
      rw [hg]
      simp only [Bool.false_eq_true, if_false, hf']
    rw [hS]
    refine ⟨?_, ?_, ?_, ?_, ?_, ?_, rfl, hcode, hfail⟩
    · simp [hf']
    · simp [hc]
    · simp [hf']
    · simp
    · intro _; rfl
    · intro h; exact absurd rfl h

/-- Witness for C13: the idle session `exampleDevice` with a `Run` that succeeds. -/
theorem start_outcomes_witness :
    ((exampleDevice.Start exampleEnv).result = Result.Success ↔ FAILED exampleEnv.run = false) ∧
    ((exampleDevice.Start exampleEnv).result = Result.InUse ↔
      exampleEnv.run = HRESULT_DEVICE_IN_USE) ∧
    ((exampleDevice.Start exampleEnv).result = Result.Error ↔
      FAILED exampleEnv.run = true ∧ exampleEnv.run ≠ HRESULT_DEVICE_IN_USE) ∧
    ((exampleDevice.Start exampleEnv).device.active = true ↔
      (exampleDevice.Start exampleEnv).result = Result.Success) ∧
    ((exampleDevice.Start exampleEnv).result = Result.Success →
      (exampleDevice.Start exampleEnv).device = { exampleDevice with active := true }) ∧
    ((exampleDevice.Start exampleEnv).result ≠ Result.Success →
      (exampleDevice.Start exampleEnv).device = exampleDevice) ∧
    (exampleDevice.Start exampleEnv).calls = [EngineCall.Run] ∧
    HRESULT_DEVICE_IN_USE = -2147024865 ∧ FAILED HRESULT_DEVICE_IN_USE = true :=
  start_outcomes exampleEnv exampleDevice rfl rfl

/-- C14. Clearing the video configuration: on an initialized, inactive session, whatever video
attachment it holds, `SetVideoConfig(NULL)` returns `true` after asking the graph to remove the
video source filter and the video sink adapter; afterwards the session holds no video source
filter, no video sink adapter and no video media type, and every other member (the flags, the
audio attachment, the stored configurations) is as before. -/
theorem clear_video_config (env : Env) (d : HDevice) (hi : d.initialized = true)
    (ha : d.active = false) :
    d.SetVideoConfig env none
      = some { result := true
               device := { d with videoMediaType := none, videoFilter := none,
                                  videoCapture := none }
               config := none
               calls := [EngineCall.RemoveFilter (d.videoFilter.map GraphFilter.source),
                         EngineCall.RemoveFilter (d.videoCapture.map GraphFilter.capture)] } := by
  have hg : (!d.EnsureInitialized || !d.EnsureInactive) = false := by
    simp [HDevice.EnsureInitialized, HDevice.EnsureInactive, hi, ha]
  unfold HDevice.SetVideoConfig
  rw [hg]
  rfl

/-- Witness for C14: the session `exampleDeviceBoth`, which has video and audio attached. -/
theorem clear_video_config_witness :
    exampleDeviceBoth.SetVideoConfig exampleEnv none
      = some { result := true
               device := { exampleDeviceBoth with videoMediaType := none, videoFilter := none,
                                                  videoCapture := none }
               config := none
               calls := [EngineCall.RemoveFilter
                           (exampleDeviceBoth.videoFilter.map GraphFilter.source),
                         EngineCall.RemoveFilter
                           (exampleDeviceBoth.videoCapture.map GraphFilter.capture)] } :=
  clear_video_config exampleEnv exampleDeviceBoth rfl rfl

/-- C16. Connection fallback and short-circuit: on an initialized, inactive session
`ConnectFilters` leaves the session state as it is and makes its engine calls in this order:
for video, when a video sink is attached, `RenderStream` and only after its failure the
exact-pin calls; then for audio, when an audio sink is attached and video is absent or got
connected, the same; then the filter listing when it succeeds.  No audio call is made when a
video sink is attached and both video strategies failed.  It returns `true` exactly when
(video absent or connected by one of the two strategies) and (audio absent or connected by one
of the two strategies). -/
theorem connect_filters_fallback (env : Env) (d : HDevice) (hi : d.initialized = true)
    (ha : d.active = false) :
    (d.ConnectFilters env).device = d ∧
    ((d.ConnectFilters env).result = true ↔
      (d.videoCapture = none ∨ connectedBy env MediaKind.Video = true) ∧
      (d.audioCapture = none ∨ connectedBy env MediaKind.Audio = true)) ∧
    (d.ConnectFilters env).calls =
      (if d.videoCapture = none then [] else connectionCalls env MediaKind.Video) ++
      (if d.audioCapture = none ∨
          (d.videoCapture ≠ none ∧ connectedBy env MediaKind.Video = false) then []
       else connectionCalls env MediaKind.Audio) ++
      (if (d.ConnectFilters env).result = true then [EngineCall.EnumFilters] else []) ∧
    (d.videoCapture ≠ none → connectedBy env MediaKind.Video = false →
      (d.ConnectFilters env).result = false ∧
      (d.ConnectFilters env).calls = connectionCalls env MediaKind.Video) := by
  have hE1 : d.EnsureInitialized = true := by simp [HDevice.EnsureInitialized, hi]
  have hE2 : d.EnsureInactive = true := by simp [HDevice.EnsureInactive, ha]
  unfold HDevice.ConnectFilters HDevice.RenderFilters HDevice.ConnectPins HDevice.LogFilters
    connectedBy connectionCalls
  simp only [hE1, hE2, Bool.not_true, Bool.or_self, Bool.false_eq_true, if_false]
  cases d.videoCapture <;> cases d.audioCapture <;>
    cases FAILED (env.renderStream MediaKind.Video) <;>
    cases FAILED (env.findPin MediaKind.Video) <;>
    cases FAILED (env.connect MediaKind.Video) <;>
    cases FAILED (env.renderStream MediaKind.Audio) <;>
    cases FAILED (env.findPin MediaKind.Audio) <;>
    cases FAILED (env.connect MediaKind.Audio) <;>
    simp

/-- Witness for C16: video and audio attached; first a world where `RenderStream` fails for
video and the exact-pin connection succeeds, audio being rendered directly; then a world where
both video strategies fail, so that only the video calls are made. -/
theorem connect_filters_fallback_witness :
    ((exampleDeviceBoth.ConnectFilters exampleEnvRenderFails).device = exampleDeviceBoth ∧
    ((exampleDeviceBoth.ConnectFilters exampleEnvRenderFails).result = true ↔
      (exampleDeviceBoth.videoCapture = none ∨
        connectedBy exampleEnvRenderFails MediaKind.Video = true) ∧
      (exampleDeviceBoth.audioCapture = none ∨
        connectedBy exampleEnvRenderFails MediaKind.Audio = true)) ∧
    (exampleDeviceBoth.ConnectFilters exampleEnvRenderFails).calls =
      (if exampleDeviceBoth.videoCapture = none then []
       else connectionCalls exampleEnvRenderFails MediaKind.Video) ++
      (if exampleDeviceBoth.audioCapture = none ∨
          (exampleDeviceBoth.videoCapture ≠ none ∧
            connectedBy exampleEnvRenderFails MediaKind.Video = false) then []
       else connectionCalls exampleEnvRenderFails MediaKind.Audio) ++
      (if (exampleDeviceBoth.ConnectFilters exampleEnvRenderFails).result = true then
        [EngineCall.EnumFilters] else []) ∧
    (exampleDeviceBoth.videoCapture ≠ none →
      connectedBy exampleEnvRenderFails MediaKind.Video = false →
      (exampleDeviceBoth.ConnectFilters exampleEnvRenderFails).result = false ∧
      (exampleDeviceBoth.ConnectFilters exampleEnvRenderFails).calls
        = connectionCalls exampleEnvRenderFails MediaKind.Video)) ∧
    ((exampleDeviceBoth.ConnectFilters exampleEnvVideoFails).result = false ∧
      (exampleDeviceBoth.ConnectFilters exampleEnvVideoFails).calls
        = connectionCalls exampleEnvVideoFails MediaKind.Video) :=
  ⟨connect_filters_fallback exampleEnvRenderFails exampleDeviceBoth rfl rfl,
   (connect_filters_fallback exampleEnvVideoFails exampleDeviceBoth rfl rfl).2.2.2
     (by decide) (by decide)⟩

/-- C17. Stop: after `Stop` the session is inactive and every other member is as before; the
engine's `Stop` is called once when the session was active and not at all otherwise, so `Stop`
on an inactive session returns it unchanged without a call, and a second `Stop` changes nothing
and makes no call. -/
theorem stop_idempotent (d : HDevice) :
    d.Stop.1 = { d with active := false } ∧
    d.Stop.1.active = false ∧
    d.Stop.2 = (if d.active = true then [EngineCall.Stop] else []) ∧
    (d.active = false → d.Stop = (d, [])) ∧
    d.Stop.1.Stop = (d.Stop.1, []) := by
  cases d with
  | mk graph builder control videoFilter audioFilter videoCapture audioCapture videoMediaType
      audioMediaType videoConfig audioConfig initializedFlag activeFlag =>
    cases activeFlag <;> simp [HDevice.Stop]

/-- C18. Session creation: on an initialized session `CreateGraph` returns `false`, makes no
engine call and returns the state unchanged; on an uninitialized session it returns `true`
exactly when the four engine steps (create the graph, create the builder, query the media
control, bind the builder to the graph) all succeed, the `initialized` flag afterwards equals
the result, and the steps are called in order up to the first failure. -/
theorem create_graph_outcomes (env : Env) (d : HDevice) :
    (d.initialized = true →
      d.CreateGraph env = { result := false, device := d, calls := [] }) ∧
    (d.initialized = false →
      ((d.CreateGraph env).result = true ↔
        FAILED env.createFilterGraph = false ∧ FAILED env.createCaptureGraphBuilder2 = false ∧
        FAILED env.queryMediaControl = false ∧ FAILED env.setFiltergraph = false) ∧
      (d.CreateGraph env).device.initialized = (d.CreateGraph env).result ∧
      (d.CreateGraph env).calls =
        (if FAILED env.createFilterGraph then [EngineCall.CreateFilterGraph]
         else if FAILED env.createCaptureGraphBuilder2 then
           [EngineCall.CreateFilterGraph, EngineCall.CreateCaptureGraphBuilder2]
         else if FAILED env.queryMediaControl then
           [EngineCall.CreateFilterGraph, EngineCall.CreateCaptureGraphBuilder2,
            EngineCall.QueryMediaControl]
         else
           [EngineCall.CreateFilterGraph, EngineCall.CreateCaptureGraphBuilder2,
            EngineCall.QueryMediaControl, EngineCall.SetFiltergraph])) := by
  constructor
  · intro hi
    unfold HDevice.CreateGraph
    rw [if_pos hi]
  · intro hi
    unfold HDevice.CreateGraph
    simp only [hi, Bool.false_eq_true, if_false]
    cases FAILED env.createFilterGraph <;> cases FAILED env.createCaptureGraphBuilder2 <;>
      cases FAILED env.queryMediaControl <;> cases FAILED env.setFiltergraph <;>
      simp [hi]

/-- Witness for C18: the initialized session `exampleDevice`, and a fresh session in a world
where all four steps succeed. -/
theorem create_graph_outcomes_witness :
    exampleDevice.CreateGraph exampleEnv
      = { result := false, device := exampleDevice, calls := [] } ∧
    ((HDevice.new exampleVideoConfig exampleAudioConfigStereo).CreateGraph exampleEnv).result
      = true ∧
    ((HDevice.new exampleVideoConfig exampleAudioConfigStereo).CreateGraph exampleEnv).device.initialized
      = true :=
  ⟨(create_graph_outcomes exampleEnv exampleDevice).1 rfl,
   ((create_graph_outcomes exampleEnv
      (HDevice.new exampleVideoConfig exampleAudioConfigStereo)).2 rfl).1.2
      ⟨rfl, rfl, rfl, rfl⟩,
   by
     rw [((create_graph_outcomes exampleEnv
       (HDevice.new exampleVideoConfig exampleAudioConfigStereo)).2 rfl).2.1]
     rfl⟩

/-- C19. Sample forwarding: for each stream, when the sample is present, a callback is
registered for that stream, the data length is nonzero and both `GetPointer` and `GetTime`
succeed, the stream's registered callback is invoked exactly once, with the pointer, length,
start time and stop time of the sample; in every other case nothing is invoked; an invocation
by `VideoCallback` is never of the audio stream's callback and conversely. -/
theorem sample_forwarding (d : HDevice) (sample : Option IMediaSample) :
    (∀ s callback, sample = some s → d.videoConfig.callback = some callback →
      s.actualDataLength ≠ 0 → FAILED s.getPointer = false → FAILED s.getTime = false →
      d.VideoCallback sample
        = [{ stream := MediaKind.Video, proc := callback, ptr := s.ptr,
             size := s.actualDataLength, startTime := s.startTime, stopTime := s.stopTime }]) ∧
    (¬ (∃ s callback, sample = some s ∧ d.videoConfig.callback = some callback ∧
        s.actualDataLength ≠ 0 ∧ FAILED s.getPointer = false ∧ FAILED s.getTime = false) →
      d.VideoCallback sample = []) ∧
    (∀ invocation ∈ d.VideoCallback sample, invocation.stream = MediaKind.Video) ∧
    (∀ s callback, sample = some s → d.audioConfig.callback = some callback →
      s.actualDataLength ≠ 0 → FAILED s.getPointer = false → FAILED s.getTime = false →
      d.AudioCallback sample
        = [{ stream := MediaKind.Audio, proc := callback, ptr := s.ptr,
             size := s.actualDataLength, startTime := s.startTime, stopTime := s.stopTime }]) ∧
    (¬ (∃ s callback, sample = some s ∧ d.audioConfig.callback = some callback ∧
        s.actualDataLength ≠ 0 ∧ FAILED s.getPointer = false ∧ FAILED s.getTime = false) →
      d.AudioCallback sample = []) ∧
    (∀ invocation ∈ d.AudioCallback sample, invocation.stream = MediaKind.Audio) := by
  refine ⟨?_, ?_, ?_, ?_, ?_, ?_⟩
  · intro s callback hs hc hl hp ht
    simp [HDevice.VideoCallback, hs, hc, hl, hp, ht]
  · intro hno
    unfold HDevice.VideoCallback
    cases hs : sample with
    | none => rfl
    | some s =>
      cases hc : d.videoConfig.callback with
      | none => rfl
      | some callback =>
        simp only
        by_cases hl : s.actualDataLength = 0
        · simp [hl]
        · by_cases hp : FAILED s.getPointer = true
          · simp [hl, hp]
          · by_cases ht : FAILED s.getTime = true
            · simp [hl, hp, ht]
            · exact absurd ⟨s, callback, hs, hc, hl, by simpa using hp, by simpa using ht⟩ hno
  · intro invocation hm
    unfold HDevice.VideoCallback at hm
    cases hs : sample with
    | none => simp [hs] at hm
    | some s =>
      cases hc : d.videoConfig.callback with
      | none => simp [hs, hc] at hm
      | some callback =>
        simp only [hs, hc] at hm
        split_ifs at hm <;> simp at hm
        rw [hm]
  · intro s callback hs hc hl hp ht
    simp [HDevice.AudioCallback, hs, hc, hl, hp, ht]
  · intro hno
    unfold HDevice.AudioCallback
    cases hs : sample with
    | none => rfl
    | some s =>
      cases hc : d.audioConfig.callback with
      | none => rfl
      | some callback =>
        simp only
        by_cases hl : s.actualDataLength = 0
        · simp [hl]
        · by_cases hp : FAILED s.getPointer = true
          · simp [hl, hp]
          · by_cases ht : FAILED s.getTime = true
            · simp [hl, hp, ht]
            · exact absurd ⟨s, callback, hs, hc, hl, by simpa using hp, by simpa using ht⟩ hno
  · intro invocation hm
    unfold HDevice.AudioCallback at hm
    cases hs : sample with
    | none => simp [hs] at hm
    | some s =>
      cases hc : d.audioConfig.callback with
      | none => simp [hs, hc] at hm
      | some callback =>
        simp only [hs, hc] at hm
        split_ifs at hm <;> simp at hm
        rw [hm]

/-- Witness for C19: a 4096-byte sample delivered to a session with procedure 7 registered for
video and procedure 8 for audio. -/
theorem sample_forwarding_witness :
    exampleDeviceCallbacks.VideoCallback (some exampleSample)
      = [{ stream := MediaKind.Video, proc := 7, ptr := 1000, size := 4096,
           startTime := 10, stopTime := 20 }] ∧
    exampleDeviceCallbacks.AudioCallback (some exampleSample)
      = [{ stream := MediaKind.Audio, proc := 8, ptr := 1000, size := 4096,
           startTime := 10, stopTime := 20 }] ∧
    exampleDeviceCallbacks.VideoCallback none = [] :=
  ⟨(sample_forwarding exampleDeviceCallbacks (some exampleSample)).1 exampleSample 7 rfl rfl
      (by decide) rfl rfl,
   (sample_forwarding exampleDeviceCallbacks (some exampleSample)).2.2.2.1 exampleSample 8 rfl rfl
      (by decide) rfl rfl,
   (sample_forwarding exampleDeviceCallbacks none).2.1 (by simp)⟩

/-- C20 (counterexample). Configuration write-back: on the idle session `exampleDevice`, a
request for the device's default format succeeds with the default media type
`exampleOtherMediaType` (720x576, interval 400000), for which there is no bitmap info header;
the caller's configuration afterwards equals the stored one, but it still holds 1920x1080 at
interval 333333, not the values of the selected media type. -/
theorem write_back_without_bitmap_header :
    exampleDevice.initialized = true ∧ exampleDevice.active = false ∧
    ∃ r, exampleDevice.SetVideoConfig exampleEnvOtherDefault (some exampleVideoConfigDefault)
        = some r ∧
      r.result = true ∧ r.config = some r.device.videoConfig ∧
      r.device.videoMediaType = some exampleOtherMediaType ∧
      exampleEnvOtherDefault.hasBitmapInfoHeader exampleOtherMediaType = false ∧
      r.device.videoConfig.cx = 1920 ∧
      exampleOtherMediaType.pbFormat.bmiHeader.biWidth = 720 ∧
      r.device.videoConfig.cy = 1080 ∧
      exampleOtherMediaType.pbFormat.bmiHeader.biHeight = 576 ∧
      r.device.videoConfig.frameInterval = 333333 ∧
      exampleOtherMediaType.pbFormat.AvgTimePerFrame = 400000 := by
  refine ⟨rfl, rfl, _, rfl, rfl, rfl, rfl, rfl, rfl, rfl, rfl, rfl, rfl, rfl⟩

/-- C20 (amended). Configuration write-back: `SetVideoConfig` with a non-null configuration on
an initialized, inactive session returns; if it succeeds, the caller's configuration object
afterwards equals the session's stored video configuration and the session holds a media type;
the stored width, height and frame interval equal those of that media type when it has a
bitmap info header, and otherwise the stored configuration is the one passed in; if the call
fails, the caller's configuration object is as it was passed in. -/
theorem set_video_config_write_back (env : Env) (d : HDevice) (c : VideoConfig)
    (hi : d.initialized = true) (ha : d.active = false) :
    ∃ r, d.SetVideoConfig env (some c) = some r ∧
      (r.result = true →
        r.config = some r.device.videoConfig ∧
        ∃ mt, r.device.videoMediaType = some mt ∧
          (env.hasBitmapInfoHeader mt = true →
            r.device.videoConfig.cx = mt.pbFormat.bmiHeader.biWidth ∧
            r.device.videoConfig.cy = mt.pbFormat.bmiHeader.biHeight ∧
            r.device.videoConfig.frameInterval = mt.pbFormat.AvgTimePerFrame) ∧
          (env.hasBitmapInfoHeader mt = false → r.device.videoConfig = c)) ∧
      (r.result = false → r.config = some c) := by
  have hg : (!d.EnsureInitialized || !d.EnsureInactive) = false := by
    simp [HDevice.EnsureInitialized, HDevice.EnsureInactive, hi, ha]
  unfold HDevice.SetVideoConfig
  rw [hg]
  simp only [Bool.false_eq_true, if_false]
  by_cases hname : c.name = "" ∧ c.path = ""
  · rw [if_pos hname]
    exact ⟨_, rfl, fun hh => absurd hh (by simp), fun _ => rfl⟩
  · rw [if_neg hname]
    cases hdev : env.GetDeviceFilter MediaKind.Video c.name c.path with
    | none => exact ⟨_, rfl, fun hh => absurd hh (by simp), fun _ => rfl⟩
    | some found =>
      cases found with
      | none => exact ⟨_, rfl, fun hh => absurd hh (by simp), fun _ => rfl⟩
      | some filter =>
        simp only
        obtain ⟨r, hr, hspec⟩ := SetupVideoCapture_spec env
          { d with videoMediaType := none, videoFilter := none, videoCapture := none,
                   videoConfig := c } filter
        rw [hr]
        simp only
        cases hres : r.result with
        | false =>
          simp only [Bool.not_false, if_true]
          exact ⟨_, rfl, fun hh => absurd hh (by simp), fun _ => rfl⟩
        | true =>
          simp only [Bool.not_true, Bool.false_eq_true, if_false]
          refine ⟨_, rfl, fun _ => ⟨rfl, ?_⟩, fun hh => absurd hh (by simp)⟩
          obtain ⟨mt, hmt, h1, h2⟩ := hspec hres
          exact ⟨mt, hmt, h1, h2⟩

/-- Witness for C20 (amended): the 1920x1080 request on the idle session `exampleDevice`, whose
device offers 640-1920 x 480-1080. -/
theorem set_video_config_write_back_witness :
    ∃ r, exampleDevice.SetVideoConfig exampleEnv (some exampleVideoConfig) = some r ∧
      (r.result = true →
        r.config = some r.device.videoConfig ∧
        ∃ mt, r.device.videoMediaType = some mt ∧
          (exampleEnv.hasBitmapInfoHeader mt = true →
            r.device.videoConfig.cx = mt.pbFormat.bmiHeader.biWidth ∧
            r.device.videoConfig.cy = mt.pbFormat.bmiHeader.biHeight ∧
            r.device.videoConfig.frameInterval = mt.pbFormat.AvgTimePerFrame) ∧
          (exampleEnv.hasBitmapInfoHeader mt = false →
            r.device.videoConfig = exampleVideoConfig)) ∧
      (r.result = false → r.config = some exampleVideoConfig) :=
  set_video_config_write_back exampleEnv exampleDevice exampleVideoConfig rfl rfl

/-- C21. Unconstrained (zero-bound) video descriptors: when any of the four reported size bounds
of a capability record is 0, the extraction (which returns a descriptor whenever the pixel
format of the media type is known) gives `minCX = maxCX` = the declared width and
`minCY = maxCY` = the declared height; and whenever `GetClosestVideoMediaType` reports a
format, it is the one built from the selected entry (the first entry of least total distance),
and if the capability record of that entry has a zero bound, the output width and height are
the declared width and height of the entry's media type. -/
theorem zero_bound_descriptor_uses_declared_size :
    (∀ (vf : AM_MEDIA_TYPE VIDEOINFOHEADER → Option VideoFormat)
        (mt : AM_MEDIA_TYPE VIDEOINFOHEADER) (vscc : VIDEO_STREAM_CONFIG_CAPS),
      (vscc.MinOutputSize.cx = 0 ∨ vscc.MinOutputSize.cy = 0 ∨
        vscc.MaxOutputSize.cx = 0 ∨ vscc.MaxOutputSize.cy = 0) →
      (∀ format, vf mt = some format →
        ∃ info, Get_FORMAT_VideoInfo_Data vf mt (some vscc) = some info) ∧
      (∀ info, Get_FORMAT_VideoInfo_Data vf mt (some vscc) = some info →
        info.minCX = mt.pbFormat.bmiHeader.biWidth ∧
        info.maxCX = mt.pbFormat.bmiHeader.biWidth ∧
        info.minCY = mt.pbFormat.bmiHeader.biHeight ∧
        info.maxCY = mt.pbFormat.bmiHeader.biHeight)) ∧
    (∀ (vf : AM_MEDIA_TYPE VIDEOINFOHEADER → Option VideoFormat) (config : VideoConfig)
        (mt0 m : Option (AM_MEDIA_TYPE VIDEOINFOHEADER)) (caps : List (Option VideoCaps))
        (audioPin : Option (IPin WAVEFORMATEX AUDIO_STREAM_CONFIG_CAPS)),
      GetClosestVideoMediaType vf { videoPin := some (pinOfCaps caps), audioPin := audioPin }
        config mt0 = some (true, m) →
      ∃ pre c post info out,
        caps = pre ++ some c :: post ∧
        videoDescriptor vf config c = some info ∧
        (∀ c' info', some c' ∈ caps → videoDescriptor vf config c' = some info' →
          videoTotal config info ≤ videoTotal config info') ∧
        (∀ c' info', some c' ∈ pre → videoDescriptor vf config c' = some info' →
          videoTotal config info < videoTotal config info') ∧
        m = some out ∧
        (∀ vscc, c.data = some vscc →
          (vscc.MinOutputSize.cx = 0 ∨ vscc.MinOutputSize.cy = 0 ∨
            vscc.MaxOutputSize.cx = 0 ∨ vscc.MaxOutputSize.cy = 0) →
          out.pbFormat.bmiHeader.biWidth = c.mt.pbFormat.bmiHeader.biWidth ∧
          out.pbFormat.bmiHeader.biHeight = c.mt.pbFormat.bmiHeader.biHeight)) := by
  constructor
  · intro vf mt vscc hz
    constructor
    · intro format hf
      unfold Get_FORMAT_VideoInfo_Data
      rw [hf]
      exact ⟨_, rfl⟩
    · intro info h
      exact Get_FORMAT_VideoInfo_Data_zero_bound vf mt vscc info hz h
  · intro vf config mt0 m caps audioPin h
    simp only [GetClosestVideoMediaType] at h
    rw [EnumPinCaps_pinOfCaps] at h
    rcases video_loop_spec vf caps (ClosestVideoData.new config mt0)
        (by intro hh; exact absurd hh (by simp [ClosestVideoData.new])) with
      ⟨h1, _⟩ | ⟨pre, c, post, info, hl, hdesc, hres, _, hmin, hpre⟩
    · rw [h1] at h
      simp [ClosestVideoData.new] at h
    · rw [hres] at h
      simp only [Option.map_some', Bool.not_true, Bool.false_eq_true, if_false,
        Option.some.injEq, Prod.mk.injEq] at h
      refine ⟨pre, c, post, info, videoOutput config info c.mt, hl, hdesc, hmin, hpre, ?_, ?_⟩
      · rw [← h.2]; rfl
      · intro vscc hdata hz
        have hparts := (videoDescriptor_eq_some_iff vf config c info).1 hdesc
        have hget := hparts.2.1
        rw [hdata] at hget
        obtain ⟨a1, a2, a3, a4⟩ := Get_FORMAT_VideoInfo_Data_zero_bound vf c.mt vscc info hz hget
        exact videoOutput_of_single_size config info c.mt a1 a2 a3 a4

/-- Witness for C21: the record with all four bounds 0 and declared size 1280x720, listed
first, against the 1920x1080 request. -/
theorem zero_bound_descriptor_uses_declared_size_witness :
    Get_FORMAT_VideoInfo_Data exampleVFormat exampleVideoCapsZero.mt exampleVideoCapsZero.data
      = some exampleVideoInfoSmall ∧
    (∃ pre c post info out,
      [some exampleVideoCapsZero, some exampleVideoCapsRange] = pre ++ some c :: post ∧
      videoDescriptor exampleVFormat exampleVideoConfig c = some info ∧
      (∀ c' info', some c' ∈ [some exampleVideoCapsZero, some exampleVideoCapsRange] →
        videoDescriptor exampleVFormat exampleVideoConfig c' = some info' →
        videoTotal exampleVideoConfig info ≤ videoTotal exampleVideoConfig info') ∧
      (∀ c' info', some c' ∈ pre →
        videoDescriptor exampleVFormat exampleVideoConfig c' = some info' →
        videoTotal exampleVideoConfig info < videoTotal exampleVideoConfig info') ∧
      some (videoOutput exampleVideoConfig exampleVideoInfoSmall exampleVideoCapsZero.mt)
        = some out ∧
      (∀ vscc, c.data = some vscc →
        (vscc.MinOutputSize.cx = 0 ∨ vscc.MinOutputSize.cy = 0 ∨
          vscc.MaxOutputSize.cx = 0 ∨ vscc.MaxOutputSize.cy = 0) →
        out.pbFormat.bmiHeader.biWidth = c.mt.pbFormat.bmiHeader.biWidth ∧
        out.pbFormat.bmiHeader.biHeight = c.mt.pbFormat.bmiHeader.biHeight)) :=
  ⟨by decide,
   zero_bound_descriptor_uses_declared_size.2 exampleVFormat exampleVideoConfig none
     (some (videoOutput exampleVideoConfig exampleVideoInfoSmall exampleVideoCapsZero.mt))
     [some exampleVideoCapsZero, some exampleVideoCapsRange] none (by decide)⟩

/-- C22 (counterexample). Attachment consistency: from a fresh session, `CreateGraph` followed by
`SetVideoConfig` for 1920x1080 in a world where the device rejects the selected format
(`SetFormat` fails) reaches a state in which the call has returned `false`, no video source
filter and no video sink adapter are attached, and the selected video media type is stored;
`SetAudioConfig` behaves the same way for the audio members. -/
theorem media_type_remains_after_rejected_format :
    (∃ r, exampleDevice.SetVideoConfig exampleEnvFormatRejected (some exampleVideoConfig)
        = some r ∧
      r.result = false ∧ r.device.videoFilter = none ∧ r.device.videoCapture = none ∧
      r.device.videoMediaType = some
        { exampleVideoCaps.mt with pbFormat :=
            { AvgTimePerFrame := 333333, bmiHeader := { biWidth := 1920, biHeight := 1080 } } } ∧
      (HDevice.new exampleVideoConfig exampleAudioConfigStereo).run
          [(exampleEnv, Operation.CreateGraph),
           (exampleEnvFormatRejected, Operation.SetVideoConfig (some exampleVideoConfig))]
        = some r.device ∧
      ¬ r.device.AllOrNone) ∧
    (∃ r, exampleDevice.SetAudioConfig exampleEnvFormatRejected (some exampleAudioConfigStereo)
        = some r ∧
      r.result = false ∧ r.device.audioFilter = none ∧ r.device.audioCapture = none ∧
      r.device.audioMediaType.isSome = true ∧
      (HDevice.new exampleVideoConfig exampleAudioConfigStereo).run
          [(exampleEnv, Operation.CreateGraph),
           (exampleEnvFormatRejected, Operation.SetAudioConfig (some exampleAudioConfigStereo))]
        = some r.device ∧
      ¬ r.device.AllOrNone) := by
  constructor
  · refine ⟨_, rfl, rfl, rfl, rfl, rfl, rfl, ?_⟩
    intro h
    rcases h.1 with ⟨a, _, _⟩ | ⟨_, _, c⟩
    · exact absurd a (by decide)
    · exact absurd c (by decide)
  · refine ⟨_, rfl, rfl, rfl, rfl, rfl, rfl, ?_⟩
    intro h
    rcases h.2 with ⟨a, _, _⟩ | ⟨_, _, c⟩
    · exact absurd a (by decide)
    · exact absurd c (by decide)

/-- C22 (amended). Attachment consistency: in every state reached from a fresh session by a
sequence of `CreateGraph`, `SetVideoConfig`, `SetAudioConfig`, `ConnectFilters`, `Start` and
`Stop` calls, each in an arbitrary outside world, the video source filter and the video sink
adapter are both present or both absent, a video media type is stored whenever they are
present, and likewise for audio; after a `SetVideoConfig` or `SetAudioConfig` call on an
initialized, inactive session that returns failure, the source filter and the sink adapter
of that stream are absent. -/
theorem attachment_consistency :
    (∀ (videoConfig : VideoConfig) (audioConfig : AudioConfig) (steps : List (Env × Operation))
        (d : HDevice),
      (HDevice.new videoConfig audioConfig).run steps = some d →
      (d.videoFilter.isSome = d.videoCapture.isSome ∧
        (d.videoFilter.isSome = true → d.videoMediaType.isSome = true)) ∧
      (d.audioFilter.isSome = d.audioCapture.isSome ∧
        (d.audioFilter.isSome = true → d.audioMediaType.isSome = true))) ∧
    (∀ (env : Env) (d : HDevice) (config : Option VideoConfig) (r : ConfigRet VideoConfig),
      d.initialized = true → d.active = false → d.SetVideoConfig env config = some r →
      r.result = false → r.device.videoFilter = none ∧ r.device.videoCapture = none) ∧
    (∀ (env : Env) (d : HDevice) (config : Option AudioConfig) (r : ConfigRet AudioConfig),
      d.initialized = true → d.active = false → d.SetAudioConfig env config = some r →
      r.result = false → r.device.audioFilter = none ∧ r.device.audioCapture = none) := by
  refine ⟨?_, ?_, ?_⟩
  · intro videoConfig audioConfig steps d hrun
    have h0 : (HDevice.new videoConfig audioConfig).AttachmentConsistent := by
      simp [HDevice.AttachmentConsistent, HDevice.new]
    exact run_AttachmentConsistent steps _ d h0 hrun
  · intro env d config r hi ha hr hres
    rcases SetVideoConfig_fields env d config r hr with ⟨hg, _, _⟩ | ⟨_, _, _, _, _, a4⟩
    · rcases hg with hg | hg
      · rw [hi] at hg; exact absurd hg (by simp)
      · rw [ha] at hg; exact absurd hg (by simp)
    · rcases a4 with b | ⟨b, _⟩
      · exact b
      · rw [hres] at b; exact absurd b (by simp)
  · intro env d config r hi ha hr hres
    rcases SetAudioConfig_fields env d config r hr with ⟨hg, _, _⟩ | ⟨_, _, _, _, _, a4⟩
    · rcases hg with hg | hg
      · rw [hi] at hg; exact absurd hg (by simp)
      · rw [ha] at hg; exact absurd hg (by simp)
    · rcases a4 with b | ⟨b, _⟩
      · exact b
      · rw [hres] at b; exact absurd b (by simp)

/-- Witness for C22 (amended): the state `exampleReached`, reached by `exampleSteps` (a
successful `SetVideoConfig`, then a `SetAudioConfig` whose format the device rejects); and the
failing `SetVideoConfig` on the idle session `exampleDevice`. -/
theorem attachment_consistency_witness :
    ((HDevice.new exampleVideoConfig exampleAudioConfigStereo).run exampleSteps
        = some exampleReached ∧
      (exampleReached.videoFilter.isSome = exampleReached.videoCapture.isSome ∧
        (exampleReached.videoFilter.isSome = true →
          exampleReached.videoMediaType.isSome = true)) ∧
      (exampleReached.audioFilter.isSome = exampleReached.audioCapture.isSome ∧
        (exampleReached.audioFilter.isSome = true →
          exampleReached.audioMediaType.isSome = true))) ∧
    (∃ r, exampleDevice.SetVideoConfig exampleEnvFormatRejected (some exampleVideoConfig)
        = some r ∧ r.device.videoFilter = none ∧ r.device.videoCapture = none) :=
  ⟨⟨rfl, attachment_consistency.1 exampleVideoConfig exampleAudioConfigStereo exampleSteps
      exampleReached rfl⟩,
   ⟨{ result := false
      device :=
        { exampleDevice with
          videoMediaType := some
            { exampleVideoCaps.mt with pbFormat :=
                { AvgTimePerFrame := 333333,
                  bmiHeader := { biWidth := 1920, biHeight := 1080 } } } }
      config := some exampleVideoConfig
      calls := [EngineCall.RemoveFilter none, EngineCall.RemoveFilter none] },
    rfl,
    attachment_consistency.2.1 exampleEnvFormatRejected exampleDevice (some exampleVideoConfig)
      { result := false
        device :=
          { exampleDevice with
            videoMediaType := some
              { exampleVideoCaps.mt with pbFormat :=
                  { AvgTimePerFrame := 333333,
                    bmiHeader := { biWidth := 1920, biHeight := 1080 } } } }
        config := some exampleVideoConfig
        calls := [EngineCall.RemoveFilter none, EngineCall.RemoveFilter none] }
      rfl rfl rfl rfl⟩⟩

end DShow
